import Mathlib

/-!
# Mock outlet generator: shallow embedding of `pkg/mock/mock.go` and of the handler of `main.go`

The generator of the repository is a tree of Go functions that draw from the
global `math/rand` source and read the wall clock.  The embedding makes both
explicit:

* `World` carries the stream of outcomes of the random source (one natural
  number per draw) and the stream of readings of the clock (one per
  `time.Now()`); every generator is a function `World → Except String (α × World)`
  (`Gen`), where `Except.error` is a Go run-time panic (`rand.Intn` with a
  non-positive bound, `make` with a length out of range, an index out of
  range).
* `int` is the 64-bit two's complement integer of the usual Go platforms:
  the arithmetic of `randomizeCount` wraps (`wrapInt`), and `int32(..)`
  conversions wrap to 32 bits (`int32`).
* `float64` is a parameter (`Float64Ops`): the definitions use its operations
  without assuming any law, so that a statement proved for every `F` holds for
  IEEE-754 doubles as well.  Two instances are given: `Binary64`, the doubles
  themselves with their rounding to the nearest value, and `ℚ`, for the
  statements "in exact arithmetic".
* `time.Time` and its calendar arithmetic are a parameter as well (`TimeOps`);
  `timestamppb.New` and `AsTime` are the identity.
* a `nil` slice and an empty slice are both the empty list.  `make` panics on
  a negative length and on a length whose bytes exceed `maxAlloc`, as the
  run-time system of the 64-bit platforms does; below that limit the memory of
  the machine is taken to suffice.
* a loop `for i := 0; i < count; i++` that fills a slice made by `make` is
  `makeAndFill size count body`, `size` being the bytes of one element; the
  fields of a composite literal are evaluated in source order.

The file has three parts: the model (the functions of mock.go under their own
names), the definitions the statements use together with the model of the
request handler of main.go, and the theorems.  Generators are
reasoned about with `sat E g w Q`: the run of `g` from `w` satisfies `Q` if it
returns and `E` if it panics.
-/

namespace Mock

/-! ## Machine integers -/

/-- The largest value of Go's `int` on a 64-bit platform. -/
def maxInt : Int := 9223372036854775807

/-- The two's complement 64-bit value of an exact integer result. -/
def wrapInt (x : Int) : Int :=
  (x + 9223372036854775808) % 18446744073709551616 - 9223372036854775808

/-- The conversion `int32(x)`: the two's complement 32-bit value. -/
def int32 (x : Int) : Int :=
  (x + 2147483648) % 4294967296 - 2147483648

/-! ## float64 and time.Time as parameters -/

/-- The operations of `float64` the generator uses. `ofRat` is the value of a
literal or of a converted integer, `toInt` the conversion to an integer. -/
class Float64Ops (F : Type) where
  ofRat : ℚ → F
  fadd : F → F → F
  fsub : F → F → F
  fmul : F → F → F
  fdiv : F → F → F
  flt : F → F → Bool
  toInt : F → Int

/-- Exact arithmetic: every operation is the one of the rationals. -/
instance exactArith : Float64Ops ℚ where
  ofRat q := q
  fadd a b := a + b
  fsub a b := a - b
  fmul a b := a * b
  fdiv a b := a / b
  flt a b := decide (a < b)
  toInt q := if 0 ≤ q then q.floor else q.ceil

/-! ## float64 as IEEE 754 binary64

The doubles themselves, for the statements that depend on their rounding.
Every operation computes the exact result and rounds it to the nearest double,
to the one with an even significand when two are equally near (the rounding
of Go); results of magnitude `2^1024` or more are infinities. -/

/-- The integer nearest to `p / q`, the even one of two that are equally near. -/
def roundHalfEven (p q : Nat) : Nat :=
  if 2 * (p % q) < q then p / q
  else if q < 2 * (p % q) then p / q + 1
  else if p / q % 2 = 0 then p / q
  else p / q + 1

/-- The number of binary digits of `n`, counted in at most `fuel` steps. -/
def bitsOf : Nat → Nat → Nat
  | 0, _ => 0
  | fuel + 1, n => if n = 0 then 0 else bitsOf fuel (n / 2) + 1

/-- The number of binary digits of `n`. -/
def bitLength (n : Nat) : Nat := bitsOf n n

/-- A value of `float64`: the finite number `m * 2^e`, negated if `negative`,
with `m < 2^53` and `-1074 <= e <= 971` (and `2^52 <= m` unless `e = -1074`);
an infinity; or a NaN. -/
inductive Binary64 where
  | finite (negative : Bool) (m : Nat) (e : Int)
  | inf (negative : Bool)
  | nan
  deriving DecidableEq

namespace Binary64

/-- The double nearest to the quotient `p / q` of two natural numbers (`q > 0`),
negated if `negative`: with `2^e <= p / q < 2^(e+1)` the quotient is rounded to
a multiple of `2^(e-52)`, of `2^(-1074)` at least. -/
def round (negative : Bool) (p q : Nat) : Binary64 :=
  if p = 0 then finite negative 0 (-1074)
  else
    let d : Int := (bitLength p : Int) - (bitLength q : Int)
    let e : Int := if q * 2 ^ d.toNat ≤ p * 2 ^ (-d).toNat then d else d - 1
    let t : Int := max (e - 52) (-1074)
    let n := roundHalfEven (p * 2 ^ (-t).toNat) (q * 2 ^ t.toNat)
    if n = 9007199254740992 then
      (if 971 < t + 1 then inf negative else finite negative 4503599627370496 (t + 1))
    else if 971 < t then inf negative
    else finite negative n t

/-- The double nearest to `c * 2^e`, for an integer `c` that is not zero. -/
def roundScaled (c e : Int) : Binary64 :=
  round (decide (c < 0)) (c.natAbs * 2 ^ e.toNat) (2 ^ (-e).toNat)

/-- The finite number `m * 2^e`, negated if `negative`, in units of `2^unit`
(`unit <= e`). -/
def scaled (negative : Bool) (m : Nat) (e unit : Int) : Int :=
  (if negative then -(m : Int) else (m : Int)) * 2 ^ (e - unit).toNat

def neg : Binary64 → Binary64
  | finite s m e => finite (!s) m e
  | inf s => inf (!s)
  | nan => nan

def add : Binary64 → Binary64 → Binary64
  | finite s1 m1 e1, finite s2 m2 e2 =>
    let c := scaled s1 m1 e1 (min e1 e2) + scaled s2 m2 e2 (min e1 e2)
    if c = 0 then finite (s1 && s2) 0 (-1074) else roundScaled c (min e1 e2)
  | finite _ _ _, inf s2 => inf s2
  | inf s1, finite _ _ _ => inf s1
  | inf s1, inf s2 => if s1 = s2 then inf s1 else nan
  | _, _ => nan

def sub (x y : Binary64) : Binary64 := add x (neg y)

def mul : Binary64 → Binary64 → Binary64
  | finite s1 m1 e1, finite s2 m2 e2 =>
    round (s1 != s2) (m1 * m2 * 2 ^ (e1 + e2).toNat) (2 ^ (-(e1 + e2)).toNat)
  | finite s1 m1 _, inf s2 => if m1 = 0 then nan else inf (s1 != s2)
  | inf s1, finite s2 m2 _ => if m2 = 0 then nan else inf (s1 != s2)
  | inf s1, inf s2 => inf (s1 != s2)
  | _, _ => nan

def div : Binary64 → Binary64 → Binary64
  | finite s1 m1 e1, finite s2 m2 e2 =>
    if m2 = 0 then (if m1 = 0 then nan else inf (s1 != s2))
    else round (s1 != s2) (m1 * 2 ^ (e1 - e2).toNat) (m2 * 2 ^ (e2 - e1).toNat)
  | finite s1 _ _, inf s2 => finite (s1 != s2) 0 (-1074)
  | inf s1, finite s2 _ _ => inf (s1 != s2)
  | _, _ => nan

/-- The comparison `x < y`; false when one of the two is a NaN. -/
def lt : Binary64 → Binary64 → Bool
  | finite s1 m1 e1, finite s2 m2 e2 =>
    decide (scaled s1 m1 e1 (min e1 e2) < scaled s2 m2 e2 (min e1 e2))
  | finite _ _ _, inf s2 => !s2
  | inf s1, finite _ _ _ => s1
  | inf s1, inf s2 => s1 && !s2
  | _, _ => false

/-- The conversion to `int`: the fraction is dropped; a value that is no
64-bit integer, an infinity and a NaN give the smallest `int`, as on amd64
(the language leaves these cases to the implementation). -/
def toInt : Binary64 → Int
  | finite s m e =>
    let v : Int := if s then -((m * 2 ^ e.toNat / 2 ^ (-e).toNat : Nat) : Int)
      else ((m * 2 ^ e.toNat / 2 ^ (-e).toNat : Nat) : Int)
    if -9223372036854775808 ≤ v ∧ v ≤ 9223372036854775807 then v else -9223372036854775808
  | _ => -9223372036854775808

/-- The double of a literal or of a converted integer: the nearest to it. -/
def ofRat (q : ℚ) : Binary64 := round (decide (q < 0)) q.num.natAbs q.den

/-- The number a finite double stands for (0 for an infinity and a NaN). -/
def toRat : Binary64 → ℚ
  | finite s m e => (if s then -(m : ℚ) else (m : ℚ)) * 2 ^ e
  | _ => 0

end Binary64

/-- The arithmetic of the doubles. -/
instance ieee : Float64Ops Binary64 where
  ofRat := Binary64.ofRat
  fadd := Binary64.add
  fsub := Binary64.sub
  fmul := Binary64.mul
  fdiv := Binary64.div
  flt := Binary64.lt
  toInt := Binary64.toInt

/-- The operations of `time.Time` the generator uses. -/
class TimeOps (T : Type) where
  AddDate : T → Int → Int → Int → T
  Before : T → T → Bool

/-- A day counter with months of 30 and years of 365 days, used to build
concrete inputs only. -/
instance dayCounter : TimeOps Int where
  AddDate t years months days := t + 365 * years + 30 * months + days
  Before t u := decide (t < u)

open Float64Ops TimeOps

/-! ## The random source, the clock and the generator monad -/

/-- The outcomes still to be drawn from the random source and the readings
still to be returned by the clock. -/
structure World (T : Type) where
  rng : Nat → Nat
  clock : Nat → T

/-- The world after one draw. -/
def World.nextDraw {T : Type} (w : World T) : World T :=
  { w with rng := fun i => w.rng (i + 1) }

/-- The world after one reading of the clock. -/
def World.tick {T : Type} (w : World T) : World T :=
  { w with clock := fun i => w.clock (i + 1) }

/-- The world whose next draw has outcome `r` and that continues as `w`. -/
def World.withDraw {T : Type} (r : Nat) (w : World T) : World T :=
  { w with rng := fun i => match i with
      | 0 => r
      | j + 1 => w.rng j }

/-- A generator: a computation over the world that returns or panics. The index
`F` records the float64 arithmetic the generator computes with. -/
def Gen (_F T : Type) (α : Type) : Type := World T → Except String (α × World T)

instance {F T : Type} : Monad (Gen F T) where
  pure a := fun w => Except.ok (a, w)
  bind g f := fun w =>
    match g w with
    | Except.ok (a, w1) => f a w1
    | Except.error e => Except.error e

/-- A run-time panic. -/
def goPanic {F T α : Type} (msg : String) : Gen F T α := fun _ => Except.error msg

namespace rand

/-- The call `rand.Intn(n)`: panics when `n <= 0`, else one draw reduced to
`[0, n)`. -/
def Intn {F T : Type} (n : Int) : Gen F T Int := fun w =>
  if n ≤ 0 then Except.error "invalid argument to Intn"
  else Except.ok ((w.rng 0 : Int) % n, w.nextDraw)

/-- The values of `Int63()` that `Float64` keeps. -/
def keptInt63 : Nat := 9223372036854775296

/-- The quotient `float64(k) / (1 << 63)` that `Float64` computes from the
value `k` of `Int63()`. -/
def unitOf (F : Type) [Float64Ops F] (k : Nat) : F :=
  fdiv (ofRat (k : ℚ)) (ofRat 9223372036854775808)

/-- The call `rand.Float64()`: the quotient `float64(r.Int63()) / (1 << 63)`,
drawn again when it is 1.  In float64 it is 1 for the 512 values of `Int63()`
from `2^63 - 512` on, which round to `2^63`; the outcome of the source is the
value that is kept, one below `keptInt63`. -/
def Float64 {F T : Type} [Float64Ops F] : Gen F T F := fun w =>
  Except.ok (unitOf F (w.rng 0 % keptInt63), w.nextDraw)

end rand

namespace time

/-- The call `time.Now()`: one reading of the clock. -/
def Now {F T : Type} : Gen F T T := fun w => Except.ok (w.clock 0, w.tick)

end time

namespace rand

/-- The call `rand.Seed(time.Now().UnixNano())`: the clock is read; the
outcomes of the world are those drawn after the seeding. -/
def Seed {F T : Type} : Gen F T Unit := do
  let _ ← (time.Now : Gen F T T)
  pure ()

end rand

/-- The expression `slice[i]`: panics when the index is out of range. -/
def index {F T α : Type} (slice : List α) (i : Int) : Gen F T α :=
  if i < 0 then goPanic "index out of range"
  else match slice[i.toNat]? with
    | some x => pure x
    | none => goPanic "index out of range"

/-- The body `body i` run for `i = start, start + 1, ..`, `n` times. -/
def fillFrom {F T α : Type} (body : Int → Gen F T α) : Nat → Int → Gen F T (List α)
  | 0, _ => pure []
  | n + 1, i => do
    let x ← body i
    let xs ← fillFrom body n (i + 1)
    pure (x :: xs)

/-- The largest number of bytes of one allocation: `maxAlloc` of the run-time
system, `2^48` on the 64-bit platforms with 48 bits of heap address
(linux/amd64 among them). -/
def maxAlloc : Int := 281474976710656

/-- The idiom `s := make([]X, count); for i := 0; i < count; i++ { s[i] = .. }`
for elements of `size` bytes (8 for a pointer, 1 for a byte): `make` panics on
a negative length and on a length of more than `maxAlloc` bytes. -/
def makeAndFill {F T α : Type} (size count : Int) (body : Int → Gen F T α) :
    Gen F T (List α) :=
  if count < 0 ∨ maxAlloc < size * count then goPanic "makeslice: len out of range"
  else fillFrom body count.toNat 0

/-! ## fmt.Sprintf -/

namespace fmt

/-- The decimal digit of a number below ten. -/
def digitChar (d : Nat) : Char := Char.ofNat (48 + d)

/-- The decimal digits of `n`, most significant first (`fuel > log n`). -/
def digits : Nat → Nat → List Char
  | 0, _ => []
  | fuel + 1, n =>
    if n < 10 then [digitChar n] else digits fuel (n / 10) ++ [digitChar (n % 10)]

/-- The verb `%d` on a natural number. -/
def natDec (n : Nat) : String := String.mk (digits (n + 1) n)

/-- The verb `%0<width>d` (`width = 0` for `%d`): a minus sign for a negative
number, then zeros up to the width, then the decimal digits. -/
def d (width : Nat) (n : Int) : String :=
  let ds := natDec n.natAbs
  if n < 0 then "-" ++ String.mk (List.replicate (width - 1 - ds.length) '0') ++ ds
  else String.mk (List.replicate (width - ds.length) '0') ++ ds

end fmt

/-! ## The records of the generated protocol package (`pb`), from their use in mock.go -/

inductive OutletType where
  | UNSPECIFIED | RETAIL | WHOLESALE | PHARMACY | SUPERMARKET | CONVENIENCE_STORE | RESTAURANT
  deriving DecidableEq

inductive OutletStatus where
  | UNSPECIFIED | ACTIVE
  deriving DecidableEq

inductive ContactType where
  | UNSPECIFIED | MANAGER
  deriving DecidableEq

inductive VisitType where
  | UNSPECIFIED | SALES_CALL | DELIVERY | SUPPORT | AUDIT | TRAINING
  deriving DecidableEq

inductive VisitStatus where
  | UNSPECIFIED | COMPLETED
  deriving DecidableEq

inductive ActionType where
  | UNSPECIFIED | FOLLOW_UP | PRODUCT_DEMO | PRICE_NEGOTIATION | DELIVERY_SCHEDULE
  | PAYMENT_COLLECTION
  deriving DecidableEq

inductive ActionStatus where
  | UNSPECIFIED | PENDING | IN_PROGRESS | COMPLETED
  deriving DecidableEq

inductive OrderStatus where
  | UNSPECIFIED | DELIVERED | SHIPPED | PROCESSING | CONFIRMED
  deriving DecidableEq

inductive PaymentStatus where
  | UNSPECIFIED | PAID
  deriving DecidableEq

inductive PaymentMethod where
  | UNSPECIFIED | CASH | CREDIT_CARD | BANK_TRANSFER | CREDIT
  deriving DecidableEq

inductive DeliveryStatus where
  | UNSPECIFIED | DELIVERED
  deriving DecidableEq

inductive CustomerSegment where
  | UNSPECIFIED | BRONZE | SILVER | GOLD | PLATINUM
  deriving DecidableEq

inductive CreditStatus where
  | UNSPECIFIED | GOOD
  deriving DecidableEq

inductive NoteType where
  | UNSPECIFIED | GENERAL | SALES | SUPPORT | COMPLAINT | OPPORTUNITY | REMINDER
  deriving DecidableEq

inductive AssetType where
  | UNSPECIFIED | FREEZER | REFRIGERATOR | DISPLAY_UNIT | SIGNAGE | POS_SYSTEM | SHELVING
  deriving DecidableEq

inductive AssetStatus where
  | UNSPECIFIED | ACTIVE
  deriving DecidableEq

inductive MaintenanceType where
  | UNSPECIFIED | ROUTINE | REPAIR | REPLACEMENT | UPGRADE
  deriving DecidableEq

inductive ChecklistCategory where
  | UNSPECIFIED | COMPLIANCE | SAFETY | QUALITY | INVENTORY | MAINTENANCE | MARKETING
  deriving DecidableEq

/-- The status of a checklist item; `UNSPECIFIED` is the zero value of the
variable `status` before a branch assigns it. -/
inductive ChecklistStatus where
  | UNSPECIFIED | PENDING | COMPLETED | OVERDUE
  deriving DecidableEq

inductive Priority where
  | UNSPECIFIED | LOW | MEDIUM | HIGH | CRITICAL
  deriving DecidableEq

inductive NewsType where
  | UNSPECIFIED | GENERAL | PROMOTION | PRODUCT_LAUNCH | POLICY_CHANGE | MARKET_UPDATE
  | COMPETITOR
  deriving DecidableEq

inductive NewsSource where
  | UNSPECIFIED | INTERNAL | EXTERNAL | OUTLET | MARKET_RESEARCH
  deriving DecidableEq

structure MockSettings where
  AverageNotesList : Int
  AverageVisitHistory : Int
  AverageNumberOfOrders : Int
  AverageOrderItemsPerOrder : Int
  AverageTopProductsInStatistics : Int
  AverageOutletsNearby : Int
  AverageAssetList : Int
  AverageChecklist : Int
  AverageNews : Int

structure Location (F : Type) where
  Address : String
  City : String
  State : String
  PostalCode : String
  Country : String
  Latitude : F
  Longitude : F

structure ContactPoint (T : Type) where
  ContactId : String
  Name : String
  Role : String
  Phone : String
  Email : String
  Typ : ContactType
  IsPrimary : Bool
  CreatedAt : T

structure VisitAction (T : Type) where
  ActionId : String
  Description : String
  Typ : ActionType
  Status : ActionStatus
  DueDate : T

structure Visit (T : Type) where
  VisitId : String
  SalesRepId : String
  SalesRepName : String
  VisitDate : T
  VisitType : VisitType
  VisitStatus : VisitStatus
  Purpose : String
  Summary : String
  ProductsDiscussed : List String
  ActionsTaken : List (VisitAction T)
  Attachments : List String
  DurationSeconds : Int

structure OrderItem (F : Type) where
  ProductId : String
  ProductName : String
  Sku : String
  Quantity : Int
  UnitPrice : F
  TotalPrice : F
  DiscountPercentage : F
  DiscountAmount : F

structure PaymentInfo (F T : Type) where
  Method : PaymentMethod
  Status : PaymentStatus
  PaymentDate : T
  AmountPaid : F
  AmountDue : F
  ReferenceNumber : String

structure DeliveryInfo (T : Type) where
  DeliveryAddress : String
  ScheduledDate : T
  ActualDate : T
  Status : DeliveryStatus
  DeliveryNotes : String
  TrackingNumber : String

structure Order (F T : Type) where
  OrderId : String
  OrderNumber : String
  OrderDate : T
  Status : OrderStatus
  TotalAmount : F
  Currency : String
  Items : List (OrderItem F)
  PaymentInfo : PaymentInfo F T
  DeliveryInfo : DeliveryInfo T
  SalesRepId : String
  SalesRepName : String
  DeliveryDate : T
  Notes : String

structure ProductStatistics (F : Type) where
  ProductId : String
  ProductName : String
  QuantitySold : Int
  Revenue : F
  OrdersCount : Int

structure MonthlyRevenue (F : Type) where
  Year : Int
  Month : Int
  Revenue : F
  OrdersCount : Int

structure CreditInfo (F : Type) where
  CreditLimit : F
  CreditUsed : F
  CreditAvailable : F
  PaymentTermsDays : Int
  Status : CreditStatus

structure OutletStatistics (F : Type) where
  TotalRevenueYtd : F
  TotalRevenueLastYear : F
  AverageOrderValue : F
  TotalOrdersYtd : Int
  TotalOrdersLastYear : Int
  TotalVisitsYtd : Int
  RevenueGrowthPercentage : F
  DaysSinceLastOrder : Int
  DaysSinceLastVisit : Int
  TopProducts : List (ProductStatistics F)
  MonthlyRevenue : List (MonthlyRevenue F)
  Segment : CustomerSegment
  CreditInfo : CreditInfo F

structure OutletNearby (F : Type) where
  OutletId : String
  Name : String
  Typ : OutletType
  DistanceKm : F
  Location : Location F
  IsCompetitor : Bool
  Relationship : String
  Thumbnail : String

structure Note (T : Type) where
  NoteId : String
  Title : String
  Content : String
  Typ : NoteType
  CreatedBy : String
  CreatedAt : T
  UpdatedAt : T
  IsPrivate : Bool
  Tags : List String

structure AssetMaintenance (F T : Type) where
  Date : T
  Typ : MaintenanceType
  Description : String
  Technician : String
  Cost : F

structure Asset (F T : Type) where
  AssetId : String
  Name : String
  Typ : AssetType
  Model : String
  SerialNumber : String
  Status : AssetStatus
  InstallationDate : T
  LastMaintenanceDate : T
  NextMaintenanceDate : T
  LocationDetails : String
  Condition : String
  MaintenanceHistory : List (AssetMaintenance F T)

/-- A checklist item; `CompletedDate` is a pointer that stays nil unless the
item is completed. -/
structure ChecklistItem (T : Type) where
  ItemId : String
  Title : String
  Description : String
  Category : ChecklistCategory
  Status : ChecklistStatus
  Priority : Priority
  DueDate : T
  CompletedDate : Option T
  AssignedTo : String
  CompletedBy : String
  Notes : String

structure News (T : Type) where
  NewsId : String
  Title : String
  Content : String
  Typ : NewsType
  Source : NewsSource
  PublishedDate : T
  Author : String
  Url : String
  Tags : List String
  IsImportant : Bool

structure OutletDetails (F T : Type) where
  OutletId : String
  Name : String
  Code : String
  Thumbnail : String
  Typ : OutletType
  Status : OutletStatus
  Location : Location F
  CreatedAt : T
  UpdatedAt : T
  ContactPoints : List (ContactPoint T)
  VisitHistory : List (Visit T)
  OrderHistory : List (Order F T)
  Statistics : OutletStatistics F
  OutletsNearby : List (OutletNearby F)
  Notes : List (Note T)
  AssetList : List (Asset F T)
  Checklist : List (ChecklistItem T)
  News : List (News T)

/-! ## Sample data pools -/

def outletNames : List String :=
  ["SuperMart Downtown", "MegaStore Central", "QuickMart Express", "FamilyShop Plus",
   "GroceryWorld", "FreshMart Deluxe", "CityStore Premium", "NeighborhoodMart",
   "ValueMart Pro", "LocalShop Central", "MarketPlace Elite", "ShopRite Corner"]

def storeManagers : List String :=
  ["John Smith", "Sarah Johnson", "Mike Wilson", "Emily Davis",
   "Robert Brown", "Lisa Anderson", "David Miller", "Jennifer Garcia",
   "Michael Taylor", "Amanda Wilson", "Christopher Lee", "Jessica Martinez"]

def salesReps : List String :=
  ["Mike Wilson", "Sarah Thompson", "Alex Rodriguez", "Maria Garcia",
   "James Brown", "Nicole Taylor", "Kevin Davis", "Rachel Martinez",
   "Daniel Lee", "Amanda Clark", "Steven White", "Michelle Lopez"]

def productNames : List String :=
  ["Premium Cola 24-pack", "Organic Chips Variety Pack", "Energy Drink Mix",
   "Sparkling Water Cases", "Protein Bars Box", "Healthy Snack Mix",
   "Juice Bottle Set", "Coffee Bean Bags", "Tea Collection Box",
   "Vitamin Water Pack", "Sports Drink Cases", "Smoothie Mix Packets"]

def cities : List String :=
  ["Metro City", "Downtown Plaza", "Central District", "Uptown Area",
   "Riverside", "Hillside", "Lakeside", "Parkview", "Westside", "Eastgate"]

def noteTypes : List NoteType :=
  [NoteType.GENERAL, NoteType.SALES, NoteType.SUPPORT, NoteType.COMPLAINT,
   NoteType.OPPORTUNITY, NoteType.REMINDER]

def assetTypes : List AssetType :=
  [AssetType.FREEZER, AssetType.REFRIGERATOR, AssetType.DISPLAY_UNIT, AssetType.SIGNAGE,
   AssetType.POS_SYSTEM, AssetType.SHELVING]

def checklistCategories : List ChecklistCategory :=
  [ChecklistCategory.COMPLIANCE, ChecklistCategory.SAFETY, ChecklistCategory.QUALITY,
   ChecklistCategory.INVENTORY, ChecklistCategory.MAINTENANCE, ChecklistCategory.MARKETING]

/-! ## The generators of mock.go -/

section Generators

variable {F T : Type} [Float64Ops F] [TimeOps T]

def randomizeCount (average : Int) : Gen F T Int :=
  if average ≤ 1 then pure average
  else do
    -- Generate count with ±50% variance from average
    let min := average.tdiv 2
    let max := wrapInt (average + average.tdiv 2)
    let r ← rand.Intn (wrapInt (wrapInt (max - min) + 1))
    pure (wrapInt (r + min))

def randomChoice (slice : List String) : Gen F T String :=
  if slice.length = 0 then pure ""
  else do
    let i ← rand.Intn slice.length
    index slice i

/-- The constant `charset` of randomString. -/
def charset : List Char := "ABCDEFGHIJKLMNOPQRSTUVWXYZ".toList

def randomString (length : Int) : Gen F T String := do
  let result ← makeAndFill 1 length (fun _ => do
    let i ← rand.Intn charset.length
    index charset i)
  pure (String.mk result)

def randomOutletType : Gen F T OutletType := do
  let types := [OutletType.RETAIL, OutletType.WHOLESALE, OutletType.PHARMACY,
    OutletType.SUPERMARKET, OutletType.CONVENIENCE_STORE, OutletType.RESTAURANT]
  let i ← rand.Intn types.length
  index types i

def generateRandomLocation : Gen F T (Location F) := do
  let city ← randomChoice cities
  let number ← rand.Intn 999
  let street ← randomChoice ["Main", "Oak", "Pine", "Elm", "First", "Second"]
  let postal ← rand.Intn 99999
  let r1 ← rand.Float64
  let r2 ← rand.Float64
  pure {
    Address := fmt.d 0 (number + 1) ++ " " ++ street ++ " Street, " ++ city
    City := city
    State := "Central State"
    PostalCode := fmt.d 5 postal
    Country := "Country Name"
    Latitude := fadd (ofRat 40.7128) (fmul (fsub r1 (ofRat 0.5)) (ofRat 0.1))
    Longitude := fadd (ofRat (-74.0060)) (fmul (fsub r2 (ofRat 0.5)) (ofRat 0.1)) }

def generateContactPoints (count : Int) : Gen F T (List (ContactPoint T)) :=
  makeAndFill 8 count (fun i => do
    let name ← randomChoice storeManagers
    let role ← randomChoice ["Store Manager", "Assistant Manager", "Buyer", "Operations Manager"]
    let phone ← rand.Intn 9999
    let email ← randomString 8
    let now ← time.Now
    let months ← rand.Intn 12
    let days ← rand.Intn 30
    pure {
      ContactId := "contact-" ++ fmt.d 3 (i + 1)
      Name := name
      Role := role
      Phone := "+1-555-" ++ fmt.d 4 phone
      Email := email ++ "@store.com"
      Typ := ContactType.MANAGER
      IsPrimary := decide (i = 0) -- First contact is primary
      CreatedAt := AddDate now 0 (-months) (-days) })

def randomVisitType : Gen F T VisitType := do
  let types := [VisitType.SALES_CALL, VisitType.DELIVERY, VisitType.SUPPORT,
    VisitType.AUDIT, VisitType.TRAINING]
  let i ← rand.Intn types.length
  index types i

def randomActionType : Gen F T ActionType := do
  let types := [ActionType.FOLLOW_UP, ActionType.PRODUCT_DEMO, ActionType.PRICE_NEGOTIATION,
    ActionType.DELIVERY_SCHEDULE, ActionType.PAYMENT_COLLECTION]
  let i ← rand.Intn types.length
  index types i

def randomActionStatus : Gen F T ActionStatus := do
  let statuses := [ActionStatus.PENDING, ActionStatus.IN_PROGRESS, ActionStatus.COMPLETED]
  let i ← rand.Intn statuses.length
  index statuses i

def generateVisitActions (count : Int) : Gen F T (List (VisitAction T)) :=
  makeAndFill 8 count (fun i => do
    let description ← randomChoice ["Follow up on pricing", "Schedule product demo",
      "Negotiate terms", "Arrange delivery", "Collect payment"]
    let typ ← randomActionType
    let status ← randomActionStatus
    let now ← time.Now
    let days ← rand.Intn 30
    pure {
      ActionId := "action-" ++ fmt.d 3 (i + 1)
      Description := description
      Typ := typ
      Status := status
      DueDate := AddDate now 0 0 (days + 1) })

def generateVisitHistory (count : Int) : Gen F T (List (Visit T)) :=
  makeAndFill 8 count (fun i => do
    let now ← time.Now
    let back ← rand.Intn 365
    let visitDate := AddDate now 0 0 (-back)
    let rep ← rand.Intn 10
    let repName ← randomChoice salesReps
    let visitType ← randomVisitType
    let purpose ← randomChoice ["Product presentation", "Order discussion", "Customer support",
      "Inventory check", "Relationship building"]
    let summary ← randomChoice ["Client showed interest in new products.",
      "Discussed upcoming promotions.", "Resolved customer concerns.", "Planned next steps."]
    let product1 ← randomChoice productNames
    let product2 ← randomChoice productNames
    let actionCount ← rand.Intn 2
    let actions ← generateVisitActions (actionCount + 1)
    let duration ← rand.Intn 3600
    pure {
      VisitId := "visit-" ++ fmt.d 3 (i + 1)
      SalesRepId := "rep-" ++ fmt.d 3 (rep + 1)
      SalesRepName := repName
      VisitDate := visitDate
      VisitType := visitType
      VisitStatus := VisitStatus.COMPLETED
      Purpose := purpose
      Summary := "Visit completed successfully. " ++ summary
      ProductsDiscussed := [product1, product2]
      ActionsTaken := actions
      Attachments := ["document_" ++ fmt.d 0 (i + 1) ++ ".pdf"]
      DurationSeconds := int32 (duration + 1800) }) -- 30 minutes to 2 hours

def generateOrderItems (count : Int) : Gen F T (List (OrderItem F)) :=
  makeAndFill 8 count (fun _ => do
    let whole ← rand.Intn 50
    let fraction ← rand.Float64
    let unitPrice : F := fadd (ofRat ((whole + 5 : Int) : ℚ)) fraction
    let q ← rand.Intn 100
    let quantity := int32 (q + 1)
    let pct ← rand.Intn 20
    let discountPct : F := ofRat ((pct : Int) : ℚ)
    let totalPrice := fmul (ofRat ((quantity : Int) : ℚ)) unitPrice
    let discountAmount := fmul totalPrice (fdiv discountPct (ofRat 100))
    let product ← rand.Intn 100
    let productName ← randomChoice productNames
    let skuLetters ← randomString 3
    let skuNumber ← rand.Intn 999
    pure {
      ProductId := "prod-" ++ fmt.d 3 (product + 1)
      ProductName := productName
      Sku := skuLetters ++ "-" ++ fmt.d 3 (skuNumber + 1)
      Quantity := quantity
      UnitPrice := unitPrice
      TotalPrice := fsub totalPrice discountAmount
      DiscountPercentage := discountPct
      DiscountAmount := discountAmount })

def calculateOrderTotal (items : List (OrderItem F)) : F :=
  items.foldl (fun total item => fadd total item.TotalPrice) (ofRat 0)

def randomOrderStatus : Gen F T OrderStatus := do
  let statuses := [OrderStatus.DELIVERED, OrderStatus.SHIPPED, OrderStatus.PROCESSING,
    OrderStatus.CONFIRMED]
  let i ← rand.Intn statuses.length
  index statuses i

def randomPaymentMethod : Gen F T PaymentMethod := do
  let methods := [PaymentMethod.CASH, PaymentMethod.CREDIT_CARD, PaymentMethod.BANK_TRANSFER,
    PaymentMethod.CREDIT]
  let i ← rand.Intn methods.length
  index methods i

def generatePaymentInfo (amount : F) (orderDate : T) : Gen F T (PaymentInfo F T) := do
  let method ← randomPaymentMethod
  let reference ← rand.Intn 999999
  pure {
    Method := method
    Status := PaymentStatus.PAID
    PaymentDate := orderDate
    AmountPaid := amount
    AmountDue := ofRat 0
    ReferenceNumber := "PAY-2024-" ++ fmt.d 6 (reference + 1) }

def generateDeliveryInfo (orderDate : T) : Gen F T (DeliveryInfo T) := do
  let lead ← rand.Intn 5
  let scheduledDate := AddDate orderDate 0 0 (lead + 1)
  let number ← rand.Intn 999
  let street ← randomChoice ["Main", "Oak", "Pine", "Elm"]
  let tracking ← rand.Intn 999999
  pure {
    DeliveryAddress := fmt.d 0 (number + 1) ++ " " ++ street ++ " Street"
    ScheduledDate := scheduledDate
    ActualDate := scheduledDate
    Status := DeliveryStatus.DELIVERED
    DeliveryNotes := "Delivery completed successfully"
    TrackingNumber := "TRK-2024-" ++ fmt.d 6 (tracking + 1) }

def generateOrderHistory (count : Int) (avgItemsPerOrder : Int) : Gen F T (List (Order F T)) :=
  makeAndFill 8 count (fun i => do
    let now ← time.Now
    let back ← rand.Intn 365
    let orderDate := AddDate now 0 0 (-back)
    let drawn ← randomizeCount avgItemsPerOrder
    let itemCount := if drawn = 0 then 1 else drawn
    let items ← generateOrderItems itemCount
    let totalAmount := calculateOrderTotal items
    let number ← rand.Intn 999999
    let status ← randomOrderStatus
    let paymentInfo ← generatePaymentInfo totalAmount orderDate
    let deliveryInfo ← generateDeliveryInfo orderDate
    let rep ← rand.Intn 10
    let repName ← randomChoice salesReps
    let deliveryDays ← rand.Intn 7
    let notes ← randomChoice ["Standard delivery", "Express shipping", "Customer pickup",
      "Special instructions followed"]
    pure {
      OrderId := "order-" ++ fmt.d 3 (i + 1)
      OrderNumber := "ORD-2024-" ++ fmt.d 6 (number + 1)
      OrderDate := orderDate
      Status := status
      TotalAmount := totalAmount
      Currency := "USD"
      Items := items
      PaymentInfo := paymentInfo
      DeliveryInfo := deliveryInfo
      SalesRepId := "rep-" ++ fmt.d 3 (rep + 1)
      SalesRepName := repName
      DeliveryDate := AddDate orderDate 0 0 (deliveryDays + 1)
      Notes := notes })

def generateTopProducts (count : Int) : Gen F T (List (ProductStatistics F)) :=
  if count = 0 then pure []
  else makeAndFill 8 count (fun i => do
    let sold ← rand.Intn 1000
    let quantitySold := int32 (sold + 100)
    let r ← rand.Float64
    let revenue : F := fmul (ofRat ((quantitySold : Int) : ℚ)) (fadd (fmul r (ofRat 20)) (ofRat 5))
    let productName ← randomChoice productNames
    let orders ← rand.Intn 20
    pure {
      ProductId := "prod-" ++ fmt.d 3 (i + 1)
      ProductName := productName
      QuantitySold := quantitySold
      Revenue := revenue
      OrdersCount := int32 (orders + 5) })

def generateMonthlyRevenue : Gen F T (List (MonthlyRevenue F)) :=
  makeAndFill 8 6 (fun i => do
    let r ← rand.Float64
    let orders ← rand.Intn 10
    pure {
      Year := 2024
      Month := int32 (i + 1)
      Revenue := fadd (fmul r (ofRat 5000)) (ofRat 5000) -- 5k-10k
      OrdersCount := int32 (orders + 3) })

def randomCustomerSegment : Gen F T CustomerSegment := do
  let segments := [CustomerSegment.BRONZE, CustomerSegment.SILVER, CustomerSegment.GOLD,
    CustomerSegment.PLATINUM]
  let i ← rand.Intn segments.length
  index segments i

def generateCreditInfo : Gen F T (CreditInfo F) := do
  let limit ← rand.Intn 50000
  let creditLimit : F := ofRat ((limit + 10000 : Int) : ℚ)
  let r ← rand.Float64
  let creditUsed := fmul creditLimit (fmul r (ofRat 0.7)) -- Up to 70% used
  let terms ← rand.Intn 60
  pure {
    CreditLimit := creditLimit
    CreditUsed := creditUsed
    CreditAvailable := fsub creditLimit creditUsed
    PaymentTermsDays := int32 (terms + 15) -- 15-75 days
    Status := CreditStatus.GOOD }

def generateStatistics (topProductsCount : Int) (orders : List (Order F T))
    (visits : List (Visit T)) : Gen F T (OutletStatistics F) := do
  let totalRevenue : F := orders.foldl (fun total order => fadd total order.TotalAmount) (ofRat 0)
  let avgOrderValue : F :=
    if orders.length > 0 then fdiv totalRevenue (ofRat ((orders.length : Int) : ℚ))
    else ofRat 0
  let r1 ← rand.Float64
  let r2 ← rand.Float64
  let r3 ← rand.Float64
  let sinceOrder ← rand.Intn 30
  let sinceVisit ← rand.Intn 30
  let topProducts ← generateTopProducts topProductsCount
  let monthlyRevenue ← generateMonthlyRevenue
  let segment ← randomCustomerSegment
  let creditInfo ← generateCreditInfo
  pure {
    TotalRevenueYtd := totalRevenue
    TotalRevenueLastYear := fmul totalRevenue (fadd (ofRat 0.7) (fmul r1 (ofRat 0.6)))
    AverageOrderValue := avgOrderValue
    TotalOrdersYtd := int32 orders.length
    TotalOrdersLastYear :=
      int32 (toInt (fmul (ofRat ((orders.length : Int) : ℚ) : F)
        (fadd (ofRat 0.7) (fmul r2 (ofRat 0.6)))))
    TotalVisitsYtd := int32 visits.length
    RevenueGrowthPercentage := fsub (fmul r3 (ofRat 50)) (ofRat 10) -- -10% to +40%
    DaysSinceLastOrder := int32 sinceOrder
    DaysSinceLastVisit := int32 sinceVisit
    TopProducts := topProducts
    MonthlyRevenue := monthlyRevenue
    Segment := segment
    CreditInfo := creditInfo }

def generateNearbyLocation (base : Location F) : Gen F T (Location F) := do
  let number ← rand.Intn 999
  let street ← randomChoice ["Park", "Hill", "River", "Lake"]
  let r1 ← rand.Float64
  let r2 ← rand.Float64
  pure {
    Address := fmt.d 0 (number + 1) ++ " " ++ street ++ " Avenue"
    City := base.City
    State := base.State
    PostalCode := ""
    Country := ""
    Latitude := fadd base.Latitude (fmul (fsub r1 (ofRat 0.5)) (ofRat 0.05))
    Longitude := fadd base.Longitude (fmul (fsub r2 (ofRat 0.5)) (ofRat 0.05)) }

def generateNearbyOutlets (count : Int) (baseLocation : Location F) :
    Gen F T (List (OutletNearby F)) :=
  makeAndFill 8 count (fun i => do
    let name ← randomChoice outletNames
    let typ ← randomOutletType
    let r ← rand.Float64
    let location ← generateNearbyLocation baseLocation
    let c ← rand.Float64
    let relationship ← randomChoice ["Partner", "Competitor", "Neutral", "Supplier"]
    pure {
      OutletId := "nearby-outlet-" ++ fmt.d 3 (i + 1)
      Name := name
      Typ := typ
      DistanceKm := fadd (fmul r (ofRat 5)) (ofRat 0.1) -- 0.1 to 5.1 km
      Location := location
      IsCompetitor := flt c (ofRat 0.3) -- 30% chance of competitor
      Relationship := relationship
      Thumbnail := "https://picsum.photos/100" })

def generateNotes (count : Int) : Gen F T (List (Note T)) :=
  makeAndFill 8 count (fun i => do
    let now ← time.Now
    let back ← rand.Intn 90
    let createdAt := AddDate now 0 0 (-back)
    let title ← randomChoice ["Customer Feedback", "Sales Opportunity", "Support Issue",
      "Follow-up Required", "Payment Discussion"]
    let content ← randomChoice ["Customer showed interest in new products",
      "Discussed pricing options", "Resolved technical issue", "Scheduled follow-up meeting"]
    let k ← rand.Intn noteTypes.length
    let typ ← index noteTypes k
    let rep ← rand.Intn 10
    let r ← rand.Float64
    let tag ← randomChoice ["urgent", "follow-up", "opportunity", "issue", "pricing"]
    pure {
      NoteId := "note-" ++ fmt.d 3 (i + 1)
      Title := title
      Content := "Note content " ++ fmt.d 0 (i + 1) ++ ": " ++ content
      Typ := typ
      CreatedBy := "rep-" ++ fmt.d 3 (rep + 1)
      CreatedAt := createdAt
      UpdatedAt := createdAt
      IsPrivate := flt r (ofRat 0.2) -- 20% chance of private
      Tags := [tag] })

def randomMaintenanceType : Gen F T MaintenanceType := do
  let types := [MaintenanceType.ROUTINE, MaintenanceType.REPAIR, MaintenanceType.REPLACEMENT,
    MaintenanceType.UPGRADE]
  let i ← rand.Intn types.length
  index types i

def generateMaintenanceHistory (count : Int) : Gen F T (List (AssetMaintenance F T)) :=
  makeAndFill 8 count (fun _ => do
    let now ← time.Now
    let months ← rand.Intn 12
    let typ ← randomMaintenanceType
    let description ← randomChoice ["Routine cleaning", "Temperature calibration",
      "Parts replacement", "Software update"]
    let technician ← randomChoice ["Tech Services Inc", "Maintenance Pro", "Equipment Care Ltd"]
    let r ← rand.Float64
    pure {
      Date := AddDate now 0 (-months - 1) 0
      Typ := typ
      Description := description
      Technician := technician
      Cost := fadd (fmul r (ofRat 500)) (ofRat 50) }) -- $50-$550

def generateAssets (count : Int) : Gen F T (List (Asset F T)) :=
  makeAndFill 8 count (fun i => do
    let now1 ← time.Now
    let years ← rand.Intn 3
    let installDate := AddDate now1 (-years - 1) 0 0
    let now2 ← time.Now
    let months ← rand.Intn 6
    let lastMaintenance := AddDate now2 0 (-months - 1) 0
    let unit ← randomChoice ["Cooler", "Freezer", "Display", "POS System", "Shelving"]
    let k ← rand.Intn assetTypes.length
    let typ ← index assetTypes k
    let modelLetters ← randomString 3
    let modelNumber ← rand.Intn 999
    let serialYear ← rand.Intn 2
    let serialNumber ← rand.Intn 999999
    let now3 ← time.Now
    let nextMonths ← rand.Intn 6
    let aisle ← rand.Intn 20
    let aisleSection ← randomChoice ["A", "B", "C", "D"]
    let condition ← randomChoice ["Excellent", "Good", "Fair", "Needs Attention"]
    let historyCount ← rand.Intn 3
    let history ← generateMaintenanceHistory (historyCount + 1)
    pure {
      AssetId := "asset-" ++ fmt.d 3 (i + 1)
      Name := unit ++ " Unit #" ++ fmt.d 0 (i + 1)
      Typ := typ
      Model := "Model-" ++ modelLetters ++ "-" ++ fmt.d 0 (modelNumber + 100)
      SerialNumber := "SN-" ++ fmt.d 0 (2023 + serialYear) ++ "-" ++ fmt.d 6 (serialNumber + 1)
      Status := AssetStatus.ACTIVE
      InstallationDate := installDate
      LastMaintenanceDate := lastMaintenance
      NextMaintenanceDate := AddDate now3 0 (nextMonths + 1) 0
      LocationDetails := "Aisle " ++ fmt.d 0 (aisle + 1) ++ ", Section " ++ aisleSection
      Condition := condition
      MaintenanceHistory := history })

def randomPriority : Gen F T Priority := do
  let priorities := [Priority.LOW, Priority.MEDIUM, Priority.HIGH, Priority.CRITICAL]
  let i ← rand.Intn priorities.length
  index priorities i

/-- The body of the loop of generateChecklist, for the index `i`. -/
def checklistItemAt (i : Int) : Gen F T (ChecklistItem T) := do
  let now ← time.Now
  let offset ← rand.Intn 30
  let dueDate := AddDate now 0 0 (offset - 15) -- -15 to +15 days
  let r ← rand.Float64
  let isCompleted := flt r (ofRat 0.6 : F) -- 60% completion rate
  let (completedDate, status) ←
    (if isCompleted then do
      let early ← rand.Intn 5
      pure (some (AddDate dueDate 0 0 (-early)), ChecklistStatus.COMPLETED)
    else do
      let current ← time.Now
      if Before dueDate current then
        pure ((none : Option T), ChecklistStatus.OVERDUE)
      else
        pure ((none : Option T), ChecklistStatus.PENDING))
  let title ← randomChoice ["Display Compliance", "Inventory Check", "Safety Inspection",
    "Quality Review", "Marketing Setup"]
  let k ← rand.Intn checklistCategories.length
  let category ← index checklistCategories k
  let priority ← randomPriority
  let assignee ← rand.Intn 10
  let completedBy ←
    (if isCompleted then do
      let rep ← rand.Intn 10
      pure ("rep-" ++ fmt.d 3 (rep + 1))
    else
      pure "")
  let notes ← randomChoice ["Standard procedure", "Special attention required",
    "Follow brand guidelines", "Coordinate with manager"]
  pure {
    ItemId := "check-" ++ fmt.d 3 (i + 1)
    Title := title
    Description := "Checklist item " ++ fmt.d 0 (i + 1) ++ " description"
    Category := category
    Status := status
    Priority := priority
    DueDate := dueDate
    CompletedDate := completedDate
    AssignedTo := "rep-" ++ fmt.d 3 (assignee + 1)
    CompletedBy := completedBy
    Notes := notes }

def generateChecklist (count : Int) : Gen F T (List (ChecklistItem T)) :=
  makeAndFill 8 count checklistItemAt

def randomNewsType : Gen F T NewsType := do
  let types := [NewsType.GENERAL, NewsType.PROMOTION, NewsType.PRODUCT_LAUNCH,
    NewsType.POLICY_CHANGE, NewsType.MARKET_UPDATE, NewsType.COMPETITOR]
  let i ← rand.Intn types.length
  index types i

def randomNewsSource : Gen F T NewsSource := do
  let sources := [NewsSource.INTERNAL, NewsSource.EXTERNAL, NewsSource.OUTLET,
    NewsSource.MARKET_RESEARCH]
  let i ← rand.Intn sources.length
  index sources i

def generateNews (count : Int) : Gen F T (List (News T)) :=
  makeAndFill 8 count (fun i => do
    let now ← time.Now
    let back ← rand.Intn 30
    let publishDate := AddDate now 0 0 (-back)
    let title ← randomChoice ["Product Launch", "Market Update", "Policy Change",
      "Promotion Alert", "Training Available"]
    let typ ← randomNewsType
    let source ← randomNewsSource
    let author ← randomChoice ["Marketing Team", "Sales Department", "Management",
      "External Source"]
    let tag ← randomChoice ["product", "sales", "market", "policy", "training"]
    let r ← rand.Float64
    pure {
      NewsId := "news-" ++ fmt.d 3 (i + 1)
      Title := title
      Content := "News content " ++ fmt.d 0 (i + 1) ++
        ": Important information about recent developments."
      Typ := typ
      Source := source
      PublishedDate := publishDate
      Author := author
      Url := "https://company.com/news/article-" ++ fmt.d 0 (i + 1)
      Tags := [tag]
      IsImportant := flt r (ofRat 0.3 : F) }) -- 30% chance of important

def GenerateMockedOutlet (outletID : String) (settings : MockSettings) :
    Gen F T (OutletDetails F T) := do
  rand.Seed
  let now ← time.Now
  let name ← randomChoice outletNames
  let codeLetters ← randomString 2
  let codeNumber ← rand.Intn 999
  let typ ← randomOutletType
  let location ← generateRandomLocation
  let created ← time.Now
  let years ← rand.Intn 3
  let months ← rand.Intn 12
  let days ← rand.Intn 30
  -- Generate contact points (always 1-3)
  let contactCount ← rand.Intn 3
  let contactPoints ← generateContactPoints (contactCount + 1)
  -- Generate visit history
  let visitHistory ←
    (if settings.AverageVisitHistory > 0 then do
      let visitCount ← randomizeCount settings.AverageVisitHistory
      generateVisitHistory visitCount
    else pure [])
  -- Generate order history
  let orderHistory ←
    (if settings.AverageNumberOfOrders > 0 then do
      let orderCount ← randomizeCount settings.AverageNumberOfOrders
      generateOrderHistory orderCount settings.AverageOrderItemsPerOrder
    else pure [])
  -- Generate statistics
  let statistics ←
    generateStatistics settings.AverageTopProductsInStatistics orderHistory visitHistory
  -- Generate nearby outlets
  let outletsNearby ←
    (if settings.AverageOutletsNearby > 0 then do
      let nearbyCount ← randomizeCount settings.AverageOutletsNearby
      generateNearbyOutlets nearbyCount location
    else pure [])
  -- Generate notes
  let notes ←
    (if settings.AverageNotesList > 0 then do
      let notesCount ← randomizeCount settings.AverageNotesList
      generateNotes notesCount
    else pure [])
  -- Generate assets
  let assetList ←
    (if settings.AverageAssetList > 0 then do
      let assetCount ← randomizeCount settings.AverageAssetList
      generateAssets assetCount
    else pure [])
  -- Generate checklist
  let checklist ←
    (if settings.AverageChecklist > 0 then do
      let checklistCount ← randomizeCount settings.AverageChecklist
      generateChecklist checklistCount
    else pure [])
  -- Generate news
  let news ←
    (if settings.AverageNews > 0 then do
      let newsCount ← randomizeCount settings.AverageNews
      generateNews newsCount
    else pure [])
  pure {
    OutletId := outletID
    Name := name
    Code := "ST-" ++ codeLetters ++ "-" ++ fmt.d 3 (codeNumber + 1)
    Thumbnail := "https://picsum.photos/100"
    Typ := typ
    Status := OutletStatus.ACTIVE
    Location := location
    CreatedAt := AddDate created (-years - 1) (-months) (-days)
    UpdatedAt := now
    ContactPoints := contactPoints
    VisitHistory := visitHistory
    OrderHistory := orderHistory
    Statistics := statistics
    OutletsNearby := outletsNearby
    Notes := notes
    AssetList := assetList
    Checklist := checklist
    News := news }

/-- Legacy function for backward compatibility. -/
def generateMockOutletDetails (outletID : String) : Gen F T (OutletDetails F T) :=
  GenerateMockedOutlet outletID {
    AverageNotesList := 2
    AverageVisitHistory := 3
    AverageNumberOfOrders := 5
    AverageOrderItemsPerOrder := 2
    AverageTopProductsInStatistics := 5
    AverageOutletsNearby := 3
    AverageAssetList := 2
    AverageChecklist := 4
    AverageNews := 3 }

end Generators

/-! ## Definitions used by the statements -/

section Logic

variable {F T : Type} {α β : Type}

/-- The run of `g` from `w` satisfies `Q` when it returns, and `E` holds when it
panics: total correctness for `E = False`, partial correctness for `E = True`. -/
def sat (E : Prop) (g : Gen F T α) (w : World T) (Q : α → World T → Prop) : Prop :=
  match g w with
  | Except.ok (a, w1) => Q a w1
  | Except.error _ => E

end Logic

/-- The largest length that `make` accepts for a slice of pointers:
`maxAlloc / 8 = 2^45`. -/
def maxLen : Int := 35184372088832

/-- A concrete world: the outcome of draw `i` is `7 * i + 3`, reading `i` of the
day counter is `1000 + i`. -/
def sampleWorld : World Int := { rng := fun i => 7 * i + 3, clock := fun i => 1000 + i }

/-- The arithmetic of one order item, in the operations of the float64
arithmetic and in the order the code applies them. -/
def itemPriced {F : Type} [Float64Ops F] (it : OrderItem F) : Prop :=
  it.DiscountAmount
      = fmul (fmul (ofRat ((it.Quantity : Int) : ℚ)) it.UnitPrice)
          (fdiv it.DiscountPercentage (ofRat 100)) ∧
    it.TotalPrice = fsub (fmul (ofRat ((it.Quantity : Int) : ℚ)) it.UnitPrice) it.DiscountAmount

/-- The status rule in the words of the specification: COMPLETED if the item
was drawn as completed, otherwise OVERDUE if its due date is before the current
time, otherwise PENDING. -/
def statusRule {T : Type} [TimeOps T] (completed : Bool) (dueDate current : T) :
    ChecklistStatus :=
  if completed then ChecklistStatus.COMPLETED
  else if Before dueDate current then ChecklistStatus.OVERDUE
  else ChecklistStatus.PENDING

/-- The completion draw of the iteration of generateChecklist that starts in
the world `w`: its second outcome, as a float64 of `[0, 1)`, is below 0.6. -/
def completionDraw (F : Type) [Float64Ops F] {T : Type} (w : World T) : Bool :=
  flt (rand.unitOf F (w.rng 1 % rand.keptInt63)) (ofRat 0.6)

/-- The world `wi` is the one in which iteration `k` of the loop over `body`
starts, when the loop starts in `w`. -/
def iterationStart {F T α : Type} (body : Int → Gen F T α) (k : Nat) (w wi : World T) : Prop :=
  ∃ pre, fillFrom body k 0 w = Except.ok (pre, wi)

/-- What one iteration of generateChecklist that starts in `w` makes of the
item: the due date, the status by the rule, the completion fields. -/
def checklistItemMade (F : Type) [Float64Ops F] {T : Type} [TimeOps T] (w : World T)
    (it : ChecklistItem T) : Prop :=
  it.DueDate = AddDate (w.clock 0) 0 0 ((w.rng 0 : Int) % 30 - 15) ∧
  it.Status = statusRule (completionDraw F w) it.DueDate (w.clock 1) ∧
  (completionDraw F w = true →
    it.CompletedDate = some (AddDate it.DueDate 0 0 (-((w.rng 2 : Int) % 5))) ∧
    ∃ rep : Int, it.CompletedBy = "rep-" ++ fmt.d 3 (rep + 1)) ∧
  (completionDraw F w = false → it.CompletedDate = none ∧ it.CompletedBy = "")

/-- What generateStatistics computes from the orders and visits it is given:
the revenue is the TotalAmount of the orders added up from 0 in list order, the
average is the revenue divided by the number of orders unless there is none,
the two counts are the lengths converted to int32, and the top products are as
many as asked for. -/
def statsMade {F T : Type} [Float64Ops F] (topProductsCount : Int) (orders : List (Order F T))
    (visits : List (Visit T)) (st : OutletStatistics F) : Prop :=
  st.TotalRevenueYtd = (orders.map (fun o => o.TotalAmount)).foldl fadd (ofRat 0) ∧
  st.AverageOrderValue =
    (if orders.length > 0 then fdiv st.TotalRevenueYtd (ofRat ((orders.length : Int) : ℚ))
     else ofRat 0) ∧
  st.TotalOrdersYtd = int32 orders.length ∧
  st.TotalVisitsYtd = int32 visits.length ∧
  (st.TopProducts.length : Int) = topProductsCount

/-- The list `xs` was made under the sizing policy: nothing when the average
is not positive, otherwise by the builder on a count that randomizeCount
returned for the average. -/
def sizedBy {F T α : Type} (average : Int) (builder : Int → Gen F T (List α))
    (xs : List α) : Prop :=
  (average ≤ 0 ∧ xs = []) ∨
  (0 < average ∧ ∃ (count : Int) (w w1 w2 : World T),
    (randomizeCount average : Gen F T Int) w = Except.ok (count, w1) ∧
    builder count w1 = Except.ok (xs, w2))

/-- How GenerateMockedOutlet builds the parts of the outlet it returns. -/
def outletBuilt {F T : Type} [Float64Ops F] [TimeOps T] (settings : MockSettings)
    (o : OutletDetails F T) : Prop :=
  sizedBy settings.AverageVisitHistory (generateVisitHistory : Int → Gen F T _) o.VisitHistory ∧
  sizedBy settings.AverageNumberOfOrders
    (fun c => (generateOrderHistory c settings.AverageOrderItemsPerOrder : Gen F T _))
    o.OrderHistory ∧
  (∃ w w1 : World T,
    (generateStatistics settings.AverageTopProductsInStatistics o.OrderHistory o.VisitHistory :
      Gen F T _) w = Except.ok (o.Statistics, w1)) ∧
  sizedBy settings.AverageOutletsNearby
    (fun c => (generateNearbyOutlets c o.Location : Gen F T _)) o.OutletsNearby ∧
  sizedBy settings.AverageNotesList (generateNotes : Int → Gen F T _) o.Notes ∧
  sizedBy settings.AverageAssetList (generateAssets : Int → Gen F T _) o.AssetList ∧
  sizedBy settings.AverageChecklist (generateChecklist : Int → Gen F T _) o.Checklist ∧
  sizedBy settings.AverageNews (generateNews : Int → Gen F T _) o.News

/-- The sizing policy on the length of a list, for its average `A`: empty when
`A = 0`, one element when `A = 1`, between `A/2` and `A + A/2` from two on. -/
def followsPolicy (A : Int) (len : Nat) : Prop :=
  (A = 0 → len = 0) ∧ (A = 1 → len = 1) ∧
  (2 ≤ A → A / 2 ≤ (len : Int) ∧ (len : Int) ≤ A + A / 2)

/-- The averages of the settings are values of Go's 64-bit `int`. -/
def MockSettings.isInt (s : MockSettings) : Prop :=
  (-maxInt - 1 ≤ s.AverageNotesList ∧ s.AverageNotesList ≤ maxInt) ∧
  (-maxInt - 1 ≤ s.AverageVisitHistory ∧ s.AverageVisitHistory ≤ maxInt) ∧
  (-maxInt - 1 ≤ s.AverageNumberOfOrders ∧ s.AverageNumberOfOrders ≤ maxInt) ∧
  (-maxInt - 1 ≤ s.AverageOrderItemsPerOrder ∧ s.AverageOrderItemsPerOrder ≤ maxInt) ∧
  (-maxInt - 1 ≤ s.AverageTopProductsInStatistics ∧
    s.AverageTopProductsInStatistics ≤ maxInt) ∧
  (-maxInt - 1 ≤ s.AverageOutletsNearby ∧ s.AverageOutletsNearby ≤ maxInt) ∧
  (-maxInt - 1 ≤ s.AverageAssetList ∧ s.AverageAssetList ≤ maxInt) ∧
  (-maxInt - 1 ≤ s.AverageChecklist ∧ s.AverageChecklist ≤ maxInt) ∧
  (-maxInt - 1 ≤ s.AverageNews ∧ s.AverageNews ≤ maxInt)

/-- A concrete order of one item, at 10 percent discount. -/
def sampleOrder : Order ℚ Int :=
  { OrderId := "order-001"
    OrderNumber := "ORD-2024-000042"
    OrderDate := 990
    Status := OrderStatus.DELIVERED
    TotalAmount := 45
    Currency := "USD"
    Items := [{ ProductId := "prod-007", ProductName := "Energy Drink Mix", Sku := "ABC-123",
                Quantity := 5, UnitPrice := 10, TotalPrice := 45, DiscountPercentage := 10,
                DiscountAmount := 5 }]
    PaymentInfo := { Method := PaymentMethod.CASH, Status := PaymentStatus.PAID,
                     PaymentDate := 990, AmountPaid := 45, AmountDue := 0,
                     ReferenceNumber := "PAY-2024-000007" }
    DeliveryInfo := { DeliveryAddress := "12 Oak Street", ScheduledDate := 993,
                      ActualDate := 993, Status := DeliveryStatus.DELIVERED,
                      DeliveryNotes := "Delivery completed successfully",
                      TrackingNumber := "TRK-2024-000009" }
    SalesRepId := "rep-003"
    SalesRepName := "Alex Rodriguez"
    DeliveryDate := 995
    Notes := "Standard delivery" }

/-- Every count of the jitter interval of the average is a length that `make`
accepts for a slice of pointers; the interval then does not overflow Go's
`int` either. -/
def countFits (A : Int) : Prop := A + A / 2 ≤ maxLen

/-- Settings on which every list can be made: the jitter interval of every
list average and of the items average stays within what `make` accepts, the
items average is not negative, and the number of top products is not negative
and at most `maxLen`. -/
def MockSettings.countsFit (s : MockSettings) : Prop :=
  countFits s.AverageNotesList ∧ countFits s.AverageVisitHistory ∧
  countFits s.AverageNumberOfOrders ∧
  (0 ≤ s.AverageOrderItemsPerOrder ∧ countFits s.AverageOrderItemsPerOrder) ∧
  (0 ≤ s.AverageTopProductsInStatistics ∧ s.AverageTopProductsInStatistics ≤ maxLen) ∧
  countFits s.AverageOutletsNearby ∧ countFits s.AverageAssetList ∧
  countFits s.AverageChecklist ∧ countFits s.AverageNews

/-- Every average of the settings is at least zero. -/
def MockSettings.nonNegative (s : MockSettings) : Prop :=
  0 ≤ s.AverageNotesList ∧ 0 ≤ s.AverageVisitHistory ∧ 0 ≤ s.AverageNumberOfOrders ∧
  0 ≤ s.AverageOrderItemsPerOrder ∧ 0 ≤ s.AverageTopProductsInStatistics ∧
  0 ≤ s.AverageOutletsNearby ∧ 0 ≤ s.AverageAssetList ∧ 0 ≤ s.AverageChecklist ∧
  0 ≤ s.AverageNews

/-- The settings of the end-to-end scenario: every average 0 except one order
of one item. -/
def scenarioSettings : MockSettings :=
  { AverageNotesList := 0
    AverageVisitHistory := 0
    AverageNumberOfOrders := 1
    AverageOrderItemsPerOrder := 1
    AverageTopProductsInStatistics := 0
    AverageOutletsNearby := 0
    AverageAssetList := 0
    AverageChecklist := 0
    AverageNews := 0 }

/-- The settings of generateMockOutletDetails. -/
def legacySettings : MockSettings :=
  { AverageNotesList := 2
    AverageVisitHistory := 3
    AverageNumberOfOrders := 5
    AverageOrderItemsPerOrder := 2
    AverageTopProductsInStatistics := 5
    AverageOutletsNearby := 3
    AverageAssetList := 2
    AverageChecklist := 4
    AverageNews := 3 }

/-- The coordinate `x + (r - 0.5) * 0.05` of generateNearbyLocation for the
draw `r = float64(k) / (1 << 63)`, in the operations of the float64
arithmetic and in the order the code applies them. -/
def offsetCoordinate (F : Type) [Float64Ops F] (x : F) (k : Nat) : F :=
  fadd x (fmul (fsub (rand.unitOf F k) (ofRat 0.5)) (ofRat 0.05))

/-- How generateNearbyLocation places a location near the base: the city and
state of the base, and each coordinate the base's plus `(r - 0.5) * 0.05` for
a draw `r` that `rand.Float64` makes of a value of `Int63()` it keeps. -/
def nearbyMade {F : Type} [Float64Ops F] (base loc : Location F) : Prop :=
  loc.City = base.City ∧ loc.State = base.State ∧
  ∃ k1 k2 : Nat, k1 < rand.keptInt63 ∧ k2 < rand.keptInt63 ∧
    loc.Latitude = offsetCoordinate F base.Latitude k1 ∧
    loc.Longitude = offsetCoordinate F base.Longitude k2

/-- The location that the iteration of generateNearbyOutlets that starts in
the world `w` places near the base: the draws of the two coordinates are the
sixth and the seventh outcome of the iteration. -/
def nearbyPlaced {F T : Type} [Float64Ops F] (w : World T) (base loc : Location F) : Prop :=
  loc.City = base.City ∧ loc.State = base.State ∧
  loc.Latitude = offsetCoordinate F base.Latitude (w.rng 5 % rand.keptInt63) ∧
  loc.Longitude = offsetCoordinate F base.Longitude (w.rng 6 % rand.keptInt63)

/-- In exact arithmetic: same city and state, and coordinates within 0.025
of the base's. -/
def withinOffset (base loc : Location ℚ) : Prop :=
  loc.City = base.City ∧ loc.State = base.State ∧
  |loc.Latitude - base.Latitude| ≤ 0.025 ∧ |loc.Longitude - base.Longitude| ≤ 0.025

/-- A concrete base location. -/
def sampleLocation : Location ℚ :=
  { Address := "12 Main Street, Riverside"
    City := "Riverside"
    State := "Central State"
    PostalCode := "01234"
    Country := "Country Name"
    Latitude := 40.7128
    Longitude := -74.0060 }

/-- The same base location in float64: the doubles nearest to the two
coordinates. -/
def sampleLocation64 : Location Binary64 :=
  { Address := "12 Main Street, Riverside"
    City := "Riverside"
    State := "Central State"
    PostalCode := "01234"
    Country := "Country Name"
    Latitude := ofRat 40.7128
    Longitude := ofRat (-74.0060) }

/-- Settings that ask for 2^32 orders on average and nothing else. -/
def manyOrdersSettings : MockSettings :=
  { AverageNotesList := 0
    AverageVisitHistory := 0
    AverageNumberOfOrders := 4294967296
    AverageOrderItemsPerOrder := 0
    AverageTopProductsInStatistics := 0
    AverageOutletsNearby := 0
    AverageAssetList := 0
    AverageChecklist := 0
    AverageNews := 0 }

/-- Settings whose visit average is the largest `int` and every other average 0. -/
def overflowSettings : MockSettings :=
  { AverageNotesList := 0
    AverageVisitHistory := 9223372036854775807
    AverageNumberOfOrders := 0
    AverageOrderItemsPerOrder := 0
    AverageTopProductsInStatistics := 0
    AverageOutletsNearby := 0
    AverageAssetList := 0
    AverageChecklist := 0
    AverageNews := 0 }

/-- Settings whose visit average is 2^47 and every other average 0: the sum
`A + A/2` does not overflow, and every count of the jitter interval is beyond
what `make` accepts. -/
def tooLongSettings : MockSettings :=
  { AverageNotesList := 0
    AverageVisitHistory := 140737488355328
    AverageNumberOfOrders := 0
    AverageOrderItemsPerOrder := 0
    AverageTopProductsInStatistics := 0
    AverageOutletsNearby := 0
    AverageAssetList := 0
    AverageChecklist := 0
    AverageNews := 0 }

/-- The eight averages that GenerateMockedOutlet hands to randomizeCount. -/
def MockSettings.jitterAverages (s : MockSettings) : List Int :=
  [s.AverageVisitHistory, s.AverageNumberOfOrders, s.AverageOrderItemsPerOrder,
   s.AverageOutletsNearby, s.AverageNotesList, s.AverageAssetList, s.AverageChecklist,
   s.AverageNews]

/-- The number a string of decimal digits stands for, leading zeros included. -/
def decimalValue (cs : List Char) : Nat :=
  cs.foldl (fun acc c => acc * 10 + (c.toNat - 48)) 0

/-- The identifiers of a list of `n` entities: the one at position `k`
(counted from 0, so the `k + 1`-th) is the prefix followed by `k + 1` under
the verb `%03d`; no identifier occurs twice. -/
def builtNumbered (pfx : String) (n : Int) (ids : List String) : Prop :=
  (ids.length : Int) = n ∧
  (∀ (k : Nat) (s : String), ids[k]? = some s → s = pfx ++ fmt.d 3 ((k : Int) + 1)) ∧
  ids.Nodup

/-! ## The request handler of main.go

The handler is modelled on what it reads of the request and what it answers.
`handleDelay` only sleeps and is left out.  The goroutines that the handler
starts share the random source and the clock: goroutine `i` sees its own world
`views i`, whatever the interleaving is; a panic of a goroutine ends the
process.  The order in which the outlets arrive on the channel is not
modelled: the list is in the order of the goroutines.  The two encoders of the
protocol buffers library are parameters.  `make(chan X, n)` panics on a
negative size and on a buffer that, with the header of the channel, exceeds
`maxAlloc`. -/

/-- The constant SECRET_KEY. -/
def SECRET_KEY : String := "eazle-secret-2025"

/-- What the handler reads of a request: `r.Header.Get` (the empty string for
a header that is absent) and `r.URL.Query().Get("outlet_id")`. -/
structure Request where
  header : String → String
  outletIdParam : String

/-- What the handler answers: `http.Error` with a message and a status, a
response of status 200 with its content type and body, or a panic. -/
inductive Response (D : Type) where
  | error (message : String) (status : Nat)
  | ok (contentType : String) (data : D)
  | panicked (message : String)

/-- The encoders `proto.Marshal` and `protojson.Marshal`; `none` is an error. -/
structure Marshal (F T D : Type) where
  proto : List (OutletDetails F T) → Option D
  protojson : List (OutletDetails F T) → Option D

namespace strconv

/-- The call `strconv.Atoi(s)`: an optional sign, then at least one decimal
digit and nothing else, and a value of the 64-bit range; `none` is an error. -/
def Atoi (s : String) : Option Int :=
  let cs := s.toList
  let negative := cs.head? = some '-'
  let ds := if cs.head? = some '-' ∨ cs.head? = some '+' then cs.tail else cs
  if ds = [] ∨ ¬ ds.all (fun c => decide ('0' ≤ c ∧ c ≤ '9')) then none
  else
    let n : Int := if negative then -(decimalValue ds : Int) else (decimalValue ds : Int)
    if n < -9223372036854775808 ∨ 9223372036854775807 < n then none else some n

end strconv

/-- The bytes of the header of a channel: `hchanSize` of the run-time system
on a 64-bit platform (104 from Go 1.23 on, which lowers the largest size of a
channel by one). -/
def hchanSize : Int := 96

/-- The call `make(chan X, size)` for elements of `elemSize` bytes panics:
the size is negative, or the buffer exceeds `maxAlloc - hchanSize` bytes. -/
def makechanPanics (elemSize size : Int) : Bool :=
  decide (size < 0 ∨ maxAlloc - hchanSize < elemSize * size)

def validateSecretKey (r : Request) : Bool :=
  let authHeader := r.header "Authorization"
  let apiKey := r.header "X-API-Key"
  -- Check both Authorization header and X-API-Key header
  authHeader == "Bearer " ++ SECRET_KEY || apiKey == SECRET_KEY

/-- The settings that handleOutletDetails hands to the generator. -/
def handlerSettings : MockSettings :=
  { AverageNotesList := 30
    AverageVisitHistory := 96
    AverageNumberOfOrders := 90
    AverageOrderItemsPerOrder := 20
    AverageTopProductsInStatistics := 6
    AverageOutletsNearby := 10
    AverageAssetList := 6
    AverageChecklist := 18
    AverageNews := 22 }

/-- The two loops of handleOutletDetails over `n` goroutines, from goroutine
`i` on: each outlet generated is received and appended. -/
def gatherOutlets {F T : Type} [Float64Ops F] [TimeOps T] (outletID : String)
    (settings : MockSettings) (views : Nat → World T) :
    Nat → Nat → Except String (List (OutletDetails F T))
  | 0, _ => Except.ok []
  | n + 1, i =>
    match (GenerateMockedOutlet outletID settings : Gen F T _) (views i) with
    | Except.error e => Except.error e
    | Except.ok (outlet, _) =>
      match gatherOutlets outletID settings views n (i + 1) with
      | Except.error e => Except.error e
      | Except.ok outlets => Except.ok (outlet :: outlets)

def handleOutletDetails {F T D : Type} [Float64Ops F] [TimeOps T] (marshal : Marshal F T D)
    (views : Nat → World T) (r : Request) : Response D :=
  -- Check secret key
  if !validateSecretKey r then
    Response.error "Unauthorized - Invalid secret key" 401
  else
    -- Get outlet ID from query parameter
    let outletID := if r.outletIdParam = "" then "outlet-001" else r.outletIdParam
    let settings := handlerSettings
    let numberOfOutletsString :=
      if r.header "X-Outlet-Num" = "" then "100" else r.header "X-Outlet-Num"
    match strconv.Atoi numberOfOutletsString with
    | none => Response.error "Invalid X-Outlet-Num header" 400
    | some numberOfOutlets =>
      -- outletChan: a channel of pointers; errChan: a channel of interface values
      if makechanPanics 8 numberOfOutlets then
        Response.panicked "makechan: size out of range"
      else if makechanPanics 16 numberOfOutlets then
        Response.panicked "makechan: size out of range"
      else
        match (gatherOutlets outletID settings views numberOfOutlets.toNat 0 :
            Except String (List (OutletDetails F T))) with
        | Except.error e => Response.panicked e
        | Except.ok details =>
          if r.header "Accept" = "application/protobuf" then
            match marshal.proto details with
            | none => Response.error "Error encoding response" 500
            | some data => Response.ok "application/protobuf" data
          else
            match marshal.protojson details with
            | none => Response.error "Error encoding response" 500
            | some data => Response.ok "application/json" data

/-- An authorized request that asks for the given number of outlets. -/
def requestFor (count : String) : Request :=
  { header := fun name =>
      if name = "X-API-Key" then SECRET_KEY
      else if name = "X-Outlet-Num" then count
      else ""
    outletIdParam := "" }

/-- Encoders that never fail and keep the list as it is. -/
def plainMarshal (F T : Type) : Marshal F T (List (OutletDetails F T)) :=
  { proto := fun details => some details
    protojson := fun details => some details }

/-! ## The logic of generators -/

set_option linter.unusedSectionVars false

section Logic

variable {F T : Type} {α β : Type}

theorem rng_nextDraw (w : World T) (i : Nat) : w.nextDraw.rng i = w.rng (i + 1) := rfl

theorem clock_nextDraw (w : World T) : w.nextDraw.clock = w.clock := rfl

theorem rng_tick (w : World T) : w.tick.rng = w.rng := rfl

theorem clock_tick (w : World T) (i : Nat) : w.tick.clock i = w.clock (i + 1) := rfl

theorem pure_run (a : α) (w : World T) : (pure a : Gen F T α) w = Except.ok (a, w) := rfl

theorem bind_run (g : Gen F T α) (f : α → Gen F T β) (w : World T) :
    (g >>= f) w = match g w with
      | Except.ok (a, w1) => f a w1
      | Except.error e => Except.error e := rfl

theorem bind_ok_iff (g : Gen F T α) (f : α → Gen F T β) (w w2 : World T) (b : β) :
    (g >>= f) w = Except.ok (b, w2) ↔
      ∃ a w1, g w = Except.ok (a, w1) ∧ f a w1 = Except.ok (b, w2) := by
  rw [bind_run]
  cases h : g w with
  | error e => simp
  | ok p =>
    obtain ⟨a, w1⟩ := p
    constructor
    · intro hf
      exact ⟨a, w1, rfl, hf⟩
    · rintro ⟨a1, w3, heq, hf⟩
      cases heq
      exact hf

theorem sat_pure (E : Prop) (a : α) (w : World T) (Q : α → World T → Prop) :
    sat E (pure a : Gen F T α) w Q ↔ Q a w := Iff.rfl

theorem sat_bind (E : Prop) (g : Gen F T α) (f : α → Gen F T β) (w : World T)
    (Q : β → World T → Prop) :
    sat E (g >>= f) w Q ↔ sat E g w (fun a w1 => sat E (f a) w1 Q) := by
  unfold sat
  rw [bind_run]
  cases h : g w with
  | error e => simp
  | ok p =>
    obtain ⟨a, w1⟩ := p
    simp

theorem sat_goPanic (E : Prop) (msg : String) (w : World T) (Q : α → World T → Prop) :
    sat E (goPanic msg : Gen F T α) w Q ↔ E := Iff.rfl

theorem sat_ite (E : Prop) (c : Prop) [Decidable c] (g h : Gen F T α) (w : World T)
    (Q : α → World T → Prop) :
    sat E (if c then g else h) w Q ↔ (c → sat E g w Q) ∧ (¬ c → sat E h w Q) := by
  by_cases hc : c <;> simp [hc]

theorem sat_Intn (E : Prop) (n : Int) (w : World T) (Q : Int → World T → Prop) :
    sat E (rand.Intn n : Gen F T Int) w Q ↔
      (n ≤ 0 → E) ∧ (0 < n → Q ((w.rng 0 : Int) % n) w.nextDraw) := by
  unfold sat rand.Intn
  by_cases hn : n ≤ 0
  · simp [hn, not_lt.mpr hn]
  · simp [hn, not_le.mp hn]

theorem sat_Intn_pos (E : Prop) (n : Int) (hn : 0 < n) (w : World T)
    (Q : Int → World T → Prop) :
    sat E (rand.Intn n : Gen F T Int) w Q ↔ Q ((w.rng 0 : Int) % n) w.nextDraw := by
  rw [sat_Intn]
  simp [hn, not_le.mpr hn]

theorem sat_Float64 [Float64Ops F] (E : Prop) (w : World T) (Q : F → World T → Prop) :
    sat E (rand.Float64 : Gen F T F) w Q ↔
      Q (rand.unitOf F (w.rng 0 % rand.keptInt63)) w.nextDraw :=
  Iff.rfl

theorem sat_Now (E : Prop) (w : World T) (Q : T → World T → Prop) :
    sat E (time.Now : Gen F T T) w Q ↔ Q (w.clock 0) w.tick := Iff.rfl

theorem sat_Seed (E : Prop) (w : World T) (Q : Unit → World T → Prop) :
    sat E (rand.Seed : Gen F T Unit) w Q ↔ Q () w.tick := Iff.rfl

theorem sat_mono (E : Prop) (g : Gen F T α) (w : World T) (P Q : α → World T → Prop)
    (h : sat E g w P) (hPQ : ∀ a w1, P a w1 → Q a w1) : sat E g w Q := by
  unfold sat at *
  cases hg : g w with
  | error e => simpa [hg] using h
  | ok p =>
    obtain ⟨a, w1⟩ := p
    rw [hg] at h
    exact hPQ a w1 h

theorem sat_ok (E : Prop) (g : Gen F T α) (w w1 : World T) (a : α) (Q : α → World T → Prop)
    (h : sat E g w Q) (hg : g w = Except.ok (a, w1)) : Q a w1 := by
  unfold sat at h
  rw [hg] at h
  exact h

theorem sat_false_iff (g : Gen F T α) (w : World T) (Q : α → World T → Prop) :
    sat False g w Q ↔ ∃ a w1, g w = Except.ok (a, w1) ∧ Q a w1 := by
  unfold sat
  cases hg : g w with
  | error e => simp
  | ok p =>
    obtain ⟨a, w1⟩ := p
    constructor
    · intro hq
      exact ⟨a, w1, rfl, hq⟩
    · rintro ⟨a1, w3, heq, hq⟩
      cases heq
      exact hq

theorem sat_true_iff (g : Gen F T α) (w : World T) (Q : α → World T → Prop) :
    sat True g w Q ↔ ∀ a w1, g w = Except.ok (a, w1) → Q a w1 := by
  unfold sat
  cases hg : g w with
  | error e => simp
  | ok p =>
    obtain ⟨a, w1⟩ := p
    simp

/-- When the run returns, any `sat` is the statement on what it returns. -/
theorem sat_of_returns (E : Prop) (g : Gen F T α) (w : World T) (Q : α → World T → Prop)
    (hr : ∃ a w1, g w = Except.ok (a, w1)) :
    sat E g w Q ↔ ∀ a w1, g w = Except.ok (a, w1) → Q a w1 := by
  obtain ⟨a, w1, hg⟩ := hr
  unfold sat
  rw [hg]
  simp

theorem sat_index (E : Prop) (slice : List α) (i : Int) (w : World T)
    (Q : α → World T → Prop) (h0 : 0 ≤ i) (h1 : i < slice.length) :
    sat E (index slice i : Gen F T α) w Q ↔ ∀ x, slice[i.toNat]? = some x → Q x w := by
  have hlt : i.toNat < slice.length := by omega
  unfold index
  rw [if_neg (not_lt.mpr h0)]
  rw [List.getElem?_eq_getElem hlt]
  simp [sat_pure]

theorem returns_of_sat (g : Gen F T α) (w : World T)
    (h : sat False g w (fun _ _ => True)) : ∃ a w1, g w = Except.ok (a, w1) := by
  obtain ⟨a, w1, hg, _⟩ := (sat_false_iff g w _).mp h
  exact ⟨a, w1, hg⟩

end Logic

section Loops

variable {F T : Type} {α β : Type}

theorem fillFrom_zero (body : Int → Gen F T α) (s : Int) (w : World T) :
    fillFrom body 0 s w = Except.ok ([], w) := rfl

theorem fillFrom_succ_ok_iff (body : Int → Gen F T α) (n : Nat) (s : Int) (w w2 : World T)
    (xs : List α) :
    fillFrom body (n + 1) s w = Except.ok (xs, w2) ↔
      ∃ x w1 rest, body s w = Except.ok (x, w1) ∧
        fillFrom body n (s + 1) w1 = Except.ok (rest, w2) ∧ xs = x :: rest := by
  have hdef : fillFrom body (n + 1) s = (do
      let x ← body s
      let rest ← fillFrom body n (s + 1)
      pure (x :: rest)) := rfl
  rw [hdef]
  simp only [bind_ok_iff, pure_run, Except.ok.injEq, Prod.mk.injEq]
  constructor
  · rintro ⟨x, w1, hb, rest, w3, hr, hxs, hw⟩
    subst hw
    exact ⟨x, w1, rest, hb, hr, hxs.symm⟩
  · rintro ⟨x, w1, rest, hb, hr, hxs⟩
    exact ⟨x, w1, hb, rest, w2, hr, hxs.symm, rfl⟩

theorem fillFrom_length (body : Int → Gen F T α) (n : Nat) :
    ∀ (s : Int) (w w2 : World T) (xs : List α),
      fillFrom body n s w = Except.ok (xs, w2) → xs.length = n := by
  induction n with
  | zero =>
    intro s w w2 xs h
    rw [fillFrom_zero] at h
    cases h
    rfl
  | succ n ih =>
    intro s w w2 xs h
    obtain ⟨x, w1, rest, _, hr, hxs⟩ := (fillFrom_succ_ok_iff body n s w w2 xs).mp h
    rw [hxs, List.length_cons, ih (s + 1) w1 w2 rest hr]

/-- Every element of the result of a loop is what the body returns at its own
index, run from the world the earlier iterations leave. -/
theorem fillFrom_iter (body : Int → Gen F T α) (n : Nat) :
    ∀ (s : Int) (w w2 : World T) (xs : List α),
      fillFrom body n s w = Except.ok (xs, w2) →
      ∀ (k : Nat) (x : α), xs[k]? = some x →
        ∃ pre wi wj, fillFrom body k s w = Except.ok (pre, wi) ∧
          body (s + k) wi = Except.ok (x, wj) := by
  induction n with
  | zero =>
    intro s w w2 xs h k x hk
    rw [fillFrom_zero] at h
    cases h
    simp at hk
  | succ n ih =>
    intro s w w2 xs h k x hk
    obtain ⟨x0, w1, rest, hb, hr, hxs⟩ := (fillFrom_succ_ok_iff body n s w w2 xs).mp h
    subst hxs
    cases k with
    | zero =>
      simp only [List.getElem?_cons_zero, Option.some.injEq] at hk
      subst hk
      exact ⟨[], w, w1, rfl, by simpa using hb⟩
    | succ j =>
      simp only [List.getElem?_cons_succ] at hk
      obtain ⟨pre, wi, wj, hpre, hbody⟩ := ih (s + 1) w1 w2 rest hr j x hk
      refine ⟨x0 :: pre, wi, wj, ?_, ?_⟩
      · exact (fillFrom_succ_ok_iff body j s w wi (x0 :: pre)).mpr ⟨x0, w1, pre, hb, hpre, rfl⟩
      · have : s + ((j + 1 : Nat) : Int) = s + 1 + (j : Int) := by push_cast; ring
        rw [this]
        exact hbody

theorem fillFrom_returns (body : Int → Gen F T α)
    (hb : ∀ i w, ∃ a w1, body i w = Except.ok (a, w1)) (n : Nat) :
    ∀ (s : Int) (w : World T), ∃ xs w2, fillFrom body n s w = Except.ok (xs, w2) := by
  induction n with
  | zero => intro s w; exact ⟨[], w, rfl⟩
  | succ n ih =>
    intro s w
    obtain ⟨x, w1, hx⟩ := hb s w
    obtain ⟨rest, w2, hr⟩ := ih (s + 1) w1
    exact ⟨x :: rest, w2, (fillFrom_succ_ok_iff body n s w w2 _).mpr ⟨x, w1, rest, hx, hr, rfl⟩⟩

theorem makeAndFill_ok_iff (body : Int → Gen F T α) (size count : Int) (w w2 : World T)
    (xs : List α) :
    makeAndFill size count body w = Except.ok (xs, w2) ↔
      (0 ≤ count ∧ size * count ≤ maxAlloc) ∧
        fillFrom body count.toNat 0 w = Except.ok (xs, w2) := by
  unfold makeAndFill
  by_cases hc : count < 0 ∨ maxAlloc < size * count
  · rw [if_pos hc]
    constructor
    · intro h
      cases h
    · rintro ⟨⟨h1, h2⟩, _⟩
      omega
  · rw [if_neg hc]
    constructor
    · intro h
      exact ⟨⟨by omega, by omega⟩, h⟩
    · rintro ⟨_, h⟩
      exact h

theorem makeAndFill_length {size : Int} (body : Int → Gen F T α) (count : Int)
    (w w2 : World T) (xs : List α)
    (h : makeAndFill size count body w = Except.ok (xs, w2)) :
    0 ≤ count ∧ (xs.length : Int) = count := by
  obtain ⟨⟨hc, _⟩, hf⟩ := (makeAndFill_ok_iff body size count w w2 xs).mp h
  refine ⟨hc, ?_⟩
  rw [fillFrom_length body _ 0 w w2 xs hf]
  omega

/-- A slice that `make` returned has no more bytes than `maxAlloc`. -/
theorem makeAndFill_fits {size : Int} (body : Int → Gen F T α) (count : Int)
    (w w2 : World T) (xs : List α)
    (h : makeAndFill size count body w = Except.ok (xs, w2)) :
    size * count ≤ maxAlloc :=
  ((makeAndFill_ok_iff body size count w w2 xs).mp h).1.2

/-- Beyond `maxAlloc` bytes `make` panics, whatever the body of the loop. -/
theorem makeAndFill_too_long {size : Int} (body : Int → Gen F T α) (count : Int)
    (h : maxAlloc < size * count) (w : World T) :
    makeAndFill size count body w = Except.error "makeslice: len out of range" := by
  unfold makeAndFill
  rw [if_pos (Or.inr h)]
  rfl

theorem makeAndFill_iter {size : Int} (body : Int → Gen F T α) (count : Int)
    (w w2 : World T) (xs : List α)
    (h : makeAndFill size count body w = Except.ok (xs, w2))
    (k : Nat) (x : α) (hk : xs[k]? = some x) :
    ∃ pre wi wj, fillFrom body k 0 w = Except.ok (pre, wi) ∧
      body k wi = Except.ok (x, wj) := by
  obtain ⟨_, hf⟩ := (makeAndFill_ok_iff body size count w w2 xs).mp h
  obtain ⟨pre, wi, wj, hpre, hbody⟩ := fillFrom_iter body _ 0 w w2 xs hf k x hk
  exact ⟨pre, wi, wj, hpre, by simpa using hbody⟩

theorem makeAndFill_mem {size : Int} (body : Int → Gen F T α) (count : Int)
    (w w2 : World T) (xs : List α)
    (h : makeAndFill size count body w = Except.ok (xs, w2))
    (x : α) (hx : x ∈ xs) :
    ∃ (i : Int) (wi wj : World T), body i wi = Except.ok (x, wj) := by
  obtain ⟨k, hk⟩ := List.getElem?_of_mem hx
  obtain ⟨_, wi, wj, _, hbody⟩ := makeAndFill_iter body count w w2 xs h k x hk
  exact ⟨k, wi, wj, hbody⟩

theorem makeAndFill_returns {size : Int} (body : Int → Gen F T α)
    (hb : ∀ i w, ∃ a w1, body i w = Except.ok (a, w1)) (count : Int) (hc : 0 ≤ count)
    (hm : size * count ≤ maxAlloc) (w : World T) :
    ∃ xs w2, makeAndFill size count body w = Except.ok (xs, w2) := by
  obtain ⟨xs, w2, h⟩ := fillFrom_returns body hb count.toNat 0 w
  exact ⟨xs, w2, (makeAndFill_ok_iff body size count w w2 xs).mpr ⟨⟨hc, hm⟩, h⟩⟩

/-- Partial correctness of a loop: what holds of every run of the body holds of
every element of the result, at its index. -/
theorem makeAndFill_all {size : Int} (body : Int → Gen F T α) (P : Int → α → Prop)
    (hb : ∀ i w, sat True (body i) w (fun a _ => P i a))
    (count : Int) (w w2 : World T) (xs : List α)
    (h : makeAndFill size count body w = Except.ok (xs, w2)) :
    ∀ (k : Nat) (x : α), xs[k]? = some x → P k x := by
  intro k x hk
  obtain ⟨_, wi, wj, _, hbody⟩ := makeAndFill_iter body count w w2 xs h k x hk
  exact sat_ok True (body k) wi wj x _ (hb k wi) hbody

/-- Total correctness of a loop whose body always returns: on a length that
`make` accepts the loop returns `count` elements, each as the body makes it at
its index. -/
theorem makeAndFill_total {size : Int} (body : Int → Gen F T α) (P : Int → α → Prop)
    (hb : ∀ i w, sat False (body i) w (fun a _ => P i a))
    (count : Int) (hc : 0 ≤ count) (hm : size * count ≤ maxAlloc) (w : World T) :
    ∃ xs w2, makeAndFill size count body w = Except.ok (xs, w2) ∧
      (xs.length : Int) = count ∧
      ∀ (k : Nat) (x : α), xs[k]? = some x → P k x := by
  have hret : ∀ i w, ∃ a w1, body i w = Except.ok (a, w1) := by
    intro i w
    obtain ⟨a, w1, ha, _⟩ := (sat_false_iff _ _ _).mp (hb i w)
    exact ⟨a, w1, ha⟩
  obtain ⟨xs, w2, h⟩ := makeAndFill_returns body hret count hc hm w
  refine ⟨xs, w2, h, (makeAndFill_length body count w w2 xs h).2, ?_⟩
  intro k x hk
  obtain ⟨_, wi, wj, _, hbody⟩ := makeAndFill_iter body count w w2 xs h k x hk
  exact sat_ok False (body k) wi wj x _ (hb k wi) hbody

theorem mem_iff_getElem? (xs : List α) (x : α) : x ∈ xs ↔ ∃ k : Nat, xs[k]? = some x :=
  List.mem_iff_getElem?

/-- A loop whose body returns from every world: every result has `count`
elements, each as the body makes it at its index, and the loop returns exactly
when `make` accepts the length: `count` is not negative and its bytes do not
exceed `maxAlloc`. -/
theorem makeAndFill_spec {size : Int} (body : Int → Gen F T α) (P : Int → α → Prop)
    (hb : ∀ (E : Prop) i w, sat E (body i) w (fun a _ => P i a)) (count : Int) :
    (∀ (w w2 : World T) (xs : List α), makeAndFill size count body w = Except.ok (xs, w2) →
        (xs.length : Int) = count ∧ ∀ (k : Nat) (x : α), xs[k]? = some x → P k x) ∧
    (0 ≤ count → size * count ≤ maxAlloc →
      ∀ w : World T, ∃ xs w2, makeAndFill size count body w = Except.ok (xs, w2)) := by
  constructor
  · intro w w2 xs h
    exact ⟨(makeAndFill_length body count w w2 xs h).2,
      makeAndFill_all body P (hb True) count w w2 xs h⟩
  · intro hc hm w
    obtain ⟨xs, w2, h, _⟩ := makeAndFill_total body P (hb False) count hc hm w
    exact ⟨xs, w2, h⟩

/-- A slice of pointers of at most `maxLen` elements has at most `maxAlloc`
bytes. -/
theorem ptr_fits (count : Int) (hm : count ≤ maxLen) : 8 * count ≤ maxAlloc := by
  unfold maxLen at hm
  unfold maxAlloc
  omega

/-- The loop that fills a slice of pointers: every result has `count`
elements, each as the body makes it at its index, and the loop returns when
`count` is not negative and at most `maxLen`. -/
theorem makeAndFill_spec_ptr (body : Int → Gen F T α) (P : Int → α → Prop)
    (hb : ∀ (E : Prop) i w, sat E (body i) w (fun a _ => P i a)) (count : Int) :
    (∀ (w w2 : World T) (xs : List α), makeAndFill 8 count body w = Except.ok (xs, w2) →
        (xs.length : Int) = count ∧ ∀ (k : Nat) (x : α), xs[k]? = some x → P k x) ∧
    (0 ≤ count → count ≤ maxLen →
      ∀ w : World T, ∃ xs w2, makeAndFill 8 count body w = Except.ok (xs, w2)) :=
  ⟨(makeAndFill_spec body P hb count).1,
    fun hc hm => (makeAndFill_spec body P hb count).2 hc (ptr_fits count hm)⟩

end Loops

section Count

variable {F T : Type}

theorem randomizeCount_small (average : Int) (h : average ≤ 1) (w : World T) :
    (randomizeCount average : Gen F T Int) w = Except.ok (average, w) := by
  unfold randomizeCount
  rw [if_pos h]
  rfl

theorem randomizeCount_run (average : Int) (h : 2 ≤ average) (w : World T) :
    (randomizeCount average : Gen F T Int) w =
      if wrapInt (wrapInt (wrapInt (average + average / 2) - average / 2) + 1) ≤ 0 then
        Except.error "invalid argument to Intn"
      else
        Except.ok (wrapInt ((w.rng 0 : Int) %
          wrapInt (wrapInt (wrapInt (average + average / 2) - average / 2) + 1) + average / 2),
          w.nextDraw) := by
  have hdiv : average.tdiv 2 = average / 2 := Int.tdiv_eq_ediv (by omega) (by omega)
  unfold randomizeCount
  rw [if_neg (by omega), hdiv]
  simp only [bind_run, rand.Intn]
  split_ifs <;> rfl

/-- Without overflow the bound of the draw is `average + 1`. -/
theorem randomizeCount_exact (average : Int) (h : 2 ≤ average)
    (hmax : average + average / 2 ≤ maxInt) (w : World T) :
    (randomizeCount average : Gen F T Int) w =
      Except.ok ((w.rng 0 : Int) % (average + 1) + average / 2, w.nextDraw) := by
  rw [randomizeCount_run average h w]
  unfold maxInt at hmax
  have h1 : wrapInt (wrapInt (wrapInt (average + average / 2) - average / 2) + 1)
      = average + 1 := by
    unfold wrapInt
    omega
  rw [h1, if_neg (by omega)]
  have h2 : 0 ≤ (w.rng 0 : Int) % (average + 1) := Int.emod_nonneg _ (by omega)
  have h3 : (w.rng 0 : Int) % (average + 1) < average + 1 := Int.emod_lt_of_pos _ (by omega)
  have h4 : wrapInt ((w.rng 0 : Int) % (average + 1) + average / 2)
      = (w.rng 0 : Int) % (average + 1) + average / 2 := by
    unfold wrapInt
    omega
  rw [h4]

/-- Whatever the average of the machine range, a count that is returned and is
not negative lies within the jitter interval. -/
theorem randomizeCount_bounds (average : Int) (h : 2 ≤ average) (hmax : average ≤ maxInt)
    (w w1 : World T) (k : Int)
    (hk : (randomizeCount average : Gen F T Int) w = Except.ok (k, w1)) (h0 : 0 ≤ k) :
    average / 2 ≤ k ∧ k ≤ average + average / 2 := by
  rw [randomizeCount_run average h w] at hk
  unfold maxInt at hmax
  have h1 : wrapInt (wrapInt (wrapInt (average + average / 2) - average / 2) + 1)
      = wrapInt (average + 1) := by
    unfold wrapInt
    omega
  rw [h1] at hk
  by_cases hle : wrapInt (average + 1) ≤ 0
  · rw [if_pos hle] at hk
    cases hk
  · rw [if_neg hle] at hk
    have hw : wrapInt (average + 1) = average + 1 := by
      unfold wrapInt at hle ⊢
      omega
    rw [hw] at hk
    have h2 : 0 ≤ (w.rng 0 : Int) % (average + 1) := Int.emod_nonneg _ (by omega)
    have h3 : (w.rng 0 : Int) % (average + 1) < average + 1 := Int.emod_lt_of_pos _ (by omega)
    simp only [Except.ok.injEq, Prod.mk.injEq] at hk
    obtain ⟨hk, _⟩ := hk
    generalize (w.rng 0 : Int) % (average + 1) = r at hk h2 h3
    subst hk
    unfold wrapInt at h0 ⊢
    omega

/-- The sizing policy on an average of the machine range whose jitter interval
does not overflow: randomizeCount returns, with the average itself up to one
and a count of the interval from two on. -/
theorem randomizeCount_returns (average : Int) (h0 : 0 ≤ average)
    (hmax : average + average / 2 ≤ maxInt) (w : World T) :
    ∃ k w1, (randomizeCount average : Gen F T Int) w = Except.ok (k, w1) ∧
      (average ≤ 1 → k = average) ∧
      (2 ≤ average → average / 2 ≤ k ∧ k ≤ average + average / 2) := by
  by_cases h : average ≤ 1
  · exact ⟨average, w, randomizeCount_small average h w, fun _ => rfl, fun h2 => by omega⟩
  · have h2 : 2 ≤ average := by omega
    refine ⟨_, _, randomizeCount_exact average h2 hmax w, fun h1 => by omega, fun _ => ?_⟩
    have := Int.emod_nonneg (w.rng 0 : Int) (show average + 1 ≠ 0 by omega)
    have := Int.emod_lt_of_pos (w.rng 0 : Int) (show 0 < average + 1 by omega)
    omega

end Count

/-! ## The primitive generators -/

section Prims

variable {F T : Type} {α β : Type}

/-- The idiom `slice[rand.Intn(len(slice))]` on a slice that is not empty: the
index is in range. -/
theorem sat_pick (E : Prop) (slice : List α) (h : slice ≠ []) (w : World T)
    (Q : α → World T → Prop) :
    sat E (rand.Intn slice.length >>= fun i => (index slice i : Gen F T α)) w Q ↔
      ∀ x, slice[(w.rng 0 % slice.length)]? = some x → Q x w.nextDraw := by
  have hpos : 0 < slice.length := List.length_pos.mpr h
  have hposz : (0 : Int) < slice.length := by exact_mod_cast hpos
  rw [sat_bind, sat_Intn_pos E _ hposz]
  have h0 : (0 : Int) ≤ (w.rng 0 : Int) % slice.length := Int.emod_nonneg _ (by omega)
  have h1 : (w.rng 0 : Int) % slice.length < slice.length := Int.emod_lt_of_pos _ hposz
  rw [sat_index E slice _ _ Q h0 h1]
  have hto : ((w.rng 0 : Int) % (slice.length : Int)).toNat = w.rng 0 % slice.length := by
    have := Int.natCast_mod (w.rng 0) slice.length
    omega
  rw [hto]

theorem sat_Intn_length (E : Prop) (slice : List α) (h : slice ≠ []) (w : World T)
    (Q : Int → World T → Prop) :
    sat E (rand.Intn (slice.length : Int) : Gen F T Int) w Q ↔
      Q ((w.rng 0 : Int) % (slice.length : Int)) w.nextDraw :=
  sat_Intn_pos E _ (by exact_mod_cast List.length_pos.mpr h) w Q

theorem sat_index_mod (E : Prop) (slice : List α) (h : slice ≠ []) (r : Nat) (w : World T)
    (Q : α → World T → Prop) :
    sat E (index slice ((r : Int) % (slice.length : Int)) : Gen F T α) w Q ↔
      ∀ x, slice[r % slice.length]? = some x → Q x w := by
  have hposz : (0 : Int) < slice.length := by exact_mod_cast List.length_pos.mpr h
  have h0 : (0 : Int) ≤ (r : Int) % slice.length := Int.emod_nonneg _ (by omega)
  have h1 : (r : Int) % slice.length < slice.length := Int.emod_lt_of_pos _ hposz
  rw [sat_index E slice _ _ Q h0 h1]
  have hto : ((r : Int) % (slice.length : Int)).toNat = r % slice.length := by
    have := Int.natCast_mod r slice.length
    omega
  rw [hto]

theorem pick_returns (slice : List α) (h : slice ≠ []) (w : World T) :
    ∃ x w1, (rand.Intn slice.length >>= fun i => (index slice i : Gen F T α)) w
      = Except.ok (x, w1) := by
  have hpos : 0 < slice.length := List.length_pos.mpr h
  have hlt : w.rng 0 % slice.length < slice.length := Nat.mod_lt _ hpos
  have hs := (sat_pick (F := F) False slice h w (fun _ _ => True)).mpr (fun _ _ => trivial)
  obtain ⟨x, w1, hx, _⟩ := (sat_false_iff _ _ _).mp hs
  exact ⟨x, w1, hx⟩

theorem randomChoice_returns (slice : List String) (w : World T) :
    ∃ a w1, (randomChoice slice : Gen F T String) w = Except.ok (a, w1) := by
  unfold randomChoice
  by_cases h : slice.length = 0
  · rw [if_pos h]
    exact ⟨"", w, rfl⟩
  · rw [if_neg h]
    exact pick_returns slice (by intro hs; apply h; simp [hs]) w

theorem sat_randomChoice (E : Prop) (slice : List String) (w : World T)
    (Q : String → World T → Prop) :
    sat E (randomChoice slice : Gen F T String) w Q ↔
      ∀ a w1, (randomChoice slice : Gen F T String) w = Except.ok (a, w1) → Q a w1 :=
  sat_of_returns E _ w Q (randomChoice_returns slice w)

theorem randomString_returns (length : Int) (h : 0 ≤ length)
    (hm : length ≤ 281474976710656) (w : World T) :
    ∃ a w1, (randomString length : Gen F T String) w = Except.ok (a, w1) := by
  unfold randomString
  have hr : ∃ xs w2, makeAndFill 1 length (fun _ => do
      let i ← rand.Intn charset.length
      (index charset i : Gen F T Char)) w = Except.ok (xs, w2) :=
    makeAndFill_returns _ (fun _ w => pick_returns charset (by decide) w) length h
      (by unfold maxAlloc; omega) w
  obtain ⟨xs, w2, hx⟩ := hr
  refine ⟨String.mk xs, w2, ?_⟩
  rw [bind_run, hx]
  rfl

theorem sat_randomString (E : Prop) (length : Int) (h : 0 ≤ length)
    (hm : length ≤ 281474976710656) (w : World T) (Q : String → World T → Prop) :
    sat E (randomString length : Gen F T String) w Q ↔
      ∀ a w1, (randomString length : Gen F T String) w = Except.ok (a, w1) → Q a w1 :=
  sat_of_returns E _ w Q (randomString_returns length h hm w)

end Prims

/-! ## The list builders return on every count that `make` accepts -/

section Builders

variable {F T : Type} [Float64Ops F] [TimeOps T] {α : Type}

/-- A step over a builder that returns on every count that `make` accepts,
called with a count `r % n + 1`. -/
theorem sat_of_returns_mod (E : Prop) (g : Int → Gen F T α)
    (hg : ∀ c, 0 ≤ c → c ≤ maxLen → ∀ w : World T, ∃ a w1, g c w = Except.ok (a, w1))
    (r : Nat) (n : Int) (hn : 0 < n) (hn2 : n ≤ 35184372088832) (w : World T)
    (Q : α → World T → Prop) :
    sat E (g ((r : Int) % n + 1)) w Q ↔
      ∀ a w1, g ((r : Int) % n + 1) w = Except.ok (a, w1) → Q a w1 := by
  have := Int.emod_nonneg (r : Int) (show n ≠ 0 by omega)
  have := Int.emod_lt_of_pos (r : Int) hn
  exact sat_of_returns E _ w Q (hg _ (by omega) (by unfold maxLen; omega) w)

theorem generateContactPoints_returns (count : Int) (hc : 0 ≤ count) (hm : count ≤ maxLen)
    (w : World T) :
    ∃ xs w1, (generateContactPoints count : Gen F T _) w = Except.ok (xs, w1) := by
  unfold generateContactPoints
  refine makeAndFill_returns _ (fun i w => returns_of_sat _ w ?_) count hc (ptr_fits count hm) w
  simp only [sat_bind, sat_pure, sat_Now, sat_Intn_pos, sat_randomChoice, sat_randomString,
    Int.reduceLT, Int.reduceLE, implies_true]

theorem generateVisitActions_returns (count : Int) (hc : 0 ≤ count) (hm : count ≤ maxLen)
    (w : World T) :
    ∃ xs w1, (generateVisitActions count : Gen F T _) w = Except.ok (xs, w1) := by
  unfold generateVisitActions
  refine makeAndFill_returns _ (fun i w => returns_of_sat _ w ?_) count hc (ptr_fits count hm) w
  simp only [sat_bind, sat_pure, sat_Now, sat_Intn_pos, sat_randomChoice, randomActionType,
    randomActionStatus, sat_Intn_length, sat_index_mod, ne_eq, reduceCtorEq, not_false_eq_true,
    Int.reduceLT, implies_true]

theorem generateVisitHistory_returns (count : Int) (hc : 0 ≤ count) (hm : count ≤ maxLen)
    (w : World T) :
    ∃ xs w1, (generateVisitHistory count : Gen F T _) w = Except.ok (xs, w1) := by
  unfold generateVisitHistory
  refine makeAndFill_returns _ (fun i w => returns_of_sat _ w ?_) count hc (ptr_fits count hm) w
  simp only [sat_bind, sat_pure, sat_Now, sat_Intn_pos, sat_randomChoice, randomVisitType,
    sat_of_returns_mod _ generateVisitActions generateVisitActions_returns,
    sat_Intn_length, sat_index_mod, ne_eq, reduceCtorEq, not_false_eq_true,
    Int.reduceLT, Int.reduceLE, implies_true]

theorem generateTopProducts_returns (count : Int) (hc : 0 ≤ count) (hm : count ≤ maxLen)
    (w : World T) :
    ∃ xs w1, (generateTopProducts count : Gen F T _) w = Except.ok (xs, w1) := by
  unfold generateTopProducts
  split_ifs
  · exact ⟨[], w, rfl⟩
  · refine makeAndFill_returns _ (fun i w => returns_of_sat _ w ?_) count hc (ptr_fits count hm) w
    simp only [sat_bind, sat_pure, sat_Float64, sat_Intn_pos, sat_randomChoice,
      Int.reduceLT, implies_true]

theorem generateMonthlyRevenue_returns (w : World T) :
    ∃ xs w1, (generateMonthlyRevenue : Gen F T _) w = Except.ok (xs, w1) := by
  unfold generateMonthlyRevenue
  refine makeAndFill_returns _ (fun i w => returns_of_sat _ w ?_) 6 (by decide) (by decide) w
  simp only [sat_bind, sat_pure, sat_Float64, sat_Intn_pos, Int.reduceLT]

theorem generateNearbyOutlets_returns (count : Int) (base : Location F) (hc : 0 ≤ count)
    (hm : count ≤ maxLen) (w : World T) :
    ∃ xs w1, (generateNearbyOutlets count base : Gen F T _) w = Except.ok (xs, w1) := by
  unfold generateNearbyOutlets
  refine makeAndFill_returns _ (fun i w => returns_of_sat _ w ?_) count hc (ptr_fits count hm) w
  simp only [sat_bind, sat_pure, sat_Float64, sat_Intn_pos, sat_randomChoice, randomOutletType,
    generateNearbyLocation, sat_Intn_length, sat_index_mod, ne_eq, reduceCtorEq,
    not_false_eq_true, Int.reduceLT, implies_true]

theorem noteTypes_ne_nil : noteTypes ≠ [] := by decide
theorem assetTypes_ne_nil : assetTypes ≠ [] := by decide
theorem checklistCategories_ne_nil : checklistCategories ≠ [] := by decide

theorem generateNotes_returns (count : Int) (hc : 0 ≤ count) (hm : count ≤ maxLen)
    (w : World T) :
    ∃ xs w1, (generateNotes count : Gen F T _) w = Except.ok (xs, w1) := by
  unfold generateNotes
  refine makeAndFill_returns _ (fun i w => returns_of_sat _ w ?_) count hc (ptr_fits count hm) w
  simp only [sat_bind, sat_pure, sat_Now, sat_Float64, sat_Intn_pos, sat_randomChoice,
    sat_Intn_length _ _ noteTypes_ne_nil, sat_index_mod _ _ noteTypes_ne_nil,
    Int.reduceLT, implies_true]

theorem generateMaintenanceHistory_returns (count : Int) (hc : 0 ≤ count) (hm : count ≤ maxLen)
    (w : World T) :
    ∃ xs w1, (generateMaintenanceHistory count : Gen F T _) w = Except.ok (xs, w1) := by
  unfold generateMaintenanceHistory
  refine makeAndFill_returns _ (fun i w => returns_of_sat _ w ?_) count hc (ptr_fits count hm) w
  simp only [sat_bind, sat_pure, sat_Now, sat_Float64, sat_Intn_pos, sat_randomChoice,
    randomMaintenanceType, sat_Intn_length, sat_index_mod, ne_eq, reduceCtorEq,
    not_false_eq_true, Int.reduceLT, implies_true]

theorem generateAssets_returns (count : Int) (hc : 0 ≤ count) (hm : count ≤ maxLen)
    (w : World T) :
    ∃ xs w1, (generateAssets count : Gen F T _) w = Except.ok (xs, w1) := by
  unfold generateAssets
  refine makeAndFill_returns _ (fun i w => returns_of_sat _ w ?_) count hc (ptr_fits count hm) w
  simp only [sat_bind, sat_pure, sat_Now, sat_Intn_pos, sat_randomChoice, sat_randomString,
    sat_of_returns_mod _ generateMaintenanceHistory generateMaintenanceHistory_returns,
    sat_Intn_length _ _ assetTypes_ne_nil, sat_index_mod _ _ assetTypes_ne_nil,
    Int.reduceLT, Int.reduceLE, implies_true]

theorem generateNews_returns (count : Int) (hc : 0 ≤ count) (hm : count ≤ maxLen)
    (w : World T) :
    ∃ xs w1, (generateNews count : Gen F T _) w = Except.ok (xs, w1) := by
  unfold generateNews
  refine makeAndFill_returns _ (fun i w => returns_of_sat _ w ?_) count hc (ptr_fits count hm) w
  simp only [sat_bind, sat_pure, sat_Now, sat_Float64, sat_Intn_pos, sat_randomChoice,
    randomNewsType, randomNewsSource, sat_Intn_length, sat_index_mod, ne_eq, reduceCtorEq,
    not_false_eq_true, Int.reduceLT, implies_true]

end Builders

/-! ## C1, C2: the count randomization policy -/

section Claims12

theorem nextDraw_withDraw {T : Type} (r : Nat) (w : World T) :
    (World.withDraw r w).nextDraw = w := by
  cases w
  rfl

/-- C1 (counterexample): for the average `9223372036854775807 >= 2` the sum
`A + A/2` overflows, the bound handed to `rand.Intn` is not positive and
randomizeCount panics: it returns no count at all, whatever the outcome. -/
theorem randomizeCount_overflow_panics :
    (2 : Int) ≤ 9223372036854775807 ∧
      (randomizeCount 9223372036854775807 : Gen ℚ Int Int) sampleWorld
        = Except.error "invalid argument to Intn" := by
  constructor
  · decide
  · rw [randomizeCount_run _ (by decide)]
    rw [if_pos (by decide)]

/-- C1 (amended): for every average `A >= 2` whose sum `A + A/2` is a machine
integer, and every outcome of the random source, randomizeCount returns after
one draw an integer `k` with `A/2 <= k <= A + A/2`; and every integer of that
interval, both ends included, is returned for some outcome of the draw. -/
theorem randomizeCount_within_jitter {F T : Type} (A : Int) (hA : 2 ≤ A)
    (hmax : A + A / 2 ≤ maxInt) :
    (∀ w : World T, ∃ k, (randomizeCount A : Gen F T Int) w = Except.ok (k, w.nextDraw) ∧
        A / 2 ≤ k ∧ k ≤ A + A / 2) ∧
    (∀ k, A / 2 ≤ k → k ≤ A + A / 2 → ∀ w : World T,
        (randomizeCount A : Gen F T Int) (World.withDraw (k - A / 2).toNat w)
          = Except.ok (k, w)) := by
  constructor
  · intro w
    refine ⟨_, randomizeCount_exact A hA hmax w, ?_, ?_⟩
    · have := Int.emod_nonneg (w.rng 0 : Int) (show A + 1 ≠ 0 by omega)
      omega
    · have := Int.emod_lt_of_pos (w.rng 0 : Int) (show 0 < A + 1 by omega)
      omega
  · intro k hlo hhi w
    rw [randomizeCount_exact A hA hmax, nextDraw_withDraw]
    have hr : (((World.withDraw (k - A / 2).toNat w).rng 0 : Nat) : Int) = k - A / 2 := by
      show (((k - A / 2).toNat : Nat) : Int) = k - A / 2
      omega
    rw [hr, Int.emod_eq_of_lt (by omega) (by omega)]
    simp

/-- C1 (witness): the average 5 gives a count in `[2, 7]`, and both ends are
reached. -/
theorem randomizeCount_within_jitter_witness :
    (2 : Int) ≤ 5 ∧ (5 : Int) + 5 / 2 ≤ maxInt ∧
    (∀ w : World Int, ∃ k, (randomizeCount 5 : Gen ℚ Int Int) w = Except.ok (k, w.nextDraw) ∧
        (5 : Int) / 2 ≤ k ∧ k ≤ 5 + 5 / 2) ∧
    (∀ k, (5 : Int) / 2 ≤ k → k ≤ 5 + 5 / 2 → ∀ w : World Int,
        (randomizeCount 5 : Gen ℚ Int Int) (World.withDraw (k - 5 / 2).toNat w)
          = Except.ok (k, w)) :=
  ⟨by decide, by decide, randomizeCount_within_jitter 5 (by decide) (by decide)⟩

/-- C2: for every average `A <= 1` (one, zero, negative) randomizeCount
returns exactly `A` and leaves the world as it was: no draw is consumed, so the
result does not depend on the random source. -/
theorem randomizeCount_degenerate {F T : Type} (A : Int) (hA : A ≤ 1) (w : World T) :
    (randomizeCount A : Gen F T Int) w = Except.ok (A, w) :=
  randomizeCount_small A hA w

/-- C2 (witness): the average -3. -/
theorem randomizeCount_degenerate_witness :
    (-3 : Int) ≤ 1 ∧
      (randomizeCount (-3) : Gen ℚ Int Int) sampleWorld = Except.ok (-3, sampleWorld) :=
  ⟨by decide, randomizeCount_degenerate (-3) (by decide) sampleWorld⟩

end Claims12

/-! ## C4: the arithmetic of an order item -/

section Claim4

theorem exact_ofRat (q : ℚ) : (ofRat q : ℚ) = q := rfl
theorem exact_fadd (a b : ℚ) : fadd a b = a + b := rfl
theorem exact_fsub (a b : ℚ) : fsub a b = a - b := rfl
theorem exact_fmul (a b : ℚ) : fmul a b = a * b := rfl
theorem exact_fdiv (a b : ℚ) : fdiv a b = a / b := rfl

theorem generateOrderItems_spec {F T : Type} [Float64Ops F] (count : Int) :
    (∀ (w w2 : World T) (items : List (OrderItem F)),
        (generateOrderItems count : Gen F T _) w = Except.ok (items, w2) →
        (items.length : Int) = count ∧
          ∀ (k : Nat) (it : OrderItem F), items[k]? = some it → itemPriced it) ∧
    (0 ≤ count → count ≤ maxLen → ∀ w : World T, ∃ items w2,
        (generateOrderItems count : Gen F T _) w = Except.ok (items, w2)) := by
  unfold generateOrderItems
  refine makeAndFill_spec_ptr _ (fun _ it => itemPriced it) ?_ count
  intro E i w
  simp only [sat_bind, sat_pure, sat_Intn_pos, sat_Float64, sat_randomChoice, sat_randomString,
    Int.reduceLT, Int.reduceLE, itemPriced, and_self, implies_true]

/-- C4: every item that generateOrderItems returns, on any count and outcome,
has, in any float64 arithmetic, DiscountAmount
`(Quantity * UnitPrice) * (DiscountPercentage / 100)` and TotalPrice
`Quantity * UnitPrice - DiscountAmount`; in exact arithmetic therefore
`DiscountAmount = Quantity * UnitPrice * DiscountPercentage / 100` and
`TotalPrice = Quantity * UnitPrice * (1 - DiscountPercentage / 100)`. And
generateOrderItems returns `count` items on every count that `make` accepts
(not negative, at most `maxLen`). -/
theorem generateOrderItems_item_prices {T : Type} (count : Int) (w : World T) :
    (∀ (F : Type) [Float64Ops F],
      (∀ (items : List (OrderItem F)) (w2 : World T),
        (generateOrderItems count : Gen F T _) w = Except.ok (items, w2) →
        (items.length : Int) = count ∧
        ∀ it ∈ items,
          it.DiscountAmount
              = fmul (fmul (ofRat ((it.Quantity : Int) : ℚ)) it.UnitPrice)
                  (fdiv it.DiscountPercentage (ofRat 100)) ∧
            it.TotalPrice
              = fsub (fmul (ofRat ((it.Quantity : Int) : ℚ)) it.UnitPrice) it.DiscountAmount) ∧
      (0 ≤ count → count ≤ maxLen → ∃ items w2,
        (generateOrderItems count : Gen F T _) w = Except.ok (items, w2))) ∧
    (∀ (items : List (OrderItem ℚ)) (w2 : World T),
        (generateOrderItems count : Gen ℚ T _) w = Except.ok (items, w2) →
        ∀ it ∈ items,
          it.DiscountAmount = it.Quantity * it.UnitPrice * it.DiscountPercentage / 100 ∧
          it.TotalPrice = it.Quantity * it.UnitPrice - it.DiscountAmount ∧
          it.TotalPrice = it.Quantity * it.UnitPrice * (1 - it.DiscountPercentage / 100)) := by
  have key : ∀ (F : Type) [Float64Ops F] (items : List (OrderItem F)) (w2 : World T),
      (generateOrderItems count : Gen F T _) w = Except.ok (items, w2) →
      (items.length : Int) = count ∧ ∀ it ∈ items, itemPriced it := by
    intro F _ items w2 h
    obtain ⟨hlen, hk⟩ := (generateOrderItems_spec (F := F) (T := T) count).1 w w2 items h
    refine ⟨hlen, ?_⟩
    intro it hit
    obtain ⟨k, hk2⟩ := List.mem_iff_getElem?.mp hit
    exact hk k it hk2
  constructor
  · intro F _
    exact ⟨key F, fun hc hm => (generateOrderItems_spec (F := F) (T := T) count).2 hc hm w⟩
  · intro items w2 h it hit
    obtain ⟨hd, ht⟩ := (key ℚ items w2 h).2 it hit
    simp only [exact_ofRat, exact_fmul, exact_fdiv, exact_fsub] at hd ht
    refine ⟨?_, ht, ?_⟩
    · rw [hd]; ring
    · rw [ht, hd]; ring

/-- C4 (witness): three items from the sample world, in exact arithmetic. -/
theorem generateOrderItems_item_prices_witness :
    (0 : Int) ≤ 3 ∧ (3 : Int) ≤ maxLen ∧
    ∃ (items : List (OrderItem ℚ)) (w2 : World Int),
      (generateOrderItems 3 : Gen ℚ Int _) sampleWorld = Except.ok (items, w2) ∧
      (items.length : Int) = 3 ∧
      ∀ it ∈ items,
        (it.DiscountAmount
            = fmul (fmul (ofRat ((it.Quantity : Int) : ℚ)) it.UnitPrice)
                (fdiv it.DiscountPercentage (ofRat 100)) ∧
          it.TotalPrice
            = fsub (fmul (ofRat ((it.Quantity : Int) : ℚ)) it.UnitPrice) it.DiscountAmount) ∧
        (it.DiscountAmount = it.Quantity * it.UnitPrice * it.DiscountPercentage / 100 ∧
          it.TotalPrice = it.Quantity * it.UnitPrice - it.DiscountAmount ∧
          it.TotalPrice = it.Quantity * it.UnitPrice * (1 - it.DiscountPercentage / 100)) := by
  obtain ⟨hF, hQ⟩ := generateOrderItems_item_prices 3 sampleWorld
  obtain ⟨hall, hret⟩ := hF ℚ
  obtain ⟨items, w2, h⟩ := hret (by decide) (by decide)
  exact ⟨by decide, by decide, items, w2, h, (hall items w2 h).1,
    fun it hit => ⟨(hall items w2 h).2 it hit, hQ items w2 h it hit⟩⟩

end Claim4

/-! ## C3: the total of an order -/

section Claim3

variable {F T : Type} [Float64Ops F] [TimeOps T]

/-- Every order that generateOrderHistory returns carries the total that
calculateOrderTotal computes from its own items. -/
theorem generateOrderHistory_all (count avg : Int) (w w2 : World T)
    (orders : List (Order F T))
    (h : (generateOrderHistory count avg : Gen F T _) w = Except.ok (orders, w2)) :
    (orders.length : Int) = count ∧
      ∀ (k : Nat) (o : Order F T), orders[k]? = some o →
        o.TotalAmount = calculateOrderTotal o.Items := by
  unfold generateOrderHistory at h
  refine ⟨(makeAndFill_length _ count w w2 orders h).2, ?_⟩
  refine makeAndFill_all _ (fun _ o => o.TotalAmount = calculateOrderTotal o.Items) ?_
    count w w2 orders h
  intro i w
  simp only [sat_bind, sat_pure, sat_Now, sat_Intn_pos, sat_true_iff (randomizeCount _),
    sat_true_iff (generateOrderItems _), sat_randomChoice, generatePaymentInfo,
    randomPaymentMethod, generateDeliveryInfo, randomOrderStatus, sat_Intn_length,
    sat_index_mod, ne_eq, reduceCtorEq, not_false_eq_true, Int.reduceLT, implies_true]

/-- On a count that `make` accepts and an items average that is not negative
and whose jitter interval stays within what `make` accepts,
generateOrderHistory returns. -/
theorem generateOrderHistory_returns (count avg : Int) (hc : 0 ≤ count)
    (hm : count ≤ maxLen) (h0 : 0 ≤ avg) (hmax : avg + avg / 2 ≤ maxLen) (w : World T) :
    ∃ orders w2, (generateOrderHistory count avg : Gen F T _) w = Except.ok (orders, w2) := by
  have hfit : avg + avg / 2 ≤ maxInt := by
    unfold maxLen at hmax
    unfold maxInt
    omega
  unfold generateOrderHistory
  refine makeAndFill_returns _ ?_ count hc (ptr_fits count hm) w
  intro i w
  apply returns_of_sat
  simp only [sat_bind, sat_Now, sat_Intn_pos, Int.reduceLT]
  obtain ⟨k, w1b, hk, hsmall, hbig⟩ :=
    randomizeCount_returns (F := F) avg h0 hfit w.tick.nextDraw
  rw [sat_of_returns _ _ _ _ ⟨k, w1b, hk⟩]
  intro drawn w1 hdrawn
  rw [hk] at hdrawn
  simp only [Except.ok.injEq, Prod.mk.injEq] at hdrawn
  obtain ⟨hd, hw⟩ := hdrawn
  subst hd hw
  have hcount : 0 ≤ (if k = 0 then 1 else k) ∧ (if k = 0 then 1 else k) ≤ maxLen := by
    split_ifs
    · exact ⟨by decide, by decide⟩
    · by_cases h1 : avg ≤ 1
      · have := hsmall h1
        unfold maxLen
        omega
      · have := hbig (by omega)
        omega
  rw [sat_of_returns _ _ _ _ ((generateOrderItems_spec _).2 hcount.1 hcount.2 _)]
  intro items w2 _
  simp only [sat_bind, sat_pure, sat_Intn_pos, sat_randomChoice, generatePaymentInfo,
    randomPaymentMethod, generateDeliveryInfo, randomOrderStatus, sat_Intn_length,
    sat_index_mod, ne_eq, reduceCtorEq, not_false_eq_true, Int.reduceLT, implies_true]

theorem calculateOrderTotal_eq (items : List (OrderItem F)) :
    calculateOrderTotal items
      = (items.map (fun it => it.TotalPrice)).foldl fadd (ofRat 0) := by
  unfold calculateOrderTotal
  rw [List.foldl_map]

/-- In exact arithmetic the total is the sum of the list of item prices. -/
theorem calculateOrderTotal_exact (items : List (OrderItem ℚ)) :
    calculateOrderTotal items = (items.map (fun it => it.TotalPrice)).sum := by
  rw [calculateOrderTotal_eq, List.sum_eq_foldl]
  rfl

/-- C3: for every order that generateOrderHistory returns, for any count, any
average of items per order, any outcome and any float64 arithmetic,
TotalAmount is the value of calculateOrderTotal on the Items of that same
order: the TotalPrice of the items added up from 0 in list order. -/
theorem generateOrderHistory_total_amount (count avg : Int) (w w2 : World T)
    (orders : List (Order F T))
    (h : (generateOrderHistory count avg : Gen F T _) w = Except.ok (orders, w2)) :
    ∀ o ∈ orders,
      o.TotalAmount = calculateOrderTotal o.Items ∧
      o.TotalAmount = (o.Items.map (fun it => it.TotalPrice)).foldl fadd (ofRat 0) := by
  intro o ho
  obtain ⟨k, hk⟩ := List.mem_iff_getElem?.mp ho
  have h1 := (generateOrderHistory_all count avg w w2 orders h).2 k o hk
  exact ⟨h1, by rw [h1, calculateOrderTotal_eq]⟩

/-- C3 (witness): two orders with an average of three items from the sample
world, in exact arithmetic. -/
theorem generateOrderHistory_total_amount_witness :
    ∃ (orders : List (Order ℚ Int)) (w2 : World Int),
      (generateOrderHistory 2 3 : Gen ℚ Int _) sampleWorld = Except.ok (orders, w2) ∧
      orders.length = 2 ∧
      ∀ o ∈ orders,
        o.TotalAmount = calculateOrderTotal o.Items ∧
        o.TotalAmount = (o.Items.map (fun it => it.TotalPrice)).foldl fadd (ofRat 0) := by
  obtain ⟨orders, w2, h⟩ :=
    generateOrderHistory_returns (F := ℚ) 2 3 (by decide) (by decide) (by decide) (by decide)
      sampleWorld
  refine ⟨orders, w2, h, ?_, generateOrderHistory_total_amount 2 3 sampleWorld w2 orders h⟩
  have := (generateOrderHistory_all 2 3 sampleWorld w2 orders h).1
  omega

end Claim3

/-! ## C7, C8: the status and the completion fields of a checklist item -/

section Claims78

variable {F T : Type} [Float64Ops F] [TimeOps T]

theorem checklistItemAt_made (E : Prop) (i : Int) (w : World T) :
    sat E (checklistItemAt i : Gen F T _) w (fun it _ => checklistItemMade F w it) := by
  unfold checklistItemAt
  simp only [sat_bind, sat_pure, sat_Now, sat_Float64, sat_Intn_pos, sat_randomChoice,
    randomPriority, sat_ite, sat_Intn_length, sat_index_mod, ne_eq, reduceCtorEq,
    not_false_eq_true, checklistCategories_ne_nil, Int.reduceLT, rng_nextDraw, rng_tick,
    clock_nextDraw, clock_tick, Nat.zero_add, Nat.reduceAdd]
  by_cases hc : completionDraw F w = true
  · have hc2 := hc
    unfold completionDraw at hc2
    simp only [hc2, checklistItemMade, statusRule, hc, forall_true_left, not_true_eq_false,
      false_implies, and_true, true_and, if_true, implies_true, reduceCtorEq,
      Option.some.injEq]
    intros
    exact ⟨_, rfl⟩
  · have hc1 : completionDraw F w = false := by simpa using hc
    have hc2 := hc1
    unfold completionDraw at hc2
    simp only [hc2, checklistItemMade, statusRule, hc1, Bool.false_eq_true, false_implies,
      true_and, not_false_eq_true, forall_true_left, if_false, and_true, implies_true,
      reduceCtorEq]
    constructor
    · intro hb
      simp only [hb, if_true, implies_true]
    · intro hb
      simp only [hb, if_false, implies_true, Bool.false_eq_true]

theorem rep_ne_empty (s : String) : "rep-" ++ s ≠ "" := by
  intro h
  have h2 := congrArg String.length h
  rw [String.length_append] at h2
  have h3 : "rep-".length = 4 := by decide
  have h4 : "".length = 0 := by decide
  omega

theorem statusRule_cases (completed : Bool) (dueDate current : T) :
    statusRule completed dueDate current = ChecklistStatus.COMPLETED ∨
    statusRule completed dueDate current = ChecklistStatus.OVERDUE ∨
    statusRule completed dueDate current = ChecklistStatus.PENDING := by
  unfold statusRule
  split_ifs <;> simp

/-- Every list that generateChecklist returns has `count` items, each made by
its own iteration from the world the earlier iterations leave. -/
theorem generateChecklist_made_of_run (count : Int) (w w2 : World T)
    (items : List (ChecklistItem T))
    (h : (generateChecklist count : Gen F T _) w = Except.ok (items, w2)) :
    (items.length : Int) = count ∧
      ∀ (k : Nat) (it : ChecklistItem T), items[k]? = some it →
        ∃ wi, iterationStart (checklistItemAt : Int → Gen F T _) k w wi ∧
          checklistItemMade F wi it := by
  unfold generateChecklist at h
  refine ⟨(makeAndFill_length _ count w w2 items h).2, ?_⟩
  intro k it hk
  obtain ⟨pre, wi, wj, hpre, hbody⟩ := makeAndFill_iter _ count w w2 items h k it hk
  exact ⟨wi, ⟨pre, hpre⟩, sat_ok True _ wi wj it _ (checklistItemAt_made True k wi) hbody⟩

/-- On a count that `make` accepts generateChecklist returns. -/
theorem generateChecklist_runs (count : Int) (hc : 0 ≤ count) (hm : count ≤ maxLen)
    (w : World T) :
    ∃ items w2, (generateChecklist count : Gen F T _) w = Except.ok (items, w2) := by
  unfold generateChecklist
  exact makeAndFill_returns (checklistItemAt : Int → Gen F T _)
    (fun i w => returns_of_sat _ w
      (sat_mono False _ w _ _ (checklistItemAt_made False i w) (fun _ _ _ => trivial)))
    count hc (ptr_fits count hm) w

/-- Every run of generateChecklist on a count that `make` accepts returns that
many items, each made by its own iteration from the world the earlier
iterations leave. -/
theorem generateChecklist_made (count : Int) (hc : 0 ≤ count) (hm : count ≤ maxLen)
    (w : World T) :
    ∃ items w2, (generateChecklist count : Gen F T _) w = Except.ok (items, w2) ∧
      (items.length : Int) = count ∧
      ∀ (k : Nat) (it : ChecklistItem T), items[k]? = some it →
        ∃ wi, iterationStart (checklistItemAt : Int → Gen F T _) k w wi ∧
          checklistItemMade F wi it := by
  obtain ⟨items, w2, h⟩ := generateChecklist_runs (F := F) count hc hm w
  exact ⟨items, w2, h, generateChecklist_made_of_run count w w2 items h⟩

/-- C7: in every list that generateChecklist returns, on any count and
outcome, the Status of each item is given by the rule from the completion
draw of its own iteration, its DueDate and the clock reading taken for the
comparison: COMPLETED if drawn as completed, otherwise OVERDUE if the DueDate
is before the current time, otherwise PENDING. It is one of these three
values, never another. And generateChecklist returns `count` items on every
count that `make` accepts (not negative, at most `maxLen`). -/
theorem generateChecklist_status (count : Int) (w : World T) :
    (∀ (items : List (ChecklistItem T)) (w2 : World T),
      (generateChecklist count : Gen F T _) w = Except.ok (items, w2) →
      (items.length : Int) = count ∧
      ∀ (k : Nat) (it : ChecklistItem T), items[k]? = some it →
        (∃ wi, iterationStart (checklistItemAt : Int → Gen F T _) k w wi ∧
          it.Status = statusRule (completionDraw F wi) it.DueDate (wi.clock 1)) ∧
        (it.Status = ChecklistStatus.COMPLETED ∨ it.Status = ChecklistStatus.OVERDUE ∨
          it.Status = ChecklistStatus.PENDING)) ∧
    (0 ≤ count → count ≤ maxLen →
      ∃ items w2, (generateChecklist count : Gen F T _) w = Except.ok (items, w2)) := by
  refine ⟨?_, fun hc hm => generateChecklist_runs count hc hm w⟩
  intro items w2 h
  obtain ⟨hlen, hall⟩ := generateChecklist_made_of_run (F := F) count w w2 items h
  refine ⟨hlen, ?_⟩
  intro k it hk
  obtain ⟨wi, hstart, hmade⟩ := hall k it hk
  refine ⟨⟨wi, hstart, hmade.2.1⟩, ?_⟩
  rw [hmade.2.1]
  exact statusRule_cases _ _ _

/-- C7 (witness): four items from the sample world, in exact arithmetic. -/
theorem generateChecklist_status_witness :
    (0 : Int) ≤ 4 ∧ (4 : Int) ≤ maxLen ∧
    ∃ items w2, (generateChecklist 4 : Gen ℚ Int _) sampleWorld = Except.ok (items, w2) ∧
      (items.length : Int) = 4 ∧
      ∀ (k : Nat) (it : ChecklistItem Int), items[k]? = some it →
        (∃ wi, iterationStart (checklistItemAt : Int → Gen ℚ Int _) k sampleWorld wi ∧
          it.Status = statusRule (completionDraw ℚ wi) it.DueDate (wi.clock 1)) ∧
        (it.Status = ChecklistStatus.COMPLETED ∨ it.Status = ChecklistStatus.OVERDUE ∨
          it.Status = ChecklistStatus.PENDING) := by
  obtain ⟨hall, hret⟩ := generateChecklist_status (F := ℚ) 4 sampleWorld
  obtain ⟨items, w2, h⟩ := hret (by decide) (by decide)
  exact ⟨by decide, by decide, items, w2, h, hall items w2 h⟩

/-- C8: in every list that generateChecklist returns, on any count and
outcome, for each item: CompletedDate is set and CompletedBy is not empty if
and only if Status is COMPLETED; an OVERDUE or PENDING item has no
CompletedDate and an empty CompletedBy. And generateChecklist returns `count`
items on every count that `make` accepts (not negative, at most `maxLen`). -/
theorem generateChecklist_completion (count : Int) (w : World T) :
    (∀ (items : List (ChecklistItem T)) (w2 : World T),
      (generateChecklist count : Gen F T _) w = Except.ok (items, w2) →
      (items.length : Int) = count ∧
      ∀ it ∈ items,
        ((it.CompletedDate.isSome = true ∧ it.CompletedBy ≠ "") ↔
          it.Status = ChecklistStatus.COMPLETED) ∧
        (it.Status = ChecklistStatus.COMPLETED →
          it.CompletedDate.isSome = true ∧ it.CompletedBy ≠ "") ∧
        (it.Status = ChecklistStatus.OVERDUE ∨ it.Status = ChecklistStatus.PENDING →
          it.CompletedDate = none ∧ it.CompletedBy = "")) ∧
    (0 ≤ count → count ≤ maxLen →
      ∃ items w2, (generateChecklist count : Gen F T _) w = Except.ok (items, w2)) := by
  refine ⟨?_, fun hc hm => generateChecklist_runs count hc hm w⟩
  intro items w2 h
  obtain ⟨hlen, hall⟩ := generateChecklist_made_of_run (F := F) count w w2 items h
  refine ⟨hlen, ?_⟩
  intro it hit
  obtain ⟨k, hk⟩ := List.mem_iff_getElem?.mp hit
  obtain ⟨wi, _, _, hstatus, hdone, hopen⟩ := hall k it hk
  cases hd : completionDraw F wi with
  | true =>
    obtain ⟨hdate, rep, hby⟩ := hdone hd
    have hs : it.Status = ChecklistStatus.COMPLETED := by
      rw [hstatus, hd]
      rfl
    have hboth : it.CompletedDate.isSome = true ∧ it.CompletedBy ≠ "" := by
      constructor
      · rw [hdate]
        rfl
      · rw [hby]
        exact rep_ne_empty _
    refine ⟨⟨fun _ => hs, fun _ => hboth⟩, fun _ => hboth, ?_⟩
    rintro (h1 | h1) <;> rw [hs] at h1 <;> cases h1
  | false =>
    obtain ⟨hdate, hby⟩ := hopen hd
    have hs : it.Status ≠ ChecklistStatus.COMPLETED := by
      rw [hstatus, hd]
      unfold statusRule
      rw [if_neg (by decide)]
      split_ifs <;> simp
    refine ⟨⟨fun hb => absurd hby hb.2, fun hc => absurd hc hs⟩, fun hc => absurd hc hs,
      fun _ => ⟨hdate, hby⟩⟩

/-- C8 (witness): four items from the sample world, in exact arithmetic. -/
theorem generateChecklist_completion_witness :
    (0 : Int) ≤ 4 ∧ (4 : Int) ≤ maxLen ∧
    ∃ items w2, (generateChecklist 4 : Gen ℚ Int _) sampleWorld = Except.ok (items, w2) ∧
      (items.length : Int) = 4 ∧
      ∀ it ∈ items,
        ((it.CompletedDate.isSome = true ∧ it.CompletedBy ≠ "") ↔
          it.Status = ChecklistStatus.COMPLETED) ∧
        (it.Status = ChecklistStatus.COMPLETED →
          it.CompletedDate.isSome = true ∧ it.CompletedBy ≠ "") ∧
        (it.Status = ChecklistStatus.OVERDUE ∨ it.Status = ChecklistStatus.PENDING →
          it.CompletedDate = none ∧ it.CompletedBy = "") := by
  obtain ⟨hall, hret⟩ := generateChecklist_completion (F := ℚ) 4 sampleWorld
  obtain ⟨items, w2, h⟩ := hret (by decide) (by decide)
  exact ⟨by decide, by decide, items, w2, h, hall items w2 h⟩

end Claims78

/-! ## C6: the statistics of the orders -/

section Stats

variable {F T : Type} [Float64Ops F] [TimeOps T]

theorem generateTopProducts_length (count : Int) (w w2 : World T)
    (xs : List (ProductStatistics F))
    (h : (generateTopProducts count : Gen F T _) w = Except.ok (xs, w2)) :
    (xs.length : Int) = count := by
  unfold generateTopProducts at h
  split_ifs at h with h0
  · cases h
    simp [h0]
  · exact (makeAndFill_length _ count w w2 xs h).2

theorem generateStatistics_made (top : Int) (orders : List (Order F T)) (visits : List (Visit T))
    (w w2 : World T) (st : OutletStatistics F)
    (h : (generateStatistics top orders visits : Gen F T _) w = Except.ok (st, w2)) :
    statsMade top orders visits st := by
  have hs : sat True (generateStatistics top orders visits : Gen F T _) w
      (fun st _ => statsMade top orders visits st) := by
    unfold generateStatistics
    simp only [sat_bind, sat_pure, sat_Float64, sat_Intn_pos, Int.reduceLT,
      sat_true_iff (generateTopProducts _), sat_true_iff generateMonthlyRevenue,
      randomCustomerSegment, generateCreditInfo, sat_Intn_length, sat_index_mod, ne_eq,
      reduceCtorEq, not_false_eq_true, statsMade, List.foldl_map, true_and]
    intro tops w3 htop
    intros
    exact generateTopProducts_length _ _ _ _ htop
  exact sat_ok True _ w w2 st _ hs h

theorem generateStatistics_returns (top : Int) (h0 : 0 ≤ top) (hm : top ≤ maxLen)
    (orders : List (Order F T)) (visits : List (Visit T)) (w : World T) :
    ∃ st w2, (generateStatistics top orders visits : Gen F T _) w = Except.ok (st, w2) := by
  apply returns_of_sat
  unfold generateStatistics
  have hT := fun w Q => sat_of_returns False (generateTopProducts top : Gen F T _) w Q
    (generateTopProducts_returns top h0 hm w)
  have hM := fun w Q => sat_of_returns False (generateMonthlyRevenue : Gen F T _) w Q
    (generateMonthlyRevenue_returns w)
  simp only [sat_bind, sat_pure, sat_Float64, sat_Intn_pos, Int.reduceLT, hT, hM,
    randomCustomerSegment, generateCreditInfo, sat_Intn_length, sat_index_mod, ne_eq,
    reduceCtorEq, not_false_eq_true, implies_true]

/-- C6: for every list of orders (and visits) given to generateStatistics, any
top-products count and any outcome, the statistics that are returned have
TotalRevenueYtd the orders' TotalAmount added up from 0 in list order; when
the list is not empty AverageOrderValue is TotalRevenueYtd divided by the
number of orders; when it is empty AverageOrderValue is the literal zero,
whatever the division of the float64 arithmetic is. And the statistics are
returned for every top-products count that `make` accepts (not negative, at
most `maxLen`). -/
theorem generateStatistics_average (top : Int) (orders : List (Order F T))
    (visits : List (Visit T)) (w : World T) :
    (∀ (st : OutletStatistics F) (w2 : World T),
      (generateStatistics top orders visits : Gen F T _) w = Except.ok (st, w2) →
      st.TotalRevenueYtd = (orders.map (fun o => o.TotalAmount)).foldl fadd (ofRat 0) ∧
      (orders ≠ [] →
        st.AverageOrderValue = fdiv st.TotalRevenueYtd (ofRat ((orders.length : Int) : ℚ))) ∧
      (orders = [] → st.AverageOrderValue = ofRat 0)) ∧
    (0 ≤ top → top ≤ maxLen →
      ∃ st w2, (generateStatistics top orders visits : Gen F T _) w = Except.ok (st, w2)) := by
  refine ⟨?_, fun h0 hm => generateStatistics_returns top h0 hm orders visits w⟩
  intro st w2 h
  obtain ⟨hrev, havg, _⟩ := generateStatistics_made top orders visits w w2 st h
  refine ⟨hrev, ?_, ?_⟩
  · intro hne
    rw [havg, if_pos (List.length_pos.mpr hne)]
  · intro he
    rw [havg, he]
    rfl

/-- C6 (witness): the statistics of two copies of the sample order, and of no
order, from the sample world in exact arithmetic. -/
theorem generateStatistics_average_witness :
    (0 : Int) ≤ 2 ∧ (2 : Int) ≤ maxLen ∧
    (∃ st w2, (generateStatistics 2 [sampleOrder, sampleOrder] [] : Gen ℚ Int _) sampleWorld
        = Except.ok (st, w2) ∧
      st.TotalRevenueYtd
        = ([sampleOrder, sampleOrder].map (fun o => o.TotalAmount)).foldl fadd (ofRat 0) ∧
      st.AverageOrderValue
        = fdiv st.TotalRevenueYtd (ofRat ((([sampleOrder, sampleOrder].length : Nat) : Int) : ℚ))) ∧
    (∃ st w2, (generateStatistics 2 ([] : List (Order ℚ Int)) [] : Gen ℚ Int _) sampleWorld
        = Except.ok (st, w2) ∧ st.AverageOrderValue = 0) := by
  obtain ⟨hall, hret⟩ :=
    generateStatistics_average (F := ℚ) 2 [sampleOrder, sampleOrder] [] sampleWorld
  obtain ⟨st, w2, h⟩ := hret (by decide) (by decide)
  obtain ⟨hall0, hret0⟩ :=
    generateStatistics_average (F := ℚ) 2 ([] : List (Order ℚ Int)) [] sampleWorld
  obtain ⟨st0, w0, h0⟩ := hret0 (by decide) (by decide)
  exact ⟨by decide, by decide,
    ⟨st, w2, h, (hall st w2 h).1, (hall st w2 h).2.1 (by simp)⟩,
    ⟨st0, w0, h0, (hall0 st0 w0 h0).2.2 rfl⟩⟩

end Stats

/-! ## The assembly of an outlet -/

section Outlet

variable {F T : Type} [Float64Ops F] [TimeOps T] {α : Type}

theorem sizedBy_of_run (A : Int) (builder : Int → Gen F T (List α)) (w w2 : World T)
    (xs : List α)
    (h : (if A > 0 then randomizeCount A >>= builder else pure []) w = Except.ok (xs, w2)) :
    sizedBy A builder xs := by
  by_cases hA : A > 0
  · rw [if_pos hA] at h
    obtain ⟨c, w1, hc, hb⟩ := (bind_ok_iff _ _ _ _ _).mp h
    exact Or.inr ⟨hA, c, w, w1, w2, hc, hb⟩
  · rw [if_neg hA] at h
    cases h
    exact Or.inl ⟨by omega, rfl⟩

/-- A list made under the sizing policy by a builder that makes as many
elements as it is asked for has a length that follows the policy. -/
theorem sizedBy_policy (A : Int) (builder : Int → Gen F T (List α)) (xs : List α)
    (hb : ∀ c (w w2 : World T) ys, builder c w = Except.ok (ys, w2) → (ys.length : Int) = c)
    (h0 : 0 ≤ A) (hmax : A ≤ maxInt) (h : sizedBy A builder xs) :
    followsPolicy A xs.length := by
  rcases h with ⟨hA, hxs⟩ | ⟨hA, c, w, w1, w2, hc, hrun⟩
  · subst hxs
    exact ⟨fun _ => rfl, fun h1 => by omega, fun h2 => by omega⟩
  · have hlen := hb c w1 w2 xs hrun
    refine ⟨fun hz => by omega, fun h1 => ?_, fun h2 => ?_⟩
    · rw [randomizeCount_small A (by omega) w] at hc
      simp only [Except.ok.injEq, Prod.mk.injEq] at hc
      omega
    · have hc0 : 0 ≤ c := by omega
      have := randomizeCount_bounds A h2 hmax w w1 c hc hc0
      omega

theorem sized_returns (A : Int) (hfit : countFits A) (builder : Int → Gen F T (List α))
    (hb : ∀ c, 0 ≤ c → c ≤ maxLen → ∀ w : World T, ∃ xs w2, builder c w = Except.ok (xs, w2))
    (w : World T) :
    ∃ xs w2, (if A > 0 then randomizeCount A >>= builder else pure []) w
      = Except.ok (xs, w2) := by
  have hfit2 : A + A / 2 ≤ maxLen := hfit
  have hmax : A + A / 2 ≤ maxInt := by
    unfold maxLen at hfit2
    unfold maxInt
    omega
  by_cases hA : A > 0
  · rw [if_pos hA]
    obtain ⟨k, w1, hk, hsmall, hbig⟩ := randomizeCount_returns (F := F) A (by omega) hmax w
    have hk0 : 0 ≤ k ∧ k ≤ maxLen := by
      by_cases h1 : A ≤ 1
      · have := hsmall h1
        unfold maxLen
        omega
      · have := hbig (by omega)
        omega
    obtain ⟨xs, w2, hx⟩ := hb k hk0.1 hk0.2 w1
    exact ⟨xs, w2, (bind_ok_iff _ _ _ _ _).mpr ⟨k, w1, hk, hx⟩⟩
  · rw [if_neg hA]
    exact ⟨[], w, rfl⟩

theorem sat_sized (E : Prop) (A : Int) (hfit : countFits A) (builder : Int → Gen F T (List α))
    (hb : ∀ c, 0 ≤ c → c ≤ maxLen → ∀ w : World T, ∃ xs w2, builder c w = Except.ok (xs, w2))
    (w : World T) (Q : List α → World T → Prop) :
    sat E (if A > 0 then randomizeCount A >>= builder else pure []) w Q ↔
      ∀ xs w2, (if A > 0 then randomizeCount A >>= builder else pure []) w
        = Except.ok (xs, w2) → Q xs w2 :=
  sat_of_returns E _ w Q (sized_returns A hfit builder hb w)

theorem generateRandomLocation_returns (w : World T) :
    ∃ a w2, (generateRandomLocation : Gen F T (Location F)) w = Except.ok (a, w2) := by
  apply returns_of_sat
  unfold generateRandomLocation
  simp only [sat_bind, sat_pure, sat_Float64, sat_Intn_pos, Int.reduceLT, sat_randomChoice,
    implies_true]

theorem generateChecklist_returns (count : Int) (hc : 0 ≤ count) (hm : count ≤ maxLen)
    (w : World T) :
    ∃ xs w2, (generateChecklist count : Gen F T _) w = Except.ok (xs, w2) := by
  exact generateChecklist_runs count hc hm w

/-- On settings whose counts `make` accepts GenerateMockedOutlet returns an
outlet, from every world. -/
theorem GenerateMockedOutlet_returns (outletID : String) (settings : MockSettings)
    (hs : settings.countsFit) (w : World T) :
    ∃ o w2, (GenerateMockedOutlet outletID settings : Gen F T _) w = Except.ok (o, w2) := by
  obtain ⟨hnotes, hvisits, horders, ⟨hitems0, hitems⟩, htop, hnearby, hassets, hcheck, hnews⟩ := hs
  apply returns_of_sat
  unfold GenerateMockedOutlet
  have hL := fun w Q => sat_of_returns False (generateRandomLocation : Gen F T (Location F)) w Q
    (generateRandomLocation_returns w)
  have hC := sat_of_returns_mod (T := T) False (generateContactPoints : Int → Gen F T _)
    generateContactPoints_returns
  have hV := sat_sized (T := T) False _ hvisits (generateVisitHistory : Int → Gen F T _)
    generateVisitHistory_returns
  have hO := sat_sized (T := T) False _ horders
    (fun c => (generateOrderHistory c settings.AverageOrderItemsPerOrder : Gen F T _))
    (fun c hc hm w => generateOrderHistory_returns c _ hc hm hitems0 hitems w)
  have hS := fun orders visits w Q => sat_of_returns False
    (generateStatistics settings.AverageTopProductsInStatistics orders visits : Gen F T _) w Q
    (generateStatistics_returns _ htop.1 htop.2 orders visits w)
  have hN := fun base => sat_sized (T := T) False _ hnearby
    (fun c => (generateNearbyOutlets c base : Gen F T _))
    (fun c hc hm w => generateNearbyOutlets_returns c base hc hm w)
  have hNo := sat_sized (T := T) False _ hnotes (generateNotes : Int → Gen F T _)
    generateNotes_returns
  have hA := sat_sized (T := T) False _ hassets (generateAssets : Int → Gen F T _)
    generateAssets_returns
  have hCh := sat_sized (T := T) False _ hcheck (generateChecklist : Int → Gen F T _)
    generateChecklist_returns
  have hNe := sat_sized (T := T) False _ hnews (generateNews : Int → Gen F T _)
    generateNews_returns
  simp only [sat_bind, sat_pure, sat_Seed, sat_Now, sat_Intn_pos, Int.reduceLT, Int.reduceLE,
    sat_randomChoice, sat_randomString, randomOutletType, sat_Intn_length, sat_index_mod,
    ne_eq, reduceCtorEq, not_false_eq_true, hL, hC, hV, hO, hS, hN, hNo, hA, hCh, hNe,
    implies_true]

theorem GenerateMockedOutlet_built (outletID : String) (settings : MockSettings)
    (w w2 : World T) (o : OutletDetails F T)
    (h : (GenerateMockedOutlet outletID settings : Gen F T _) w = Except.ok (o, w2)) :
    outletBuilt settings o := by
  have hs : sat True (GenerateMockedOutlet outletID settings : Gen F T _) w
      (fun o _ => outletBuilt settings o) := by
    unfold GenerateMockedOutlet
    simp only [sat_bind, sat_pure, sat_Seed, sat_Now, sat_Intn_pos, Int.reduceLT, Int.reduceLE,
      sat_randomChoice, sat_randomString, randomOutletType, sat_Intn_length, sat_index_mod,
      ne_eq, reduceCtorEq, not_false_eq_true,
      sat_true_iff generateRandomLocation, sat_true_iff (generateContactPoints _),
      sat_true_iff (ite _ _ _), sat_true_iff (generateStatistics _ _ _)]
    intro name _ _ letters _ _ typ _ location _ _ contacts _ _ visits _ hv orders _ ho
      stats _ hst nearby _ hn notes _ hnotes assets _ ha checklist _ hc news _ hnews
    exact ⟨sizedBy_of_run _ _ _ _ _ hv, sizedBy_of_run _ _ _ _ _ ho, ⟨_, _, hst⟩,
      sizedBy_of_run _ _ _ _ _ hn, sizedBy_of_run _ _ _ _ _ hnotes, sizedBy_of_run _ _ _ _ _ ha,
      sizedBy_of_run _ _ _ _ _ hc, sizedBy_of_run _ _ _ _ _ hnews⟩
  exact sat_ok True _ w w2 o _ hs h

end Outlet

/-! ## C9: nearby outlets are placed around the base location -/

section Claim9

variable {F T : Type} [Float64Ops F] [TimeOps T]

/-- The choice from a slice that is not empty takes one draw. -/
theorem sat_randomChoice_pick (E : Prop) (slice : List String) (h : slice ≠ []) (w : World T)
    (Q : String → World T → Prop) :
    sat E (randomChoice slice : Gen F T String) w Q ↔
      ∀ x, slice[(w.rng 0 % slice.length)]? = some x → Q x w.nextDraw := by
  unfold randomChoice
  rw [if_neg (by intro h0; exact h (List.length_eq_zero.mp h0))]
  exact sat_pick E slice h w Q

theorem outletNames_ne_nil : outletNames ≠ [] := by decide

/-- What one iteration of generateNearbyOutlets that starts in `w` makes of
the location. -/
theorem nearbyOutlet_placed (E : Prop) (base : Location F) (i : Int) (w : World T) :
    sat E (do
      let name ← randomChoice outletNames
      let typ ← randomOutletType
      let r ← rand.Float64
      let location ← generateNearbyLocation base
      let c ← rand.Float64
      let relationship ← randomChoice ["Partner", "Competitor", "Neutral", "Supplier"]
      pure ({
        OutletId := "nearby-outlet-" ++ fmt.d 3 (i + 1)
        Name := name
        Typ := typ
        DistanceKm := fadd (fmul r (ofRat 5)) (ofRat 0.1)
        Location := location
        IsCompetitor := flt c (ofRat 0.3)
        Relationship := relationship
        Thumbnail := "https://picsum.photos/100" } : OutletNearby F) : Gen F T _) w
      (fun n _ => nearbyPlaced w base n.Location) := by
  simp only [sat_bind, sat_pure, sat_Float64, sat_Intn_pos,
    sat_randomChoice_pick _ _ outletNames_ne_nil, sat_randomChoice_pick, randomOutletType,
    generateNearbyLocation, sat_Intn_length, sat_index_mod, ne_eq, reduceCtorEq,
    not_false_eq_true, Int.reduceLT, nearbyPlaced, rng_nextDraw, Nat.zero_add, Nat.reduceAdd,
    true_and]
  intros
  exact ⟨rfl, rfl⟩

theorem nearbyMade_of_placed (w : World T) (base loc : Location F)
    (h : nearbyPlaced w base loc) : nearbyMade base loc :=
  ⟨h.1, h.2.1, _, _, Nat.mod_lt _ (by decide), Nat.mod_lt _ (by decide), h.2.2.1, h.2.2.2⟩

theorem generateNearbyOutlets_spec (count : Int) (base : Location F) :
    (∀ (w w2 : World T) (xs : List (OutletNearby F)),
        (generateNearbyOutlets count base : Gen F T _) w = Except.ok (xs, w2) →
        (xs.length : Int) = count ∧
          ∀ (k : Nat) (n : OutletNearby F), xs[k]? = some n → nearbyMade base n.Location) ∧
    (0 ≤ count → count ≤ maxLen → ∀ w : World T, ∃ xs w2,
        (generateNearbyOutlets count base : Gen F T _) w = Except.ok (xs, w2)) := by
  unfold generateNearbyOutlets
  refine makeAndFill_spec_ptr _ (fun _ (n : OutletNearby F) => nearbyMade base n.Location) ?_
    count
  intro E i w
  exact sat_mono E _ w _ _ (nearbyOutlet_placed E base i w)
    (fun n _ hn => nearbyMade_of_placed w base n.Location hn)

/-- The first nearby outlet is the one the iteration makes that starts in the
world of the call. -/
theorem generateNearbyOutlets_first (count : Int) (base : Location F) (w w2 : World T)
    (xs : List (OutletNearby F)) (n : OutletNearby F)
    (h : (generateNearbyOutlets count base : Gen F T _) w = Except.ok (xs, w2))
    (h0 : xs[0]? = some n) : nearbyPlaced w base n.Location := by
  unfold generateNearbyOutlets at h
  obtain ⟨pre, wi, wj, hpre, hbody⟩ := makeAndFill_iter _ count w w2 xs h 0 n h0
  rw [fillFrom_zero] at hpre
  simp only [Except.ok.injEq, Prod.mk.injEq] at hpre
  obtain ⟨_, hw⟩ := hpre
  subst hw
  exact sat_ok True _ w wj n _ (nearbyOutlet_placed True base _ w) hbody

theorem unitOf_exact (k : Nat) : rand.unitOf ℚ k = (k : ℚ) / 9223372036854775808 := rfl

/-- In exact arithmetic a draw of `rand.Float64` lies in `[0, 1)`. -/
theorem unitOf_exact_bounds (k : Nat) (hk : k < rand.keptInt63) :
    0 ≤ rand.unitOf ℚ k ∧ rand.unitOf ℚ k < 1 := by
  rw [unitOf_exact]
  constructor
  · positivity
  · rw [div_lt_one (by norm_num)]
    have h2 : k < 9223372036854775808 := by
      unfold rand.keptInt63 at hk
      omega
    exact_mod_cast h2

theorem withinOffset_of_made (base loc : Location ℚ) (h : nearbyMade base loc) :
    withinOffset base loc := by
  obtain ⟨hcity, hstate, k1, k2, hk1, hk2, hlat, hlon⟩ := h
  unfold offsetCoordinate at hlat hlon
  simp only [exact_ofRat, exact_fadd, exact_fsub, exact_fmul] at hlat hlon
  obtain ⟨b1, b2⟩ := unitOf_exact_bounds k1 hk1
  obtain ⟨b3, b4⟩ := unitOf_exact_bounds k2 hk2
  refine ⟨hcity, hstate, ?_, ?_⟩
  · rw [hlat, abs_le]
    constructor <;> norm_num <;> linarith
  · rw [hlon, abs_le]
    constructor <;> norm_num <;> linarith

theorem nearby_of_built (settings : MockSettings) (o : OutletDetails F T)
    (h : outletBuilt settings o) :
    ∀ n ∈ o.OutletsNearby, nearbyMade o.Location n.Location := by
  intro n hn
  obtain ⟨_, _, _, hnear, _⟩ := h
  rcases hnear with ⟨_, hnil⟩ | ⟨_, c, w, w1, w2, _, hrun⟩
  · rw [hnil] at hn
    cases hn
  · obtain ⟨k, hk⟩ := List.mem_iff_getElem?.mp hn
    exact ((generateNearbyOutlets_spec c o.Location).1 w1 w2 _ hrun).2 k n hk

set_option maxRecDepth 100000

theorem ieee_ofRat (q : ℚ) : (ofRat q : Binary64) = Binary64.ofRat q := rfl
theorem ieee_fadd (a b : Binary64) : fadd a b = Binary64.add a b := rfl
theorem ieee_fsub (a b : Binary64) : fsub a b = Binary64.sub a b := rfl
theorem ieee_fmul (a b : Binary64) : fmul a b = Binary64.mul a b := rfl
theorem ieee_fdiv (a b : Binary64) : fdiv a b = Binary64.div a b := rfl
theorem ieee_flt (a b : Binary64) : flt a b = Binary64.lt a b := rfl

/-- The double of a rational number whose numerator, denominator and sign are
known. -/
theorem ofRat_eval (q : ℚ) (n : Int) (d : Nat) (s : Bool) (hn : q.num = n) (hd : q.den = d)
    (hs : decide (q < 0) = s) : Binary64.ofRat q = Binary64.round s n.natAbs d := by
  unfold Binary64.ofRat
  rw [hn, hd, hs]

/-- The doubles of the literals of generateNearbyLocation, of the base
longitude -74.0060, of the bound 0.025 and of the power `1 << 63`. -/
theorem literals_float64 :
    Binary64.ofRat 0.5 = Binary64.finite false 4503599627370496 (-53) ∧
    Binary64.ofRat 0.05 = Binary64.finite false 7205759403792794 (-57) ∧
    Binary64.ofRat 0.025 = Binary64.finite false 7205759403792794 (-58) ∧
    Binary64.ofRat (-74.0060) = Binary64.finite true 5207709281612202 (-46) ∧
    Binary64.ofRat 9223372036854775808 = Binary64.finite false 4503599627370496 11 := by
  refine ⟨?_, ?_, ?_, ?_, ?_⟩
  · rw [ofRat_eval 0.5 1 2 false (by norm_num) (by norm_num) (by norm_num)]
    decide
  · rw [ofRat_eval 0.05 1 20 false (by norm_num) (by norm_num) (by norm_num)]
    decide
  · rw [ofRat_eval 0.025 1 40 false (by norm_num) (by norm_num) (by norm_num)]
    decide
  · rw [ofRat_eval (-74.0060) (-37003) 500 true (by norm_num) (by norm_num) (by norm_num)]
    decide
  · rw [ofRat_eval 9223372036854775808 9223372036854775808 1 false (by norm_num)
      (by norm_num) (by norm_num)]
    decide

/-- The seventh outcome of the sample world, 45, as the draw of
`rand.Float64` in float64: `45 / 2^63`. -/
theorem unitOf_float64_45 :
    rand.unitOf Binary64 (sampleWorld.rng 6 % rand.keptInt63)
      = Binary64.finite false 6333186975989760 (-110) := by
  have h45 : sampleWorld.rng 6 % rand.keptInt63 = 45 := by decide
  rw [h45]
  unfold rand.unitOf
  rw [ieee_fdiv, ieee_ofRat, ieee_ofRat, literals_float64.2.2.2.2,
    ofRat_eval ((45 : Nat) : ℚ) 45 1 false (by norm_num) (by norm_num) (by norm_num)]
  decide

/-- The values of `Int63()` at the threshold of the resampling of
`rand.Float64`, in float64: `2^63 - 513` gives the largest double below 1,
`2^63 - 512` and `2^63 - 1` give 1. -/
theorem unitOf_float64_threshold :
    rand.unitOf Binary64 9223372036854775295 = Binary64.finite false 9007199254740991 (-53) ∧
    rand.unitOf Binary64 9223372036854775296 = Binary64.finite false 4503599627370496 (-52) ∧
    rand.unitOf Binary64 9223372036854775807 = Binary64.finite false 4503599627370496 (-52) ∧
    Binary64.ofRat 1 = Binary64.finite false 4503599627370496 (-52) := by
  unfold rand.unitOf
  simp only [ieee_fdiv, ieee_ofRat, literals_float64.2.2.2.2]
  refine ⟨?_, ?_, ?_, ?_⟩
  · rw [ofRat_eval ((9223372036854775295 : Nat) : ℚ) 9223372036854775295 1 false
      (by norm_num) (by norm_num) (by norm_num)]
    decide
  · rw [ofRat_eval ((9223372036854775296 : Nat) : ℚ) 9223372036854775296 1 false
      (by norm_num) (by norm_num) (by norm_num)]
    decide
  · rw [ofRat_eval ((9223372036854775807 : Nat) : ℚ) 9223372036854775807 1 false
      (by norm_num) (by norm_num) (by norm_num)]
    decide
  · rw [ofRat_eval 1 1 1 false (by norm_num) (by norm_num) (by norm_num)]
    decide

/-- The longitude that float64 places near -74.0060 from the seventh outcome
of the sample world. -/
theorem offsetCoordinate_float64 :
    offsetCoordinate Binary64 sampleLocation64.Longitude (sampleWorld.rng 6 % rand.keptInt63)
      = Binary64.finite true 5209468500216644 (-46) := by
  unfold offsetCoordinate
  rw [unitOf_float64_45]
  simp only [sampleLocation64, ieee_fadd, ieee_fsub, ieee_fmul, ieee_ofRat,
    literals_float64.1, literals_float64.2.1, literals_float64.2.2.2.1]
  decide

/-- C9 (counterexample): in float64, from the sample world and around the
base location of longitude -74.0060, generateNearbyOutlets returns a nearby
outlet whose Longitude, the double -74.031, differs from the base's by
`1759218604442 * 2^(-46) = 0.02500000000000568..`, more than 0.025: the sum
`base + (r - 0.5) * 0.05` is rounded to a double that lies further away. The
comparison that float64 itself makes finds the difference above 0.025 too. -/
theorem generateNearbyOutlets_rounding_exceeds :
    ∃ (n : OutletNearby Binary64) (w2 : World Int),
      (generateNearbyOutlets 1 sampleLocation64 : Gen Binary64 Int _) sampleWorld
        = Except.ok ([n], w2) ∧
      sampleLocation64.Longitude = Binary64.finite true 5207709281612202 (-46) ∧
      n.Location.Longitude = Binary64.finite true 5209468500216644 (-46) ∧
      (0.025 : ℚ) < |n.Location.Longitude.toRat - sampleLocation64.Longitude.toRat| ∧
      flt (ofRat 0.025 : Binary64)
        (fsub sampleLocation64.Longitude n.Location.Longitude) = true := by
  obtain ⟨xs, w2, h⟩ := generateNearbyOutlets_returns (F := Binary64) 1 sampleLocation64
    (by decide) (by decide) sampleWorld
  have hlen := ((generateNearbyOutlets_spec 1 sampleLocation64).1 sampleWorld w2 xs h).1
  obtain ⟨n, hn⟩ : ∃ n, xs = [n] := List.length_eq_one.mp (by omega)
  subst hn
  obtain ⟨_, _, _, hlon⟩ :=
    generateNearbyOutlets_first 1 sampleLocation64 sampleWorld w2 [n] n h rfl
  rw [offsetCoordinate_float64] at hlon
  have hbase : sampleLocation64.Longitude = Binary64.finite true 5207709281612202 (-46) :=
    literals_float64.2.2.2.1
  refine ⟨n, w2, h, hbase, hlon, ?_, ?_⟩
  · rw [hlon, hbase]
    unfold Binary64.toRat
    rw [lt_abs]
    right
    norm_num
  · rw [hlon, hbase, ieee_flt, ieee_fsub, ieee_ofRat, literals_float64.2.2.1]
    decide

/-- C9 (amended): every nearby outlet that generateNearbyOutlets returns, on
any count, base location and outcome, has the City and State of the base and
the coordinates `base + (r - 0.5) * 0.05` for draws `r` of `rand.Float64`,
computed in the float64 arithmetic (any one); computed in exact arithmetic,
where `r` lies in `[0, 1)`, Latitude and Longitude each differ from the base's
by at most 0.025; generateNearbyOutlets returns `count` outlets on every count
that `make` accepts; and in every outlet GenerateMockedOutlet returns, the
nearby outlets are so placed around the outlet's own Location. -/
theorem generateNearbyOutlets_cluster {T : Type} [TimeOps T] (count : Int) (w : World T) :
    (∀ (F : Type) [Float64Ops F] (b : Location F),
      (∀ (xs : List (OutletNearby F)) (w2 : World T),
        (generateNearbyOutlets count b : Gen F T _) w = Except.ok (xs, w2) →
        (xs.length : Int) = count ∧
        ∀ n ∈ xs, n.Location.City = b.City ∧ n.Location.State = b.State ∧
          nearbyMade b n.Location) ∧
      (0 ≤ count → count ≤ maxLen → ∃ xs w2,
        (generateNearbyOutlets count b : Gen F T _) w = Except.ok (xs, w2))) ∧
    (∀ (base : Location ℚ) (xs : List (OutletNearby ℚ)) (w2 : World T),
        (generateNearbyOutlets count base : Gen ℚ T _) w = Except.ok (xs, w2) →
        ∀ n ∈ xs, n.Location.City = base.City ∧ n.Location.State = base.State ∧
          |n.Location.Latitude - base.Latitude| ≤ 0.025 ∧
          |n.Location.Longitude - base.Longitude| ≤ 0.025) ∧
    (∀ (F : Type) [Float64Ops F] (outletID : String) (settings : MockSettings)
        (o : OutletDetails F T) (w2 : World T),
        (GenerateMockedOutlet outletID settings : Gen F T _) w = Except.ok (o, w2) →
        ∀ n ∈ o.OutletsNearby, nearbyMade o.Location n.Location) ∧
    (∀ (outletID : String) (settings : MockSettings) (o : OutletDetails ℚ T) (w2 : World T),
        (GenerateMockedOutlet outletID settings : Gen ℚ T _) w = Except.ok (o, w2) →
        ∀ n ∈ o.OutletsNearby,
          n.Location.City = o.Location.City ∧ n.Location.State = o.Location.State ∧
          |n.Location.Latitude - o.Location.Latitude| ≤ 0.025 ∧
          |n.Location.Longitude - o.Location.Longitude| ≤ 0.025) := by
  have key : ∀ (F : Type) [Float64Ops F] (b : Location F) (xs : List (OutletNearby F))
      (w2 : World T), (generateNearbyOutlets count b : Gen F T _) w = Except.ok (xs, w2) →
      (xs.length : Int) = count ∧ ∀ n ∈ xs, nearbyMade b n.Location := by
    intro F _ b xs w2 h
    obtain ⟨hlen, hk⟩ := (generateNearbyOutlets_spec (F := F) (T := T) count b).1 w w2 xs h
    refine ⟨hlen, ?_⟩
    intro n hn
    obtain ⟨k, hk2⟩ := List.mem_iff_getElem?.mp hn
    exact hk k n hk2
  refine ⟨?_, ?_, ?_, ?_⟩
  · intro F _ b
    refine ⟨?_, fun hc hm => (generateNearbyOutlets_spec (F := F) (T := T) count b).2 hc hm w⟩
    intro xs w2 h
    obtain ⟨hlen, hall⟩ := key F b xs w2 h
    exact ⟨hlen, fun n hn => ⟨(hall n hn).1, (hall n hn).2.1, hall n hn⟩⟩
  · intro base xs w2 h n hn
    exact withinOffset_of_made base n.Location ((key ℚ base xs w2 h).2 n hn)
  · intro F _ outletID settings o w2 h n hn
    exact nearby_of_built settings o (GenerateMockedOutlet_built outletID settings w w2 o h) n hn
  · intro outletID settings o w2 h n hn
    exact withinOffset_of_made o.Location n.Location
      (nearby_of_built settings o (GenerateMockedOutlet_built outletID settings w w2 o h) n hn)

/-- C9 (witness): three nearby outlets around the sample location, from the
sample world: placed by the formula, and in exact arithmetic within 0.025. -/
theorem generateNearbyOutlets_cluster_witness :
    (0 : Int) ≤ 3 ∧ (3 : Int) ≤ maxLen ∧
    ∃ xs w2, (generateNearbyOutlets 3 sampleLocation : Gen ℚ Int _) sampleWorld
          = Except.ok (xs, w2) ∧
        (xs.length : Int) = 3 ∧
        ∀ n ∈ xs, nearbyMade sampleLocation n.Location ∧
          n.Location.City = sampleLocation.City ∧
          n.Location.State = sampleLocation.State ∧
          |n.Location.Latitude - sampleLocation.Latitude| ≤ 0.025 ∧
          |n.Location.Longitude - sampleLocation.Longitude| ≤ 0.025 := by
  obtain ⟨hF, hQ, _⟩ := generateNearbyOutlets_cluster 3 sampleWorld
  obtain ⟨hall, hret⟩ := hF ℚ sampleLocation
  obtain ⟨xs, w2, h⟩ := hret (by decide) (by decide)
  exact ⟨by decide, by decide, xs, w2, h, (hall xs w2 h).1,
    fun n hn => ⟨((hall xs w2 h).2 n hn).2.2, hQ sampleLocation xs w2 h n hn⟩⟩

end Claim9

/-! ## C10: the lengths of the lists of an outlet -/

section Claim10

variable {F T : Type} [Float64Ops F] [TimeOps T]

theorem generateVisitHistory_length (c : Int) (w w2 : World T) (xs : List (Visit T))
    (h : (generateVisitHistory c : Gen F T _) w = Except.ok (xs, w2)) : (xs.length : Int) = c :=
  (makeAndFill_length _ c w w2 xs h).2

theorem generateOrderHistory_length (c avg : Int) (w w2 : World T) (xs : List (Order F T))
    (h : (generateOrderHistory c avg : Gen F T _) w = Except.ok (xs, w2)) :
    (xs.length : Int) = c :=
  (makeAndFill_length _ c w w2 xs h).2

theorem generateNearbyOutlets_length (c : Int) (base : Location F) (w w2 : World T)
    (xs : List (OutletNearby F))
    (h : (generateNearbyOutlets c base : Gen F T _) w = Except.ok (xs, w2)) :
    (xs.length : Int) = c :=
  (makeAndFill_length _ c w w2 xs h).2

theorem generateNotes_length (c : Int) (w w2 : World T) (xs : List (Note T))
    (h : (generateNotes c : Gen F T _) w = Except.ok (xs, w2)) : (xs.length : Int) = c :=
  (makeAndFill_length _ c w w2 xs h).2

theorem generateAssets_length (c : Int) (w w2 : World T) (xs : List (Asset F T))
    (h : (generateAssets c : Gen F T _) w = Except.ok (xs, w2)) : (xs.length : Int) = c :=
  (makeAndFill_length _ c w w2 xs h).2

theorem generateChecklist_length (c : Int) (w w2 : World T) (xs : List (ChecklistItem T))
    (h : (generateChecklist c : Gen F T _) w = Except.ok (xs, w2)) : (xs.length : Int) = c :=
  (makeAndFill_length _ c w w2 xs h).2

theorem generateNews_length (c : Int) (w w2 : World T) (xs : List (News T))
    (h : (generateNews c : Gen F T _) w = Except.ok (xs, w2)) : (xs.length : Int) = c :=
  (makeAndFill_length _ c w w2 xs h).2

theorem generateOrderItems_length (c : Int) (w w2 : World T) (xs : List (OrderItem F))
    (h : (generateOrderItems c : Gen F T _) w = Except.ok (xs, w2)) : (xs.length : Int) = c :=
  (makeAndFill_length _ c w w2 xs h).2

/-- Every order that generateOrderHistory returns has as many items as
randomizeCount returned for the items average, and one item when that is zero. -/
theorem generateOrderHistory_items (count avg : Int) (w w2 : World T)
    (orders : List (Order F T))
    (h : (generateOrderHistory count avg : Gen F T _) w = Except.ok (orders, w2)) :
    ∀ o ∈ orders, ∃ (drawn : Int) (wa wb : World T),
      (randomizeCount avg : Gen F T Int) wa = Except.ok (drawn, wb) ∧
      (o.Items.length : Int) = if drawn = 0 then 1 else drawn := by
  intro o ho
  obtain ⟨k, hk⟩ := List.mem_iff_getElem?.mp ho
  unfold generateOrderHistory at h
  refine makeAndFill_all _ (fun _ (o : Order F T) => ∃ (drawn : Int) (wa wb : World T),
      (randomizeCount avg : Gen F T Int) wa = Except.ok (drawn, wb) ∧
      (o.Items.length : Int) = if drawn = 0 then 1 else drawn) ?_ count w w2 orders h k o hk
  intro i w
  simp only [sat_bind, sat_pure, sat_Now, sat_Intn_pos, sat_true_iff (randomizeCount _),
    sat_true_iff (generateOrderItems _), sat_randomChoice, generatePaymentInfo,
    randomPaymentMethod, generateDeliveryInfo, randomOrderStatus, sat_Intn_length,
    sat_index_mod, ne_eq, reduceCtorEq, not_false_eq_true, Int.reduceLT]
  intro drawn wb hdrawn items wc hitems
  intros
  exact ⟨drawn, _, wb, hdrawn, generateOrderItems_length _ _ _ _ hitems⟩

/-- The seven list lengths of a built outlet follow the sizing policy. -/
theorem policy_of_built (settings : MockSettings) (o : OutletDetails F T)
    (hint : settings.isInt) (h0 : settings.nonNegative) (h : outletBuilt settings o) :
    followsPolicy settings.AverageVisitHistory o.VisitHistory.length ∧
    followsPolicy settings.AverageNumberOfOrders o.OrderHistory.length ∧
    followsPolicy settings.AverageOutletsNearby o.OutletsNearby.length ∧
    followsPolicy settings.AverageNotesList o.Notes.length ∧
    followsPolicy settings.AverageAssetList o.AssetList.length ∧
    followsPolicy settings.AverageChecklist o.Checklist.length ∧
    followsPolicy settings.AverageNews o.News.length := by
  obtain ⟨hv, ho, _, hn, hnotes, ha, hc, hnews⟩ := h
  obtain ⟨i1, i2, i3, _, _, i6, i7, i8, i9⟩ := hint
  obtain ⟨n1, n2, n3, _, _, n6, n7, n8, n9⟩ := h0
  exact ⟨sizedBy_policy _ _ _ generateVisitHistory_length n2 i2.2 hv,
    sizedBy_policy _ _ _ (fun c => generateOrderHistory_length c _) n3 i3.2 ho,
    sizedBy_policy _ _ _ (fun c => generateNearbyOutlets_length c _) n6 i6.2 hn,
    sizedBy_policy _ _ _ generateNotes_length n1 i1.2 hnotes,
    sizedBy_policy _ _ _ generateAssets_length n7 i7.2 ha,
    sizedBy_policy _ _ _ generateChecklist_length n8 i8.2 hc,
    sizedBy_policy _ _ _ generateNews_length n9 i9.2 hnews⟩

theorem sizedBy_zero {α : Type} (builder : Int → Gen F T (List α)) (xs : List α)
    (h : sizedBy 0 builder xs) : xs = [] := by
  rcases h with ⟨_, hxs⟩ | ⟨hA, _⟩
  · exact hxs
  · omega

theorem scenarioSettings_countsFit : scenarioSettings.countsFit := by
  unfold MockSettings.countsFit countFits scenarioSettings maxLen
  norm_num

theorem legacySettings_countsFit : legacySettings.countsFit := by
  unfold MockSettings.countsFit countFits legacySettings maxLen
  norm_num

theorem legacySettings_isInt : legacySettings.isInt := by
  unfold MockSettings.isInt legacySettings maxInt
  norm_num

theorem legacySettings_nonNegative : legacySettings.nonNegative := by
  unfold MockSettings.nonNegative legacySettings
  norm_num

theorem int32_one : int32 ((1 : Nat) : Int) = 1 := by decide

/-- The end-to-end scenario: one order of one item, nothing else. -/
theorem scenario_outlet (outletID : String) (w : World T) :
    ∃ (o : OutletDetails F T) (w2 : World T),
      (GenerateMockedOutlet outletID scenarioSettings : Gen F T _) w = Except.ok (o, w2) ∧
      o.OrderHistory.length = 1 ∧ (∀ ord ∈ o.OrderHistory, ord.Items.length = 1) ∧
      o.VisitHistory = [] ∧ o.OutletsNearby = [] ∧ o.Notes = [] ∧ o.AssetList = [] ∧
      o.Checklist = [] ∧ o.News = [] ∧ o.Statistics.TopProducts = [] ∧
      o.Statistics.TotalOrdersYtd = 1 := by
  obtain ⟨o, w2, h⟩ :=
    GenerateMockedOutlet_returns (F := F) outletID scenarioSettings scenarioSettings_countsFit w
  obtain ⟨hv, ho, ⟨wa, wb, hst⟩, hn, hnotes, ha, hc, hnews⟩ :=
    GenerateMockedOutlet_built outletID scenarioSettings w w2 o h
  have hlen : o.OrderHistory.length = 1 := by
    have hp := sizedBy_policy (1 : Int) _ _ (fun c => generateOrderHistory_length (F := F) c _)
      (by decide) (by decide) ho
    exact hp.2.1 rfl
  have hitems : ∀ ord ∈ o.OrderHistory, ord.Items.length = 1 := by
    intro ord hord
    rcases ho with ⟨hneg, _⟩ | ⟨_, c, w3, w4, w5, _, hrun⟩
    · exact absurd hneg (by decide)
    · obtain ⟨drawn, wc, wd, hdrawn, hl⟩ := generateOrderHistory_items c _ w4 w5 _ hrun ord hord
      have hd : (randomizeCount (1 : Int) : Gen F T Int) wc = Except.ok (drawn, wd) := hdrawn
      rw [randomizeCount_small 1 (by decide) wc] at hd
      simp only [Except.ok.injEq, Prod.mk.injEq] at hd
      obtain ⟨hd1, _⟩ := hd
      subst hd1
      simpa using hl
  obtain ⟨_, _, hyt, _, htop⟩ := generateStatistics_made _ _ _ wa wb _ hst
  refine ⟨o, w2, h, hlen, hitems, sizedBy_zero _ _ hv, sizedBy_zero _ _ hn,
    sizedBy_zero _ _ hnotes, sizedBy_zero _ _ ha, sizedBy_zero _ _ hc, sizedBy_zero _ _ hnews,
    ?_, ?_⟩
  · have h0 : (o.Statistics.TopProducts.length : Int) = 0 := htop
    exact List.length_eq_zero.mp (by omega)
  · rw [hyt, hlen]
    exact int32_one

/-- C10: for every settings of machine integers with averages that are not
negative and every outcome, in every outlet that GenerateMockedOutlet returns
each of the seven outlet-level lists (VisitHistory, OrderHistory,
OutletsNearby, Notes, AssetList, Checklist, News) has a length that follows
the sizing policy for its own average A: empty when A = 0, one element when
A = 1, between A/2 and A + A/2 when A >= 2; an outlet is returned whenever
every count of the settings is a length that `make` accepts (`countsFit`).
And with every average 0 except
AverageNumberOfOrders = 1 and AverageOrderItemsPerOrder = 1 the outlet is
returned, with exactly one order of one item, every other list empty, and
Statistics.TotalOrdersYtd = 1. -/
theorem GenerateMockedOutlet_list_sizes (outletID : String) (settings : MockSettings)
    (hint : settings.isInt) (h0 : settings.nonNegative) (w : World T) :
    (∀ (o : OutletDetails F T) (w2 : World T),
      (GenerateMockedOutlet outletID settings : Gen F T _) w = Except.ok (o, w2) →
        followsPolicy settings.AverageVisitHistory o.VisitHistory.length ∧
        followsPolicy settings.AverageNumberOfOrders o.OrderHistory.length ∧
        followsPolicy settings.AverageOutletsNearby o.OutletsNearby.length ∧
        followsPolicy settings.AverageNotesList o.Notes.length ∧
        followsPolicy settings.AverageAssetList o.AssetList.length ∧
        followsPolicy settings.AverageChecklist o.Checklist.length ∧
        followsPolicy settings.AverageNews o.News.length) ∧
    (settings.countsFit → ∃ (o : OutletDetails F T) (w2 : World T),
      (GenerateMockedOutlet outletID settings : Gen F T _) w = Except.ok (o, w2)) ∧
    (∃ (o : OutletDetails F T) (w2 : World T),
      (GenerateMockedOutlet outletID scenarioSettings : Gen F T _) w = Except.ok (o, w2) ∧
      o.OrderHistory.length = 1 ∧ (∀ ord ∈ o.OrderHistory, ord.Items.length = 1) ∧
      o.VisitHistory = [] ∧ o.OutletsNearby = [] ∧ o.Notes = [] ∧ o.AssetList = [] ∧
      o.Checklist = [] ∧ o.News = [] ∧ o.Statistics.TopProducts = [] ∧
      o.Statistics.TotalOrdersYtd = 1) :=
  ⟨fun o w2 h => policy_of_built settings o hint h0
      (GenerateMockedOutlet_built outletID settings w w2 o h),
    fun hs => GenerateMockedOutlet_returns outletID settings hs w,
    scenario_outlet outletID w⟩

/-- C10 (witness): the settings of generateMockOutletDetails from the sample
world, in exact arithmetic; the outlet is returned. -/
theorem GenerateMockedOutlet_list_sizes_witness :
    legacySettings.isInt ∧ legacySettings.nonNegative ∧
    (∃ (o : OutletDetails ℚ Int) (w2 : World Int),
      (GenerateMockedOutlet "outlet-1" legacySettings : Gen ℚ Int _) sampleWorld
        = Except.ok (o, w2)) ∧
    ((∀ (o : OutletDetails ℚ Int) (w2 : World Int),
      (GenerateMockedOutlet "outlet-1" legacySettings : Gen ℚ Int _) sampleWorld
          = Except.ok (o, w2) →
        followsPolicy legacySettings.AverageVisitHistory o.VisitHistory.length ∧
        followsPolicy legacySettings.AverageNumberOfOrders o.OrderHistory.length ∧
        followsPolicy legacySettings.AverageOutletsNearby o.OutletsNearby.length ∧
        followsPolicy legacySettings.AverageNotesList o.Notes.length ∧
        followsPolicy legacySettings.AverageAssetList o.AssetList.length ∧
        followsPolicy legacySettings.AverageChecklist o.Checklist.length ∧
        followsPolicy legacySettings.AverageNews o.News.length) ∧
    (legacySettings.countsFit → ∃ (o : OutletDetails ℚ Int) (w2 : World Int),
      (GenerateMockedOutlet "outlet-1" legacySettings : Gen ℚ Int _) sampleWorld
        = Except.ok (o, w2)) ∧
    (∃ (o : OutletDetails ℚ Int) (w2 : World Int),
      (GenerateMockedOutlet "outlet-1" scenarioSettings : Gen ℚ Int _) sampleWorld
        = Except.ok (o, w2) ∧
      o.OrderHistory.length = 1 ∧ (∀ ord ∈ o.OrderHistory, ord.Items.length = 1) ∧
      o.VisitHistory = [] ∧ o.OutletsNearby = [] ∧ o.Notes = [] ∧ o.AssetList = [] ∧
      o.Checklist = [] ∧ o.News = [] ∧ o.Statistics.TopProducts = [] ∧
      o.Statistics.TotalOrdersYtd = 1)) :=
  ⟨legacySettings_isInt, legacySettings_nonNegative,
    GenerateMockedOutlet_returns "outlet-1" legacySettings legacySettings_countsFit sampleWorld,
    GenerateMockedOutlet_list_sizes "outlet-1" legacySettings legacySettings_isInt
      legacySettings_nonNegative sampleWorld⟩

end Claim10

/-! ## C5: the year-to-date counters of the statistics -/

section Claim5

variable {F T : Type} [Float64Ops F] [TimeOps T]

theorem int32_of_small (n : Nat) (h : n < 2147483648) : int32 (n : Int) = n := by
  unfold int32
  omega

theorem int32_lt (x : Int) : int32 x < 2147483648 := by
  unfold int32
  omega

theorem sizedBy_nonpos {α : Type} (A : Int) (hA : A ≤ 0) (builder : Int → Gen F T (List α))
    (xs : List α) (h : sizedBy A builder xs) : xs = [] := by
  rcases h with ⟨_, hxs⟩ | ⟨hpos, _⟩
  · exact hxs
  · omega

theorem manyOrdersSettings_countsFit : manyOrdersSettings.countsFit := by
  unfold MockSettings.countsFit countFits manyOrdersSettings maxLen
  norm_num

/-- C5 (counterexample): asked for 2^32 orders on average, GenerateMockedOutlet
returns an outlet with at least 2^31 orders, and TotalOrdersYtd, an int32, is
not their number. -/
theorem totalOrdersYtd_wraps :
    ∃ (o : OutletDetails ℚ Int) (w2 : World Int),
      (GenerateMockedOutlet "outlet-1" manyOrdersSettings : Gen ℚ Int _) sampleWorld
        = Except.ok (o, w2) ∧
      (2147483648 : Int) ≤ o.OrderHistory.length ∧
      o.Statistics.TotalOrdersYtd ≠ (o.OrderHistory.length : Int) := by
  obtain ⟨o, w2, h⟩ := GenerateMockedOutlet_returns (F := ℚ) "outlet-1" manyOrdersSettings
    manyOrdersSettings_countsFit sampleWorld
  obtain ⟨_, ho, ⟨wa, wb, hst⟩, _⟩ :=
    GenerateMockedOutlet_built "outlet-1" manyOrdersSettings sampleWorld w2 o h
  have hp := (sizedBy_policy (4294967296 : Int) _ _
    (fun c => generateOrderHistory_length (F := ℚ) (T := Int) c _)
    (by decide) (by decide) ho).2.2 (by decide)
  obtain ⟨_, _, hyt, _⟩ := generateStatistics_made _ _ _ wa wb _ hst
  have hlow : (2147483648 : Int) ≤ o.OrderHistory.length := by omega
  refine ⟨o, w2, h, hlow, ?_⟩
  rw [hyt]
  have := int32_lt (o.OrderHistory.length : Int)
  omega

/-- C5 (amended): in every outlet that GenerateMockedOutlet returns,
TotalOrdersYtd is the int32 conversion of the number of orders of OrderHistory
and TotalVisitsYtd that of the number of visits of VisitHistory; each equals
the number itself whenever the number is below 2^31, and both are zero when the
corresponding list was not generated. -/
theorem GenerateMockedOutlet_ytd_counts (outletID : String) (settings : MockSettings)
    (w w2 : World T) (o : OutletDetails F T)
    (h : (GenerateMockedOutlet outletID settings : Gen F T _) w = Except.ok (o, w2)) :
    o.Statistics.TotalOrdersYtd = int32 o.OrderHistory.length ∧
    o.Statistics.TotalVisitsYtd = int32 o.VisitHistory.length ∧
    (o.OrderHistory.length < 2147483648 →
      o.Statistics.TotalOrdersYtd = o.OrderHistory.length) ∧
    (o.VisitHistory.length < 2147483648 →
      o.Statistics.TotalVisitsYtd = o.VisitHistory.length) ∧
    (settings.AverageNumberOfOrders ≤ 0 →
      o.OrderHistory = [] ∧ o.Statistics.TotalOrdersYtd = 0) ∧
    (settings.AverageVisitHistory ≤ 0 →
      o.VisitHistory = [] ∧ o.Statistics.TotalVisitsYtd = 0) := by
  obtain ⟨hv, ho, ⟨wa, wb, hst⟩, _⟩ := GenerateMockedOutlet_built outletID settings w w2 o h
  obtain ⟨_, _, hyt, hvt, _⟩ := generateStatistics_made _ _ _ wa wb _ hst
  refine ⟨hyt, hvt, ?_, ?_, ?_, ?_⟩
  · intro hl
    rw [hyt, int32_of_small _ hl]
  · intro hl
    rw [hvt, int32_of_small _ hl]
  · intro hA
    have he := sizedBy_nonpos _ hA _ _ ho
    refine ⟨he, ?_⟩
    rw [hyt, he]
    exact int32_of_small 0 (by decide)
  · intro hA
    have he := sizedBy_nonpos _ hA _ _ hv
    refine ⟨he, ?_⟩
    rw [hvt, he]
    exact int32_of_small 0 (by decide)

/-- C5 (witness): the outlet of the settings of generateMockOutletDetails from
the sample world has fewer than 2^31 orders and visits, and the two counters
are their numbers. -/
theorem GenerateMockedOutlet_ytd_counts_witness :
    ∃ (o : OutletDetails ℚ Int) (w2 : World Int),
      (GenerateMockedOutlet "outlet-1" legacySettings : Gen ℚ Int _) sampleWorld
        = Except.ok (o, w2) ∧
      o.Statistics.TotalOrdersYtd = o.OrderHistory.length ∧
      o.Statistics.TotalVisitsYtd = o.VisitHistory.length ∧
      o.OrderHistory.length ≠ 0 ∧ o.VisitHistory.length ≠ 0 := by
  obtain ⟨o, w2, h⟩ := GenerateMockedOutlet_returns (F := ℚ) "outlet-1" legacySettings
    legacySettings_countsFit sampleWorld
  obtain ⟨hv, ho, _⟩ := policy_of_built legacySettings o legacySettings_isInt
    legacySettings_nonNegative (GenerateMockedOutlet_built "outlet-1" legacySettings _ w2 o h)
  have hv2 := hv.2.2 (by decide)
  have ho2 := ho.2.2 (by decide)
  have hv3 : (3 : Int) / 2 = 1 := by decide
  have ho3 : (5 : Int) / 2 = 2 := by decide
  have e1 : legacySettings.AverageVisitHistory = 3 := rfl
  have e2 : legacySettings.AverageNumberOfOrders = 5 := rfl
  rw [e1, hv3] at hv2
  rw [e2, ho3] at ho2
  obtain ⟨_, _, h3, h4, _⟩ := GenerateMockedOutlet_ytd_counts "outlet-1" legacySettings _ w2 o h
  exact ⟨o, w2, h, h3 (by omega), h4 (by omega), by omega, by omega⟩

end Claim5

/-! ## C11: the items average of zero -/

section Claim11

variable {F T : Type} [Float64Ops F] [TimeOps T]

theorem calculateOrderTotal_single (it : OrderItem F) :
    calculateOrderTotal [it] = fadd (ofRat 0) it.TotalPrice := rfl

/-- With an items average of zero every order that generateOrderHistory
returns has exactly one item. -/
theorem generateOrderHistory_zero_items (count : Int) (w w2 : World T)
    (orders : List (Order F T))
    (h : (generateOrderHistory count 0 : Gen F T _) w = Except.ok (orders, w2)) :
    ∀ o ∈ orders, o.Items.length = 1 := by
  intro o ho
  obtain ⟨drawn, wa, wb, hdrawn, hl⟩ := generateOrderHistory_items count 0 w w2 orders h o ho
  rw [randomizeCount_small 0 (by decide) wa] at hdrawn
  simp only [Except.ok.injEq, Prod.mk.injEq] at hdrawn
  obtain ⟨hd, _⟩ := hdrawn
  subst hd
  simpa using hl

/-- C11 (counterexample): with AverageOrderItemsPerOrder = 0 and one order asked
for, generateOrderHistory returns one order, and its Items list is not empty. -/
theorem zero_items_average_still_one_item :
    ∃ (orders : List (Order ℚ Int)) (w2 : World Int),
      (generateOrderHistory 1 0 : Gen ℚ Int _) sampleWorld = Except.ok (orders, w2) ∧
      orders.length = 1 ∧ ∀ o ∈ orders, o.Items ≠ [] := by
  obtain ⟨orders, w2, h⟩ :=
    generateOrderHistory_returns (F := ℚ) 1 0 (by decide) (by decide) (by decide) (by decide)
      sampleWorld
  refine ⟨orders, w2, h, ?_, ?_⟩
  · have := generateOrderHistory_length 1 0 sampleWorld w2 orders h
    omega
  · intro o ho he
    have h1 := generateOrderHistory_zero_items 1 sampleWorld w2 orders h o ho
    rw [he] at h1
    cases h1

/-- C11 (amended): the items average is the one average whose zero does not
disable its list: for every order count, every outcome and every float64
arithmetic, when AverageOrderItemsPerOrder is 0 every order that
generateOrderHistory returns has exactly one item (the count 0 is replaced by
1), and its TotalAmount is that item's TotalPrice added to 0. -/
theorem generateOrderHistory_zero_average (count : Int) (w w2 : World T)
    (orders : List (Order F T))
    (h : (generateOrderHistory count 0 : Gen F T _) w = Except.ok (orders, w2)) :
    (orders.length : Int) = count ∧
    ∀ o ∈ orders, ∃ it : OrderItem F,
      o.Items = [it] ∧ o.TotalAmount = fadd (ofRat 0) it.TotalPrice := by
  refine ⟨generateOrderHistory_length count 0 w w2 orders h, ?_⟩
  intro o ho
  have h1 := generateOrderHistory_zero_items count w w2 orders h o ho
  obtain ⟨k, hk⟩ := List.mem_iff_getElem?.mp ho
  have h2 := (generateOrderHistory_all count 0 w w2 orders h).2 k o hk
  obtain ⟨it, hit⟩ := List.length_eq_one.mp h1
  exact ⟨it, hit, by rw [h2, hit, calculateOrderTotal_single]⟩

/-- C11 (witness): three orders with an items average of zero from the sample
world, in exact arithmetic. -/
theorem generateOrderHistory_zero_average_witness :
    ∃ (orders : List (Order ℚ Int)) (w2 : World Int),
      (generateOrderHistory 3 0 : Gen ℚ Int _) sampleWorld = Except.ok (orders, w2) ∧
      (orders.length : Int) = 3 ∧
      ∀ o ∈ orders, ∃ it : OrderItem ℚ,
        o.Items = [it] ∧ o.TotalAmount = fadd (ofRat 0) it.TotalPrice := by
  obtain ⟨orders, w2, h⟩ :=
    generateOrderHistory_returns (F := ℚ) 3 0 (by decide) (by decide) (by decide) (by decide)
      sampleWorld
  exact ⟨orders, w2, h, generateOrderHistory_zero_average 3 sampleWorld w2 orders h⟩

end Claim11

/-! ## C12: the number of top products -/

section Claim12

variable {F T : Type} [Float64Ops F] [TimeOps T]

/-- In every outlet that GenerateMockedOutlet returns there are exactly as many
top products as the setting AverageTopProductsInStatistics says: the setting
is handed to generateTopProducts as the count, without randomizeCount. -/
theorem topProducts_exact (outletID : String) (settings : MockSettings) (w w2 : World T)
    (o : OutletDetails F T)
    (h : (GenerateMockedOutlet outletID settings : Gen F T _) w = Except.ok (o, w2)) :
    (o.Statistics.TopProducts.length : Int) = settings.AverageTopProductsInStatistics := by
  obtain ⟨_, _, ⟨wa, wb, hst⟩, _⟩ := GenerateMockedOutlet_built outletID settings w w2 o h
  exact (generateStatistics_made _ _ _ wa wb _ hst).2.2.2.2

/-- C12 (the code at the failing input): with AverageTopProductsInStatistics = 5
the count 2 lies in the jitter interval `[5/2, 5 + 5/2]`, yet no outcome of the
random source gives an outlet with 2 top products: the outlet of the sample
world has 5, as has every outlet returned with these settings. -/
theorem topProducts_not_jittered :
    ((5 : Int) / 2 ≤ 2 ∧ (2 : Int) ≤ 5 + 5 / 2) ∧
    (¬ ∃ (w : World Int) (o : OutletDetails ℚ Int) (w2 : World Int),
      (GenerateMockedOutlet "outlet-1" legacySettings : Gen ℚ Int _) w = Except.ok (o, w2) ∧
      o.Statistics.TopProducts.length = 2) ∧
    (∃ (o : OutletDetails ℚ Int) (w2 : World Int),
      (GenerateMockedOutlet "outlet-1" legacySettings : Gen ℚ Int _) sampleWorld
        = Except.ok (o, w2) ∧
      o.Statistics.TopProducts.length = 5) := by
  refine ⟨by decide, ?_, ?_⟩
  · rintro ⟨w, o, w2, h, h2⟩
    have h5 := topProducts_exact "outlet-1" legacySettings w w2 o h
    have e : legacySettings.AverageTopProductsInStatistics = 5 := rfl
    rw [e, h2] at h5
    omega
  · obtain ⟨o, w2, h⟩ := GenerateMockedOutlet_returns (F := ℚ) "outlet-1" legacySettings
      legacySettings_countsFit sampleWorld
    have h5 := topProducts_exact "outlet-1" legacySettings sampleWorld w2 o h
    have e : legacySettings.AverageTopProductsInStatistics = 5 := rfl
    rw [e] at h5
    exact ⟨o, w2, h, by omega⟩

end Claim12

/-! ## C14: GenerateMockedOutlet returns unless a count is out of range -/

section Claim14

variable {F T : Type} [Float64Ops F] [TimeOps T]

theorem overflowSettings_isInt : overflowSettings.isInt := by
  unfold MockSettings.isInt overflowSettings maxInt
  norm_num

theorem overflowSettings_nonNegative : overflowSettings.nonNegative := by
  unfold MockSettings.nonNegative overflowSettings
  norm_num

theorem tooLongSettings_isInt : tooLongSettings.isInt := by
  unfold MockSettings.isInt tooLongSettings maxInt
  norm_num

theorem tooLongSettings_nonNegative : tooLongSettings.nonNegative := by
  unfold MockSettings.nonNegative tooLongSettings
  norm_num

theorem countsFit_of_fits (settings : MockSettings) (h0 : settings.nonNegative)
    (hfit : ∀ A ∈ settings.jitterAverages, A + A / 2 ≤ maxLen)
    (htop : settings.AverageTopProductsInStatistics ≤ maxLen) : settings.countsFit := by
  obtain ⟨_, _, _, n4, n5, _⟩ := h0
  have hf : ∀ A ∈ settings.jitterAverages, countFits A := hfit
  simp only [MockSettings.jitterAverages, List.mem_cons, List.mem_singleton, forall_eq_or_imp,
    forall_eq, List.not_mem_nil, false_implies, implies_true, and_true] at hf
  obtain ⟨f1, f2, f3, f4, f5, f6, f7, f8⟩ := hf
  exact ⟨f5, f1, f2, ⟨n4, f3⟩, ⟨n5, htop⟩, f4, f6, f7, f8⟩

/-- A list that generateVisitHistory returned is no longer than `maxLen`. -/
theorem generateVisitHistory_fits (c : Int) (w w2 : World T) (xs : List (Visit T))
    (h : (generateVisitHistory c : Gen F T _) w = Except.ok (xs, w2)) : c ≤ maxLen := by
  unfold generateVisitHistory at h
  have := makeAndFill_fits _ c w w2 xs h
  unfold maxAlloc at this
  unfold maxLen
  omega

/-- With a visit average of 2^47 GenerateMockedOutlet returns from no world:
every count of the jitter interval is at least 2^46. -/
theorem tooLongSettings_never_returns (outletID : String) (w w2 : World T)
    (o : OutletDetails F T) :
    (GenerateMockedOutlet outletID tooLongSettings : Gen F T _) w ≠ Except.ok (o, w2) := by
  intro h
  obtain ⟨hv, _⟩ := GenerateMockedOutlet_built outletID tooLongSettings w w2 o h
  rcases hv with ⟨hneg, _⟩ | ⟨_, c, wa, wb, wc, hc, hrun⟩
  · exact absurd hneg (by decide)
  · have hc2 : (randomizeCount (140737488355328 : Int) : Gen F T Int) wa
        = Except.ok (c, wb) := hc
    rw [randomizeCount_exact _ (by decide) (by decide) wa] at hc2
    simp only [Except.ok.injEq, Prod.mk.injEq] at hc2
    obtain ⟨hcv, _⟩ := hc2
    have hfit := generateVisitHistory_fits c wb wc _ hrun
    have hr := Int.emod_nonneg (wa.rng 0 : Int) (show (140737488355328 : Int) + 1 ≠ 0 by decide)
    unfold maxLen at hfit
    omega

/-- C14 (counterexample): the settings with AverageVisitHistory = 9223372036854775807
and every other average 0 are non-negative machine integers, and
GenerateMockedOutlet panics on them: `A + A/2` overflows and `rand.Intn` is
handed a bound that is not positive. With AverageVisitHistory = 2^47 nothing
overflows, and GenerateMockedOutlet panics as well, in every float64
arithmetic: the count that randomizeCount returns, at least 2^46, is a length
that `make` does not accept; no outcome of the random source and the clock
gives an outlet. -/
theorem GenerateMockedOutlet_overflow_panics :
    (overflowSettings.isInt ∧ overflowSettings.nonNegative ∧
      (GenerateMockedOutlet "outlet-1" overflowSettings : Gen ℚ Int _) sampleWorld
        = Except.error "invalid argument to Intn") ∧
    (tooLongSettings.isInt ∧ tooLongSettings.nonNegative ∧
      (∀ A ∈ tooLongSettings.jitterAverages, A + A / 2 ≤ maxInt) ∧
      (∀ (F : Type) [Float64Ops F],
        (GenerateMockedOutlet "outlet-1" tooLongSettings : Gen F Int _) sampleWorld
          = Except.error "makeslice: len out of range") ∧
      (∀ (F : Type) [Float64Ops F] (w w2 : World Int) (o : OutletDetails F Int),
        (GenerateMockedOutlet "outlet-1" tooLongSettings : Gen F Int _) w
          ≠ Except.ok (o, w2))) := by
  refine ⟨⟨overflowSettings_isInt, overflowSettings_nonNegative, rfl⟩,
    tooLongSettings_isInt, tooLongSettings_nonNegative, ?_, fun _ _ => rfl,
    fun _ _ w w2 o => tooLongSettings_never_returns "outlet-1" w w2 o⟩
  unfold MockSettings.jitterAverages tooLongSettings maxInt
  simp

/-- C14 (amended): for every outlet identifier, every settings whose nine
averages are not negative, whose eight averages that go through
randomizeCount have a sum `A + A/2` of at most `maxLen = 2^45` (the sum then
does not overflow, and every count is a length that `make` accepts for a
slice of pointers) and whose number of top products is at most `maxLen`, and
every outcome of the random source and the clock, GenerateMockedOutlet
returns an outlet: no `make` gets a length out of range, no `rand.Intn` a
bound that is not positive, no index is out of range. -/
theorem GenerateMockedOutlet_total (outletID : String) (settings : MockSettings)
    (h0 : settings.nonNegative)
    (hfit : ∀ A ∈ settings.jitterAverages, A + A / 2 ≤ maxLen)
    (htop : settings.AverageTopProductsInStatistics ≤ maxLen) (w : World T) :
    ∃ (o : OutletDetails F T) (w2 : World T),
      (GenerateMockedOutlet outletID settings : Gen F T _) w = Except.ok (o, w2) :=
  GenerateMockedOutlet_returns outletID settings (countsFit_of_fits settings h0 hfit htop) w

/-- C14 (witness): the settings of generateMockOutletDetails from the sample
world, in exact arithmetic. -/
theorem GenerateMockedOutlet_total_witness :
    legacySettings.nonNegative ∧
    (∀ A ∈ legacySettings.jitterAverages, A + A / 2 ≤ maxLen) ∧
    legacySettings.AverageTopProductsInStatistics ≤ maxLen ∧
    ∃ (o : OutletDetails ℚ Int) (w2 : World Int),
      (GenerateMockedOutlet "outlet-1" legacySettings : Gen ℚ Int _) sampleWorld
        = Except.ok (o, w2) := by
  have hfit : ∀ A ∈ legacySettings.jitterAverages, A + A / 2 ≤ maxLen := by
    unfold MockSettings.jitterAverages legacySettings maxLen
    simp
  have htop : legacySettings.AverageTopProductsInStatistics ≤ maxLen := by decide
  exact ⟨legacySettings_nonNegative, hfit, htop,
    GenerateMockedOutlet_total "outlet-1" legacySettings legacySettings_nonNegative hfit htop
      sampleWorld⟩

end Claim14

/-! ## C13: the identifiers of the entities of a list -/

section Decimal

theorem decimalValue_append_single (cs : List Char) (c : Char) :
    decimalValue (cs ++ [c]) = decimalValue cs * 10 + (c.toNat - 48) := by
  unfold decimalValue
  rw [List.foldl_append]
  rfl

theorem digitChar_value : ∀ d, d < 10 → (fmt.digitChar d).toNat - 48 = d := by
  unfold fmt.digitChar
  decide

theorem decimalValue_digits (fuel : Nat) : ∀ n, n < fuel → decimalValue (fmt.digits fuel n) = n := by
  induction fuel with
  | zero => intro n h; omega
  | succ fuel ih =>
    intro n h
    unfold fmt.digits
    split_ifs with h10
    · have := digitChar_value n h10
      simp only [decimalValue, List.foldl_cons, List.foldl_nil, Nat.zero_mul, Nat.zero_add]
      exact this
    · rw [decimalValue_append_single, ih (n / 10) (by omega),
        digitChar_value (n % 10) (Nat.mod_lt _ (by decide))]
      omega

theorem decimalValue_zeros (k : Nat) (cs : List Char) :
    decimalValue (List.replicate k '0' ++ cs) = decimalValue cs := by
  unfold decimalValue
  rw [List.foldl_append]
  congr 1
  induction k with
  | zero => rfl
  | succ k ih =>
    rw [List.replicate_succ, List.foldl_cons]
    exact ih

theorem mk_append_data (cs : List Char) (s : String) :
    (String.mk cs ++ s).data = cs ++ s.data := by
  rw [String.data_append]

/-- The verb `%0<width>d` prints a number that is not negative as digits that
stand for it. -/
theorem decimalValue_d (width : Nat) (n : Int) (hn : 0 ≤ n) :
    decimalValue (fmt.d width n).data = n.natAbs := by
  unfold fmt.d
  simp only
  rw [if_neg (by omega), mk_append_data, decimalValue_zeros]
  unfold fmt.natDec
  exact decimalValue_digits _ _ (by omega)

theorem d_injective (width : Nat) (a b : Int) (ha : 0 ≤ a) (hb : 0 ≤ b)
    (h : fmt.d width a = fmt.d width b) : a = b := by
  have h1 := decimalValue_d width a ha
  have h2 := decimalValue_d width b hb
  rw [h] at h1
  omega

theorem append_left_cancel (p a b : String) (h : p ++ a = p ++ b) : a = b := by
  have h1 := congrArg String.data h
  rw [String.data_append, String.data_append] at h1
  exact String.ext (List.append_cancel_left h1)

/-- A list whose identifiers are numbered by position has no identifier twice. -/
theorem numbered_nodup (pfx : String) (ids : List String)
    (h : ∀ (k : Nat) (s : String), ids[k]? = some s → s = pfx ++ fmt.d 3 ((k : Int) + 1)) :
    ids.Nodup := by
  rw [List.nodup_iff_getElem?_ne_getElem?]
  intro i j hij hj heq
  have hi : i < ids.length := by omega
  have e1 := h i ids[i] (List.getElem?_eq_getElem hi)
  have e2 := h j ids[j] (List.getElem?_eq_getElem hj)
  rw [List.getElem?_eq_getElem hi, List.getElem?_eq_getElem hj, Option.some.injEq] at heq
  rw [e1, e2] at heq
  have := d_injective 3 _ _ (by omega) (by omega) (append_left_cancel _ _ _ heq)
  omega

theorem builtNumbered_of_spec {α : Type} (pfx : String) (n : Int) (xs : List α)
    (ident : α → String) (hlen : (xs.length : Int) = n)
    (h : ∀ (k : Nat) (x : α), xs[k]? = some x → ident x = pfx ++ fmt.d 3 ((k : Int) + 1)) :
    builtNumbered pfx n (xs.map ident) := by
  have hnum : ∀ (k : Nat) (s : String), (xs.map ident)[k]? = some s →
      s = pfx ++ fmt.d 3 ((k : Int) + 1) := by
    intro k s hk
    rw [List.getElem?_map] at hk
    cases hx : xs[k]? with
    | none => rw [hx] at hk; cases hk
    | some x =>
      rw [hx] at hk
      simp only [Option.map_some', Option.some.injEq] at hk
      rw [← hk]
      exact h k x hx
  exact ⟨by rw [List.length_map]; exact hlen, hnum, numbered_nodup pfx _ hnum⟩

end Decimal

section Claim13

variable {F T : Type} [Float64Ops F] [TimeOps T] {α : Type}

theorem built_of_spec (run : Gen F T (List α)) (pfx : String) (n : Int) (ident : α → String)
    (hspec : (∀ (w w2 : World T) (xs : List α), run w = Except.ok (xs, w2) →
        (xs.length : Int) = n ∧
          ∀ (k : Nat) (x : α), xs[k]? = some x → ident x = pfx ++ fmt.d 3 ((k : Int) + 1)) ∧
      (0 ≤ n → n ≤ maxLen → ∀ w : World T, ∃ xs w2, run w = Except.ok (xs, w2)))
    (hn : 0 ≤ n) (hm : n ≤ maxLen) (w : World T) :
    ∃ xs w2, run w = Except.ok (xs, w2) ∧ builtNumbered pfx n (xs.map ident) := by
  obtain ⟨xs, w2, h⟩ := hspec.2 hn hm w
  obtain ⟨hlen, hid⟩ := hspec.1 w w2 xs h
  exact ⟨xs, w2, h, builtNumbered_of_spec pfx n xs ident hlen hid⟩

theorem generateContactPoints_ids (n : Int) (hn : 0 ≤ n) (hm : n ≤ maxLen)
    (w : World T) :
    ∃ xs w2, (generateContactPoints n : Gen F T _) w = Except.ok (xs, w2) ∧
      builtNumbered "contact-" n (xs.map (fun x => x.ContactId)) := by
  refine built_of_spec _ "contact-" n _ ?_ hn hm w
  unfold generateContactPoints
  refine makeAndFill_spec_ptr _
    (fun i (x : ContactPoint T) => x.ContactId = "contact-" ++ fmt.d 3 (i + 1)) ?_ n
  intro E i w
  simp only [sat_bind, sat_pure, sat_Now, sat_Intn_pos, sat_randomChoice, sat_randomString,
    Int.reduceLT, Int.reduceLE, implies_true]

theorem generateVisitActions_ids (n : Int) (hn : 0 ≤ n) (hm : n ≤ maxLen)
    (w : World T) :
    ∃ xs w2, (generateVisitActions n : Gen F T _) w = Except.ok (xs, w2) ∧
      builtNumbered "action-" n (xs.map (fun x => x.ActionId)) := by
  refine built_of_spec _ "action-" n _ ?_ hn hm w
  unfold generateVisitActions
  refine makeAndFill_spec_ptr _
    (fun i (x : VisitAction T) => x.ActionId = "action-" ++ fmt.d 3 (i + 1)) ?_ n
  intro E i w
  simp only [sat_bind, sat_pure, sat_Now, sat_Intn_pos, sat_randomChoice, randomActionType,
    randomActionStatus, sat_Intn_length, sat_index_mod, ne_eq, reduceCtorEq, not_false_eq_true,
    Int.reduceLT, implies_true]

theorem generateVisitHistory_ids (n : Int) (hn : 0 ≤ n) (hm : n ≤ maxLen)
    (w : World T) :
    ∃ xs w2, (generateVisitHistory n : Gen F T _) w = Except.ok (xs, w2) ∧
      builtNumbered "visit-" n (xs.map (fun x => x.VisitId)) := by
  refine built_of_spec _ "visit-" n _ ?_ hn hm w
  unfold generateVisitHistory
  refine makeAndFill_spec_ptr _
    (fun i (x : Visit T) => x.VisitId = "visit-" ++ fmt.d 3 (i + 1)) ?_ n
  intro E i w
  simp only [sat_bind, sat_pure, sat_Now, sat_Intn_pos, sat_randomChoice, randomVisitType,
    sat_of_returns_mod _ generateVisitActions generateVisitActions_returns,
    sat_Intn_length, sat_index_mod, ne_eq, reduceCtorEq, not_false_eq_true,
    Int.reduceLT, Int.reduceLE, implies_true]

theorem generateOrderHistory_ids (n avg : Int) (w w2 : World T) (xs : List (Order F T))
    (h : (generateOrderHistory n avg : Gen F T _) w = Except.ok (xs, w2)) :
    builtNumbered "order-" n (xs.map (fun x => x.OrderId)) := by
  refine builtNumbered_of_spec "order-" n xs _ (generateOrderHistory_length n avg w w2 xs h) ?_
  unfold generateOrderHistory at h
  refine makeAndFill_all _ (fun i (x : Order F T) => x.OrderId = "order-" ++ fmt.d 3 (i + 1))
    ?_ n w w2 xs h
  intro i w
  simp only [sat_bind, sat_pure, sat_Now, sat_Intn_pos, sat_true_iff (randomizeCount _),
    sat_true_iff (generateOrderItems _), sat_randomChoice, generatePaymentInfo,
    randomPaymentMethod, generateDeliveryInfo, randomOrderStatus, sat_Intn_length,
    sat_index_mod, ne_eq, reduceCtorEq, not_false_eq_true, Int.reduceLT, implies_true]

theorem generateTopProducts_ids (n : Int) (hn : 0 ≤ n) (hm : n ≤ maxLen)
    (w : World T) :
    ∃ xs w2, (generateTopProducts n : Gen F T _) w = Except.ok (xs, w2) ∧
      builtNumbered "prod-" n (xs.map (fun x => x.ProductId)) := by
  by_cases h0 : n = 0
  · refine ⟨[], w, ?_, ?_⟩
    · unfold generateTopProducts
      rw [if_pos h0]
      rfl
    · exact builtNumbered_of_spec "prod-" n [] _ (by simp [h0]) (by intro k x hk; simp at hk)
  · refine built_of_spec _ "prod-" n _ ?_ hn hm w
    unfold generateTopProducts
    rw [if_neg h0]
    refine makeAndFill_spec_ptr _
      (fun i (x : ProductStatistics F) => x.ProductId = "prod-" ++ fmt.d 3 (i + 1)) ?_ n
    intro E i w
    simp only [sat_bind, sat_pure, sat_Float64, sat_Intn_pos, sat_randomChoice,
      Int.reduceLT, implies_true]

theorem generateNearbyOutlets_ids (n : Int) (base : Location F) (hn : 0 ≤ n)
    (hm : n ≤ maxLen) (w : World T) :
    ∃ xs w2, (generateNearbyOutlets n base : Gen F T _) w = Except.ok (xs, w2) ∧
      builtNumbered "nearby-outlet-" n (xs.map (fun x => x.OutletId)) := by
  refine built_of_spec _ "nearby-outlet-" n _ ?_ hn hm w
  unfold generateNearbyOutlets
  refine makeAndFill_spec_ptr _
    (fun i (x : OutletNearby F) => x.OutletId = "nearby-outlet-" ++ fmt.d 3 (i + 1)) ?_ n
  intro E i w
  simp only [sat_bind, sat_pure, sat_Float64, sat_Intn_pos, sat_randomChoice, randomOutletType,
    generateNearbyLocation, sat_Intn_length, sat_index_mod, ne_eq, reduceCtorEq,
    not_false_eq_true, Int.reduceLT, implies_true]

theorem generateNotes_ids (n : Int) (hn : 0 ≤ n) (hm : n ≤ maxLen)
    (w : World T) :
    ∃ xs w2, (generateNotes n : Gen F T _) w = Except.ok (xs, w2) ∧
      builtNumbered "note-" n (xs.map (fun x => x.NoteId)) := by
  refine built_of_spec _ "note-" n _ ?_ hn hm w
  unfold generateNotes
  refine makeAndFill_spec_ptr _
    (fun i (x : Note T) => x.NoteId = "note-" ++ fmt.d 3 (i + 1)) ?_ n
  intro E i w
  simp only [sat_bind, sat_pure, sat_Now, sat_Float64, sat_Intn_pos, sat_randomChoice,
    sat_Intn_length _ _ noteTypes_ne_nil, sat_index_mod _ _ noteTypes_ne_nil,
    Int.reduceLT, implies_true]

theorem generateAssets_ids (n : Int) (hn : 0 ≤ n) (hm : n ≤ maxLen)
    (w : World T) :
    ∃ xs w2, (generateAssets n : Gen F T _) w = Except.ok (xs, w2) ∧
      builtNumbered "asset-" n (xs.map (fun x => x.AssetId)) := by
  refine built_of_spec _ "asset-" n _ ?_ hn hm w
  unfold generateAssets
  refine makeAndFill_spec_ptr _
    (fun i (x : Asset F T) => x.AssetId = "asset-" ++ fmt.d 3 (i + 1)) ?_ n
  intro E i w
  simp only [sat_bind, sat_pure, sat_Now, sat_Intn_pos, sat_randomChoice, sat_randomString,
    sat_of_returns_mod _ generateMaintenanceHistory generateMaintenanceHistory_returns,
    sat_Intn_length _ _ assetTypes_ne_nil, sat_index_mod _ _ assetTypes_ne_nil,
    Int.reduceLT, Int.reduceLE, implies_true]

theorem generateChecklist_ids (n : Int) (hn : 0 ≤ n) (hm : n ≤ maxLen)
    (w : World T) :
    ∃ xs w2, (generateChecklist n : Gen F T _) w = Except.ok (xs, w2) ∧
      builtNumbered "check-" n (xs.map (fun x => x.ItemId)) := by
  refine built_of_spec _ "check-" n _ ?_ hn hm w
  unfold generateChecklist
  refine makeAndFill_spec_ptr _
    (fun i (x : ChecklistItem T) => x.ItemId = "check-" ++ fmt.d 3 (i + 1)) ?_ n
  intro E i w
  unfold checklistItemAt
  simp only [sat_bind, sat_pure, sat_Now, sat_Float64, sat_Intn_pos, sat_randomChoice,
    randomPriority, sat_ite, sat_Intn_length, sat_index_mod, ne_eq, reduceCtorEq,
    not_false_eq_true, checklistCategories_ne_nil, Int.reduceLT, implies_true, and_self]

theorem generateNews_ids (n : Int) (hn : 0 ≤ n) (hm : n ≤ maxLen)
    (w : World T) :
    ∃ xs w2, (generateNews n : Gen F T _) w = Except.ok (xs, w2) ∧
      builtNumbered "news-" n (xs.map (fun x => x.NewsId)) := by
  refine built_of_spec _ "news-" n _ ?_ hn hm w
  unfold generateNews
  refine makeAndFill_spec_ptr _
    (fun i (x : News T) => x.NewsId = "news-" ++ fmt.d 3 (i + 1)) ?_ n
  intro E i w
  simp only [sat_bind, sat_pure, sat_Now, sat_Float64, sat_Intn_pos, sat_randomChoice,
    randomNewsType, randomNewsSource, sat_Intn_length, sat_index_mod, ne_eq, reduceCtorEq,
    not_false_eq_true, Int.reduceLT, implies_true]

/-- C13 (counterexample): asked for `2^45 + 1 >= 0` notes, generateNotes returns
no list at all: `make` panics on the length, whatever the outcome of the
random source and the arithmetic. And asked for one order with an items
average of -1, generateOrderHistory returns no list either: the item count -1
is handed to `make`. -/
theorem builders_panic_out_of_range :
    (0 : Int) ≤ 35184372088833 ∧
    (∀ (F : Type) [Float64Ops F] (w : World Int),
      (generateNotes 35184372088833 : Gen F Int _) w
        = Except.error "makeslice: len out of range") ∧
    (0 : Int) ≤ 1 ∧
    (∀ (F : Type) [Float64Ops F],
      (generateOrderHistory 1 (-1) : Gen F Int _) sampleWorld
        = Except.error "makeslice: len out of range") := by
  refine ⟨by decide, ?_, by decide, fun _ _ => rfl⟩
  intro F _ w
  unfold generateNotes
  exact makeAndFill_too_long _ _ (by decide) w

/-- C13 (amended): for every requested count `n` that `make` accepts for a
slice of pointers (`0 <= n <= maxLen = 2^45`) and every outcome, each of the
ten list builders returns exactly `n` entities, the `i`-th of which (counted
from 1) carries the identifier made of the builder's own prefix (contact-,
visit-, action-, order-, prod-, nearby-outlet-, note-, asset-, check-, news-)
and `i` under `%03d` (its decimal digits after zeros up to three digits);
hence no identifier occurs twice in a list. For generateOrderHistory this
holds of every result, whatever the items average, and a result there is
whenever that average is not negative and its jitter interval stays within
`maxLen`. -/
theorem builders_number_their_entities (n : Int) (hn : 0 ≤ n) (hm : n ≤ maxLen)
    (w : World T) :
    (∃ xs w2, (generateContactPoints n : Gen F T _) w = Except.ok (xs, w2) ∧
      builtNumbered "contact-" n (xs.map (fun x => x.ContactId))) ∧
    (∃ xs w2, (generateVisitHistory n : Gen F T _) w = Except.ok (xs, w2) ∧
      builtNumbered "visit-" n (xs.map (fun x => x.VisitId))) ∧
    (∃ xs w2, (generateVisitActions n : Gen F T _) w = Except.ok (xs, w2) ∧
      builtNumbered "action-" n (xs.map (fun x => x.ActionId))) ∧
    (∀ avg : Int,
      (∀ (xs : List (Order F T)) (w2 : World T),
        (generateOrderHistory n avg : Gen F T _) w = Except.ok (xs, w2) →
        builtNumbered "order-" n (xs.map (fun x => x.OrderId))) ∧
      (0 ≤ avg → avg + avg / 2 ≤ maxLen →
        ∃ xs w2, (generateOrderHistory n avg : Gen F T _) w = Except.ok (xs, w2) ∧
          builtNumbered "order-" n (xs.map (fun x => x.OrderId)))) ∧
    (∃ xs w2, (generateTopProducts n : Gen F T _) w = Except.ok (xs, w2) ∧
      builtNumbered "prod-" n (xs.map (fun x => x.ProductId))) ∧
    (∀ base : Location F,
      ∃ xs w2, (generateNearbyOutlets n base : Gen F T _) w = Except.ok (xs, w2) ∧
        builtNumbered "nearby-outlet-" n (xs.map (fun x => x.OutletId))) ∧
    (∃ xs w2, (generateNotes n : Gen F T _) w = Except.ok (xs, w2) ∧
      builtNumbered "note-" n (xs.map (fun x => x.NoteId))) ∧
    (∃ xs w2, (generateAssets n : Gen F T _) w = Except.ok (xs, w2) ∧
      builtNumbered "asset-" n (xs.map (fun x => x.AssetId))) ∧
    (∃ xs w2, (generateChecklist n : Gen F T _) w = Except.ok (xs, w2) ∧
      builtNumbered "check-" n (xs.map (fun x => x.ItemId))) ∧
    (∃ xs w2, (generateNews n : Gen F T _) w = Except.ok (xs, w2) ∧
      builtNumbered "news-" n (xs.map (fun x => x.NewsId))) :=
  ⟨generateContactPoints_ids n hn hm w, generateVisitHistory_ids n hn hm w,
    generateVisitActions_ids n hn hm w,
    fun avg => ⟨fun xs w2 h => generateOrderHistory_ids n avg w w2 xs h,
      fun h0 hmax => by
        obtain ⟨xs, w2, h⟩ := generateOrderHistory_returns (F := F) n avg hn hm h0 hmax w
        exact ⟨xs, w2, h, generateOrderHistory_ids n avg w w2 xs h⟩⟩,
    generateTopProducts_ids n hn hm w, fun base => generateNearbyOutlets_ids n base hn hm w,
    generateNotes_ids n hn hm w, generateAssets_ids n hn hm w, generateChecklist_ids n hn hm w,
    generateNews_ids n hn hm w⟩

/-- C13 (witness): lists of two entities from the sample world, in exact
arithmetic; and the verb `%03d` on 1, 12 and 1000. -/
theorem builders_number_their_entities_witness :
    (0 : Int) ≤ 2 ∧ (2 : Int) ≤ maxLen ∧
    (fmt.d 3 1 = "001" ∧ fmt.d 3 12 = "012" ∧ fmt.d 3 1000 = "1000" ∧
      "visit-" ++ fmt.d 3 (((1 : Nat) : Int) + 1) = "visit-002") ∧
    ((∃ xs w2, (generateContactPoints 2 : Gen ℚ Int _) sampleWorld = Except.ok (xs, w2) ∧
      builtNumbered "contact-" 2 (xs.map (fun x => x.ContactId))) ∧
    (∃ xs w2, (generateVisitHistory 2 : Gen ℚ Int _) sampleWorld = Except.ok (xs, w2) ∧
      builtNumbered "visit-" 2 (xs.map (fun x => x.VisitId))) ∧
    (∃ xs w2, (generateVisitActions 2 : Gen ℚ Int _) sampleWorld = Except.ok (xs, w2) ∧
      builtNumbered "action-" 2 (xs.map (fun x => x.ActionId))) ∧
    (∀ avg : Int,
      (∀ (xs : List (Order ℚ Int)) (w2 : World Int),
        (generateOrderHistory 2 avg : Gen ℚ Int _) sampleWorld = Except.ok (xs, w2) →
        builtNumbered "order-" 2 (xs.map (fun x => x.OrderId))) ∧
      (0 ≤ avg → avg + avg / 2 ≤ maxLen →
        ∃ xs w2, (generateOrderHistory 2 avg : Gen ℚ Int _) sampleWorld = Except.ok (xs, w2) ∧
          builtNumbered "order-" 2 (xs.map (fun x => x.OrderId)))) ∧
    (∃ xs w2, (generateTopProducts 2 : Gen ℚ Int _) sampleWorld = Except.ok (xs, w2) ∧
      builtNumbered "prod-" 2 (xs.map (fun x => x.ProductId))) ∧
    (∀ base : Location ℚ,
      ∃ xs w2, (generateNearbyOutlets 2 base : Gen ℚ Int _) sampleWorld = Except.ok (xs, w2) ∧
        builtNumbered "nearby-outlet-" 2 (xs.map (fun x => x.OutletId))) ∧
    (∃ xs w2, (generateNotes 2 : Gen ℚ Int _) sampleWorld = Except.ok (xs, w2) ∧
      builtNumbered "note-" 2 (xs.map (fun x => x.NoteId))) ∧
    (∃ xs w2, (generateAssets 2 : Gen ℚ Int _) sampleWorld = Except.ok (xs, w2) ∧
      builtNumbered "asset-" 2 (xs.map (fun x => x.AssetId))) ∧
    (∃ xs w2, (generateChecklist 2 : Gen ℚ Int _) sampleWorld = Except.ok (xs, w2) ∧
      builtNumbered "check-" 2 (xs.map (fun x => x.ItemId))) ∧
    (∃ xs w2, (generateNews 2 : Gen ℚ Int _) sampleWorld = Except.ok (xs, w2) ∧
      builtNumbered "news-" 2 (xs.map (fun x => x.NewsId)))) :=
  ⟨by decide, by decide, by decide,
    builders_number_their_entities 2 (by decide) (by decide) sampleWorld⟩

end Claim13

/-! ## C15: the count header of handleOutletDetails -/

section Claim15

variable {F T D : Type} [Float64Ops F] [TimeOps T]

theorem handlerSettings_countsFit : handlerSettings.countsFit := by
  unfold MockSettings.countsFit countFits handlerSettings maxLen
  norm_num

theorem gatherOutlets_returns (outletID : String) (settings : MockSettings)
    (hs : settings.countsFit) (views : Nat → World T) (n : Nat) :
    ∀ i, ∃ details : List (OutletDetails F T),
      gatherOutlets outletID settings views n i = Except.ok details ∧ details.length = n := by
  induction n with
  | zero => intro i; exact ⟨[], rfl, rfl⟩
  | succ n ih =>
    intro i
    obtain ⟨o, w2, ho⟩ := GenerateMockedOutlet_returns (F := F) outletID settings hs (views i)
    obtain ⟨rest, hrest, hlen⟩ := ih (i + 1)
    refine ⟨o :: rest, ?_, by simp [hlen]⟩
    unfold gatherOutlets
    rw [ho]
    simp only
    rw [hrest]

/-- A request without the secret is answered 401, whatever else it carries. -/
theorem handleOutletDetails_unauthorized (marshal : Marshal F T D) (views : Nat → World T)
    (r : Request) (hauth : validateSecretKey r = false) :
    handleOutletDetails marshal views r
      = Response.error "Unauthorized - Invalid secret key" 401 := by
  unfold handleOutletDetails
  simp [hauth]

/-- An authorized request whose count header does not parse is answered 400;
no outlet is generated (the answer does not depend on the worlds). -/
theorem handleOutletDetails_unparseable (marshal : Marshal F T D) (views : Nat → World T)
    (r : Request) (hauth : validateSecretKey r = true) (hset : r.header "X-Outlet-Num" ≠ "")
    (hparse : strconv.Atoi (r.header "X-Outlet-Num") = none) :
    handleOutletDetails marshal views r = Response.error "Invalid X-Outlet-Num header" 400 := by
  unfold handleOutletDetails
  simp [hauth, hset, hparse]

/-- Both channels of the handler can be made when the count is at most
`2^44 - 7`: then `16 * n <= maxAlloc - 104`. -/
theorem makechan_ok (n : Int) (hn : 0 ≤ n) (hm : n ≤ 17592186044409) :
    makechanPanics 8 n = false ∧ makechanPanics 16 n = false := by
  unfold makechanPanics maxAlloc hchanSize
  constructor <;> simp only [decide_eq_false_iff_not] <;> omega

/-- An authorized request whose count header parses to `n >= 0`, with `n`
small enough for the two channels to be made (`n <= 2^44 - 7`), has exactly
`n` outlets handed to the encoder. -/
theorem handleOutletDetails_count (marshal : Marshal F T D) (views : Nat → World T)
    (r : Request) (hauth : validateSecretKey r = true) (n : Int) (hn : 0 ≤ n)
    (hm : n ≤ 17592186044409)
    (hparse : strconv.Atoi (if r.header "X-Outlet-Num" = "" then "100"
      else r.header "X-Outlet-Num") = some n) :
    ∃ details : List (OutletDetails F T), (details.length : Int) = n ∧
      handleOutletDetails marshal views r =
        (if r.header "Accept" = "application/protobuf" then
          match marshal.proto details with
          | none => Response.error "Error encoding response" 500
          | some data => Response.ok "application/protobuf" data
        else
          match marshal.protojson details with
          | none => Response.error "Error encoding response" 500
          | some data => Response.ok "application/json" data) := by
  obtain ⟨details, hd, hlen⟩ := gatherOutlets_returns (F := F)
    (if r.outletIdParam = "" then "outlet-001" else r.outletIdParam) handlerSettings
    handlerSettings_countsFit views n.toNat 0
  obtain ⟨h8, h16⟩ := makechan_ok n hn hm
  refine ⟨details, by omega, ?_⟩
  unfold handleOutletDetails
  simp only [hauth, Bool.not_true, Bool.false_eq_true, if_false, hparse, h8, h16]
  rw [hd]

/-- A count header beyond what the channels can hold makes the handler panic:
`2^46` parses, and `make(chan .., 2^46)` is out of range. -/
theorem handleOutletDetails_huge_count (marshal : Marshal F T D) (views : Nat → World T) :
    handleOutletDetails marshal views (requestFor "70368744177664")
      = Response.panicked "makechan: size out of range" := rfl

/-- C15 (the code at the failing input): an authorized request with the header
`X-Outlet-Num: -1`. `strconv.Atoi` parses "-1" without an error, so the
request is not answered with the bad-request response; the handler goes on to
`make(chan .., -1)` and panics there, whatever the encoders and the worlds. -/
theorem handleOutletDetails_negative_count (marshal : Marshal F T D)
    (views : Nat → World T) :
    validateSecretKey (requestFor "-1") = true ∧
    strconv.Atoi "-1" = some (-1) ∧
    handleOutletDetails marshal views (requestFor "-1")
      = Response.panicked "makechan: size out of range" ∧
    handleOutletDetails marshal views (requestFor "-1")
      ≠ Response.error "Invalid X-Outlet-Num header" 400 := by
  have h : handleOutletDetails marshal views (requestFor "-1")
      = Response.panicked "makechan: size out of range" := rfl
  refine ⟨by decide, by decide, h, ?_⟩
  rw [h]
  intro hne
  cases hne

/-- The parts of the contract that the code keeps: "abc" is answered 400, and
"3" gives three outlets. -/
theorem handleOutletDetails_examples :
    handleOutletDetails (plainMarshal ℚ Int) (fun _ => sampleWorld) (requestFor "abc")
      = Response.error "Invalid X-Outlet-Num header" 400 ∧
    ∃ details : List (OutletDetails ℚ Int), (details.length : Int) = 3 ∧
      handleOutletDetails (plainMarshal ℚ Int) (fun _ => sampleWorld) (requestFor "3")
        = Response.ok "application/json" details := by
  constructor
  · exact handleOutletDetails_unparseable _ _ _ (by decide) (by decide) (by decide)
  · obtain ⟨details, hlen, h⟩ := handleOutletDetails_count (plainMarshal ℚ Int)
      (fun _ => sampleWorld) (requestFor "3") (by decide) 3 (by decide) (by decide) (by decide)
    exact ⟨details, hlen, h⟩

end Claim15

end Mock
